import Mathlib

/-!
# libcartpp: the CaRT decoder of `cart.hpp`

A shallow embedding of `cart.hpp` (classes `Rc4`, `ZlibInflate`, `CartObject`,
function `json::from_string`) and theorems about it.

Conventions of the embedding.

* A `uint8_t` is a `Fin 256`; a `std::vector<uint8_t>` is a list of them.
* The target is an LP64 little-endian host: `size_t`, `uint64_t` and
  `ptrdiff_t` have 64 bits, `int` and zlib's `uInt` have 32 bits, and the
  packed structs overlaid on the buffer read their integers little-endian.
* The three libraries the header calls (OpenSSL EVP, zlib, jsoncpp) are
  parameters of the model, collected in `Env`.  The general theorems hold for
  every `Env`; closed examples use the concrete instances defined further down.
* A thrown `std::runtime_error` is the outcome `throws w`, where `w : What`
  names the `what()` text; behaviour the C++ standard leaves undefined
  (an iterator range outside the vector, a null `msg` appended to a string)
  is the outcome `undefined`; a loop of the embedding that did not finish
  within its bound is `unfinished`.
-/

namespace Cart

/-- A `uint8_t`. -/
abbrev Byte := Fin 256

/-- A `std::vector<uint8_t>` (also a `std::string` of raw bytes). -/
abbrev Bytes := List Byte

/-- A `std::array<uint8_t, 16>`. -/
abbrev Key := { k : Bytes // k.length = 16 }

/-- The `what()` text of each `std::runtime_error` thrown in `cart.hpp`. -/
inductive What where
  /-- text `"Failed to parse '" + src + "' as json with '" + errors + "'"` -/
  | failed_to_parse (src : Bytes) (errors : String)
  /-- text `"Cipher init failed."` -/
  | cipher_init_failed
  /-- text `"Decrypt init failed."` -/
  | decrypt_init_failed
  /-- text `"Decrypt update failed."` -/
  | decrypt_update_failed
  /-- text `"Inflate init failed."` -/
  | inflate_init_failed
  /-- text `"Error while inflating: " + zlib_stream.msg` -/
  | error_while_inflating (msg : String)
  /-- text `"Trailing data was present after zlib decompression completed."` -/
  | trailing_data
  /-- text `"Inflate end failed: " + zlib_stream.msg` -/
  | inflate_end_failed (msg : String)
  /-- text `"Provided CaRT data is not big enough for at least the mandatory header and footer; ..."` -/
  | too_small
  /-- text `"CaRT optional header did not parse as valid JSON: " + e.what()` -/
  | opt_header_json (inner : What)
  /-- text `"CaRT optional footer did not parse as valid JSON: " + e.what()` -/
  | opt_footer_json (inner : What)
  deriving DecidableEq, Repr

/-- The bytes of a `std::string` read as text (one character per byte). -/
def bytes_to_string (b : Bytes) : String :=
  String.mk (b.map (fun c => Char.ofNat c.val))

/-- The message text carried by the exception. -/
def What.what : What → String
  | .failed_to_parse src errors =>
      "Failed to parse \x27" ++ bytes_to_string src ++ "\x27 as json with \x27" ++ errors ++ "\x27"
  | .cipher_init_failed => "Cipher init failed."
  | .decrypt_init_failed => "Decrypt init failed."
  | .decrypt_update_failed => "Decrypt update failed."
  | .inflate_init_failed => "Inflate init failed."
  | .error_while_inflating msg => "Error while inflating: " ++ msg
  | .trailing_data => "Trailing data was present after zlib decompression completed."
  | .inflate_end_failed msg => "Inflate end failed: " ++ msg
  | .too_small =>
      "Provided CaRT data is not big enough for at least the mandatory header and footer; this is probably "
        ++ "not a full CaRT file."
  | .opt_header_json inner => "CaRT optional header did not parse as valid JSON: " ++ inner.what
  | .opt_footer_json inner => "CaRT optional footer did not parse as valid JSON: " ++ inner.what

/-- What running a piece of `cart.hpp` ends in. -/
inductive Outcome (α : Type) where
  /-- normal return -/
  | ok (a : α)
  /-- a `std::runtime_error` was thrown -/
  | throws (w : What)
  /-- undefined behaviour was reached -/
  | undefined
  /-- the round bound of the embedding ran out before the loop ended -/
  | unfinished
  deriving DecidableEq, Repr

/-- Sequencing: run `f` on the value of a normal return, pass anything else on. -/
def Outcome.bind {α β : Type} (x : Outcome α) (f : α → Outcome β) : Outcome β :=
  match x with
  | .ok a => f a
  | .throws w => .throws w
  | .undefined => .undefined
  | .unfinished => .unfinished

/-! ## jsoncpp -/

mutual
/-- A `Json::Value`. A default-constructed `Json::Value` is `null`. -/
inductive JsonValue where
  | null
  | bool (b : Bool)
  | number (n : Int)
  | string (s : Bytes)
  | array (items : JsonArray)
  | object (members : JsonObject)
  deriving DecidableEq
/-- The elements of a JSON array, in order. -/
inductive JsonArray where
  | nil
  | cons (head : JsonValue) (tail : JsonArray)
  deriving DecidableEq
/-- The members of a JSON object, keyed by strings. -/
inductive JsonObject where
  | nil
  | cons (key : Bytes) (value : JsonValue) (tail : JsonObject)
  deriving DecidableEq
end

/-! ## The libraries as parameters -/

/-- The OpenSSL EVP calls made by class `Rc4`. -/
structure EVP where
  /-- an `EVP_CIPHER_CTX` -/
  CTX : Type
  /-- call `EVP_CIPHER_CTX_new()`; `none` is `nullptr` -/
  CIPHER_CTX_new : Option CTX
  /-- call `EVP_DecryptInit(ctx, EVP_rc4(), key, nullptr)`; `none` is the return value 0 -/
  DecryptInit : CTX → Key → Option CTX
  /-- call `EVP_DecryptUpdate(ctx, out, &outl, in, inl)` given the bytes at `in` and
  the `int` passed as `inl`; `none` is the return value 0, otherwise the new
  context and the `outl` bytes written to `out` -/
  DecryptUpdate : CTX → Bytes → Int → Option (CTX × Bytes)

/-- What one call `inflate(&zlib_stream, Z_SYNC_FLUSH)` did. -/
structure InflateResult (σ : Type) where
  /-- return value -/
  ret : Int
  /-- the internal state afterwards -/
  state : σ
  /-- number of bytes by which `next_in` advanced -/
  consumed : Nat
  /-- the bytes written at `next_out` -/
  output : Bytes
  /-- value of `zlib_stream.msg` afterwards; `none` is a null pointer -/
  msg : Option String

/-- The zlib calls made by class `ZlibInflate`. -/
structure Zlib where
  /-- the `internal_state` of a `z_stream` -/
  State : Type
  /-- call `inflateInit(&zlib_stream)`; `none` when it does not return `Z_OK` -/
  inflateInit : Option State
  /-- call `inflate(&zlib_stream, Z_SYNC_FLUSH)` given the `avail_in` bytes at
  `next_in` and the value of `avail_out` -/
  inflate : State → Bytes → Nat → InflateResult State
  /-- call `inflateEnd(&zlib_stream)`: return value and `msg` afterwards -/
  inflateEnd : State → Int × Option String

/-- The libraries `cart.hpp` is compiled against. -/
structure Env where
  evp : EVP
  zlib : Zlib
  /-- call `Json::CharReader::parse(begin, end, &dst, &errors)`: the parsed root, or
  the `errors` text when it returns false -/
  parse : Bytes → Except String JsonValue

/-! ## `json::from_string` -/

/-- Function `json::from_string(src)`. -/
def from_string (E : Env) (src : Bytes) : Outcome JsonValue :=
  match E.parse src with
  | .error errors => .throws (.failed_to_parse src errors)
  | .ok dst => .ok dst

/-! ## class `Rc4` -/

/-- Conversion of a `size_t` to `int` (the `inl` argument). -/
def to_int (n : Nat) : Int :=
  if n % 2 ^ 32 < 2 ^ 31 then (n % 2 ^ 32 : Nat) else ((n % 2 ^ 32 : Nat) : Int) - 2 ^ 32

/-- Constructor `Rc4::Rc4(key)`. -/
def Rc4.new (E : Env) (key : Key) : Outcome E.evp.CTX :=
  match E.evp.CIPHER_CTX_new with
  | none => .throws .cipher_init_failed
  | some ctx =>
    match E.evp.DecryptInit ctx key with
    | none => .throws .decrypt_init_failed
    | some ctx1 => .ok ctx1

/-- Method `Rc4::decrypt_next(input)`: the context afterwards and the returned vector. -/
def Rc4.decrypt_next (E : Env) (ctx : E.evp.CTX) (input : Bytes) : Outcome (E.evp.CTX × Bytes) :=
  match E.evp.DecryptUpdate ctx input (to_int input.length) with
  | none => .throws .decrypt_update_failed
  | some (ctx1, written) =>
    -- `return_val` has `input.size()` bytes; it is then resized to `bytes_written`
    if written.length ≤ input.length then .ok (ctx1, written) else .undefined

/-- A local `Rc4 rc4{rc4_key}` followed by one `rc4.decrypt_next(input)`. -/
def fresh_decrypt (E : Env) (key : Key) (input : Bytes) : Outcome Bytes :=
  (Rc4.new E key).bind fun ctx =>
  (Rc4.decrypt_next E ctx input).bind fun r =>
  .ok r.2

/-! ## class `ZlibInflate` -/

def Z_OK : Int := 0
def Z_STREAM_END : Int := 1

/-- Value of `output_buffer.max_size()` of the `std::array<uint8_t, 65536>`. -/
def output_buffer_size : Nat := 65536

/-- The fields of `zlib_stream` the code reads and writes. -/
structure z_stream (σ : Type) where
  next_in : Bytes
  avail_in : Nat
  avail_out : Nat
  state : σ
  msg : Option String

/-- Constructor `ZlibInflate::ZlibInflate()`. -/
def ZlibInflate.new (E : Env) : Outcome (z_stream E.zlib.State) :=
  match E.zlib.inflateInit with
  | none => .throws .inflate_init_failed
  | some s => .ok { next_in := [], avail_in := 0, avail_out := 0, state := s, msg := none }

/-- The `while` loop of `inflate_next`. `ret` is the variable declared before
the loop; the status of each round is the inner `ret1` (in the source it is a
second variable named `ret`, declared inside the loop body). -/
def inflate_loop (E : Env) : Nat → Int → z_stream E.zlib.State → Bytes →
    Outcome (z_stream E.zlib.State × Bytes)
  | fuel, ret, z, return_buffer =>
    if z.avail_in > 0 ∧ ret = Z_OK ∧ z.avail_out = 0 then
      match fuel with
      | 0 => .unfinished
      | fuel1 + 1 =>
        let r := E.zlib.inflate z.state (z.next_in.take z.avail_in) output_buffer_size
        let z1 : z_stream E.zlib.State :=
          { next_in := z.next_in.drop r.consumed
            avail_in := z.avail_in - r.consumed
            avail_out := output_buffer_size - r.output.length
            state := r.state
            msg := r.msg }
        let ret1 := r.ret
        if ret1 ≠ Z_OK ∧ ret1 ≠ Z_STREAM_END then
          match z1.msg with
          | none => .undefined
          | some m => .throws (.error_while_inflating m)
        else
          inflate_loop E fuel1 ret z1 (return_buffer ++ r.output)
    else .ok (z, return_buffer)

/-- Method `ZlibInflate::inflate_next(input)`: the stream afterwards and the returned
vector. `fuel` bounds the number of rounds. -/
def ZlibInflate.inflate_next (E : Env) (fuel : Nat) (z0 : z_stream E.zlib.State) (input : Bytes) :
    Outcome (z_stream E.zlib.State × Bytes) :=
  let z : z_stream E.zlib.State :=
    { z0 with next_in := input, avail_in := input.length % 2 ^ 32, avail_out := 0 }
  let ret : Int := Z_OK
  match inflate_loop E fuel ret z [] with
  | .ok (z1, return_buffer) =>
    if ret = Z_STREAM_END then
      if z1.avail_in ≠ 0 then .throws .trailing_data
      else
        match E.zlib.inflateEnd z1.state with
        | (r, msg) =>
          if r ≠ Z_OK then
            match msg with
            | none => .undefined
            | some m => .throws (.inflate_end_failed m)
          else .ok ({ z1 with msg := msg }, return_buffer)
    else .ok (z1, return_buffer)
  | .throws w => .throws w
  | .undefined => .undefined
  | .unfinished => .unfinished

/-- A local `ZlibInflate zlib_inflate` followed by one
`zlib_inflate.inflate_next(input)`. -/
def fresh_inflate (E : Env) (fuel : Nat) (input : Bytes) : Outcome Bytes :=
  (ZlibInflate.new E).bind fun z0 =>
  (ZlibInflate.inflate_next E fuel z0 input).bind fun r =>
  .ok r.2

/-! ## class `CartObject` -/

/-- The packed `struct CartHeader`. -/
structure CartHeader where
  cart : Bytes
  version : Nat
  reserved : Nat
  rc4_key : Bytes
  opt_header_len : Nat
  deriving DecidableEq, Repr

/-- The packed `struct CartFooter`. -/
structure CartFooter where
  tarc : Bytes
  reserved : Nat × Nat
  opt_footer_len : Nat
  deriving DecidableEq, Repr

/-- Value of `sizeof(CartHeader)`: `char[4]`, `uint16_t`, `uint64_t`, `uint8_t[16]`, `uint64_t`, packed. -/
def sizeof_CartHeader : Nat := 4 + 2 + 8 + 16 + 8

/-- Value of `sizeof(CartFooter)`: `char[4]`, `uint64_t[2]`, `uint64_t`, packed. -/
def sizeof_CartFooter : Nat := 4 + 2 * 8 + 8

/-- The unsigned integer stored little-endian in `bs`. -/
def le_uint : Bytes → Nat
  | [] => 0
  | b :: bs => b.val + 256 * le_uint bs

/-- The bytes of `v` at offsets `a ≤ i < b`. -/
def slice (v : Bytes) (a b : Nat) : Bytes := (v.drop a).take (b - a)

/-- Reading `*reinterpret_cast<CartHeader*>(p)` where `p` points at the bytes `p`. -/
def read_CartHeader (p : Bytes) : CartHeader :=
  { cart := slice p 0 4
    version := le_uint (slice p 4 6)
    reserved := le_uint (slice p 6 14)
    rc4_key := slice p 14 30
    opt_header_len := le_uint (slice p 30 38) }

/-- Reading `*reinterpret_cast<CartFooter*>(p)` where `p` points at the bytes `p`. -/
def read_CartFooter (p : Bytes) : CartFooter :=
  { tarc := slice p 0 4
    reserved := (le_uint (slice p 4 12), le_uint (slice p 12 20))
    opt_footer_len := le_uint (slice p 20 28) }

/-- Conversion of a `uint64_t` to the iterator `difference_type` (`ptrdiff_t`). -/
def to_difference_type (n : Nat) : Int :=
  if n % 2 ^ 64 < 2 ^ 63 then (n % 2 ^ 64 : Nat) else ((n % 2 ^ 64 : Nat) : Int) - 2 ^ 64

/-- The vector built from the iterator pair `(v.begin() + first, v.begin() + last)`.
The iterators must lie within `[begin, end]` and be in order; anything else is
undefined behaviour. -/
def vector_range (v : Bytes) (first last : Int) : Outcome Bytes :=
  if 0 ≤ first ∧ first ≤ last ∧ last ≤ v.length then .ok (slice v first.toNat last.toNat)
  else .undefined

/-- The members of a constructed `CartObject`. -/
structure CartObject where
  cart_header : CartHeader
  cart_opt_header : JsonValue
  encoded_file : Bytes
  decoded_file : Bytes
  cart_opt_footer : JsonValue
  cart_footer : CartFooter
  deriving DecidableEq

/-- Constant `CartObject::DEFAULT_RC4_KEY`. -/
def DEFAULT_RC4_KEY : Key := ⟨[3, 1, 4, 1, 5, 9, 2, 6, 3, 1, 4, 1, 5, 9, 2, 6], rfl⟩

/-- Constant `CartObject::BLOCK_SIZE`. -/
def BLOCK_SIZE : Nat := 64 * 1024

/-- Lines 161-174 of `cart.hpp`: the value of `cart_opt_header` after them. -/
def opt_header_stage (E : Env) (cart_input : Bytes) (cart_header : CartHeader) (rc4_key : Key) :
    Outcome JsonValue :=
  if cart_header.opt_header_len > 0 then
    (vector_range cart_input sizeof_CartHeader
      (sizeof_CartHeader + to_difference_type cart_header.opt_header_len)).bind fun header_enc =>
    (fresh_decrypt E rc4_key header_enc).bind fun header_enc1 =>
    match from_string E header_enc1 with
    | .throws e => .throws (.opt_header_json e)
    | r => r
  else .ok .null

/-- Lines 176-189 of `cart.hpp`: the value of `cart_opt_footer` after them. -/
def opt_footer_stage (E : Env) (cart_input : Bytes) (cart_footer : CartFooter) (rc4_key : Key) :
    Outcome JsonValue :=
  if cart_footer.opt_footer_len > 0 then
    (vector_range cart_input
      (cart_input.length - sizeof_CartFooter - to_difference_type cart_footer.opt_footer_len)
      (cart_input.length - sizeof_CartFooter)).bind fun footer_enc =>
    (fresh_decrypt E rc4_key footer_enc).bind fun footer_enc1 =>
    match from_string E footer_enc1 with
    | .throws e => .throws (.opt_footer_json e)
    | r => r
  else .ok .null

/-- Constructor `CartObject::CartObject(cart_input, rc4_key)`. `fuel` bounds the
number of inflate rounds. -/
def CartObject.new (E : Env) (fuel : Nat) (cart_input : Bytes) (rc4_key : Key) : Outcome CartObject :=
  if cart_input.length < sizeof_CartHeader + sizeof_CartFooter then .throws .too_small
  else
    let cart_header := read_CartHeader cart_input
    (opt_header_stage E cart_input cart_header rc4_key).bind fun cart_opt_header =>
    let cart_footer := read_CartFooter (cart_input.drop (cart_input.length - 1 - sizeof_CartFooter + 1))
    (opt_footer_stage E cart_input cart_footer rc4_key).bind fun cart_opt_footer =>
    (vector_range cart_input
      (sizeof_CartHeader + to_difference_type cart_header.opt_header_len)
      (cart_input.length - sizeof_CartFooter - to_difference_type cart_footer.opt_footer_len)).bind
      fun encoded_file =>
    (fresh_decrypt E rc4_key encoded_file).bind fun decoded_file =>
    (fresh_inflate E fuel decoded_file).bind fun decoded_file1 =>
    .ok { cart_header := cart_header
          cart_opt_header := cart_opt_header
          encoded_file := encoded_file
          decoded_file := decoded_file1
          cart_opt_footer := cart_opt_footer
          cart_footer := cart_footer }

/-- Constructor `CartObject::CartObject(cart_input)` with the key argument left out. -/
def CartObject.new_default (E : Env) (fuel : Nat) (cart_input : Bytes) : Outcome CartObject :=
  CartObject.new E fuel cart_input DEFAULT_RC4_KEY

/-! ## Concrete libraries

Instances of the library parameters, used by the closed examples.

* `openssl_rc4` is RC4 as OpenSSL's `EVP_rc4()` computes it (16-byte key).
* `zlib_stored` follows zlib's `inflate()` on zlib streams whose deflate blocks
  are all stored blocks (block type 0), the output of `compress2` at level 0.
  A block of type 1 or 2 (Huffman codes) is outside this fragment and is
  reported with the return value `Z_NOT_MODELLED`, which zlib does not have.
* `jsoncpp_flat` follows jsoncpp's `CharReader` on the texts `null`, `true`,
  `false`, a string without escapes, and an object whose members have distinct
  keys and such values, optionally surrounded by blanks.  Any other text is
  reported as a parse error here, which jsoncpp need not do.
-/

/-- OpenSSL's `RC4_KEY`: the two indices and the permutation. The array
`data[256]` is held as one number, entry `i` being its base-256 digit `i`. -/
structure RC4_KEY where
  x : Nat
  y : Nat
  data : Nat
  deriving DecidableEq, Repr

/-- Entry `i` of the permutation. -/
def rc4_get (S i : Nat) : Nat := S / 256 ^ i % 256

/-- The permutation with entry `i` replaced by `v`. -/
def rc4_put (S i v : Nat) : Nat := S - rc4_get S i * 256 ^ i + v * 256 ^ i

/-- Exchange of the entries `i` and `j` of the permutation. -/
def rc4_swap (S i j : Nat) : Nat :=
  rc4_put (rc4_put S i (rc4_get S j)) j (rc4_get S i)

/-- The array whose first `n` entries are `0, 1, ..., n - 1`. -/
def rc4_identity : Nat → Nat
  | 0 => 0
  | n + 1 => rc4_identity n + n * 256 ^ n

/-- The key schedule, `n` steps from index `i`. -/
def rc4_ksa_loop (key : List Nat) : Nat → Nat → Nat → Nat → Nat
  | 0, _, _, S => S
  | n + 1, i, j, S =>
    let j1 := (j + rc4_get S i + key.getD (i % key.length) 0) % 256
    rc4_ksa_loop key n (i + 1) j1 (rc4_swap S i j1)

/-- Function `RC4_set_key`. -/
def RC4_set_key (key : List Nat) : RC4_KEY :=
  { x := 0, y := 0, data := rc4_ksa_loop key 256 0 0 (rc4_identity 256) }

/-- Function `RC4`: the key stream is xored onto the data. -/
def RC4 : RC4_KEY → Bytes → RC4_KEY × Bytes
  | k, [] => (k, [])
  | k, b :: bs =>
    let x := (k.x + 1) % 256
    let y := (k.y + rc4_get k.data x) % 256
    let S := rc4_swap k.data x y
    let ks := rc4_get S ((rc4_get S x + rc4_get S y) % 256)
    let r := RC4 { x := x, y := y, data := S } bs
    (r.1, ⟨(b.val ^^^ ks) % 256, Nat.mod_lt _ (by decide)⟩ :: r.2)

/-- The EVP calls of class `Rc4` as OpenSSL answers them for `EVP_rc4()`.
A context is `none` until `EVP_DecryptInit` has set a key. -/
def openssl_rc4 : EVP where
  CTX := Option RC4_KEY
  CIPHER_CTX_new := some none
  DecryptInit := fun _ key => some (some (RC4_set_key (key.val.map (fun b => b.val))))
  DecryptUpdate := fun ctx input inl =>
    if inl < 0 then none
    else if inl = 0 then some (ctx, [])
    else
      match ctx with
      | none => none
      | some k =>
        let r := RC4 k (input.take inl.toNat)
        some (some r.1, r.2)

/-- RC4 encryption of `data` under `key` (the same xor as decryption). -/
def rc4_encrypt (key : Key) (data : Bytes) : Bytes :=
  (RC4 (RC4_set_key (key.val.map (fun b => b.val))) data).2

def Z_NEED_DICT : Int := 2
def Z_STREAM_ERROR : Int := -2
def Z_DATA_ERROR : Int := -3
def Z_BUF_ERROR : Int := -5
/-- Not a zlib value: the stream left the fragment that `zlib_stored` follows. -/
def Z_NOT_MODELLED : Int := -100

/-- The `inflate_mode` values that a zlib stream of stored blocks passes through;
`CODES` stands for every mode of a Huffman-coded block. -/
inductive inflate_mode where
  | HEAD | DICTID | DICT | TYPE | STORED | COPY | CHECK | DONE | BAD | CODES
  deriving DecidableEq, Repr

/-- The part of zlib's `struct inflate_state` used on stored blocks. -/
structure inflate_state where
  mode : inflate_mode
  /-- true while the last block is processed -/
  last : Bool
  /-- input bytes taken into the bit accumulator and not used yet -/
  hold : Bytes
  /-- bytes of the stored block still to copy -/
  length : Nat
  /-- Adler-32 of the output so far -/
  check : Nat
  deriving DecidableEq, Repr

/-- Function `adler32(adler, buf, len)`. -/
def adler32 (adler : Nat) (buf : Bytes) : Nat :=
  let r := buf.foldl
    (fun (s : Nat × Nat) b => ((s.1 + b.val) % 65521, (s.2 + (s.1 + b.val) % 65521) % 65521))
    (adler % 65536, adler / 65536)
  r.2 * 65536 + r.1

/-- The local variables of `inflate()` between two passes of its main loop. -/
structure inflate_locals where
  st : inflate_state
  /-- unread input -/
  next : Bytes
  /-- output written in this call -/
  put : Bytes
  /-- room left in the output buffer -/
  left : Nat
  msg : Option String

/-- The macro `NEEDBITS` for `n` whole bytes: either the `n` bytes (from the
accumulator, then from the input) with the input that follows, or, when the
input runs out first, the accumulator that has swallowed it. -/
def needbytes (n : Nat) (hold next : Bytes) : Bytes × Bytes ⊕ Bytes :=
  if n ≤ hold.length + next.length then
    .inl ((hold ++ next).take n, next.drop (n - hold.length))
  else .inr (hold ++ next)

/-- The main loop of `inflate()`, restricted to stored blocks: the return value
selected when the loop is left, and the locals at that point. -/
def inflate_main : Nat → inflate_locals → Int × inflate_locals
  | 0, l => (Z_STREAM_ERROR, l)
  | fuel + 1, l =>
    match l.st.mode with
    | .HEAD =>
      match needbytes 2 l.st.hold l.next with
      | .inr hold => (Z_OK, { l with st := { l.st with hold := hold }, next := [] })
      | .inl (bs, next) =>
        let cmf := (bs.getD 0 0).val
        let flg := (bs.getD 1 0).val
        if (cmf * 256 + flg) % 31 ≠ 0 then
          inflate_main fuel { l with st := { l.st with mode := .BAD, hold := [] }, next := next,
                                     msg := some "incorrect header check" }
        else if cmf % 16 ≠ 8 then
          inflate_main fuel { l with st := { l.st with mode := .BAD, hold := [] }, next := next,
                                     msg := some "unknown compression method" }
        else if cmf / 16 + 8 > 15 then
          inflate_main fuel { l with st := { l.st with mode := .BAD, hold := [] }, next := next,
                                     msg := some "invalid window size" }
        else
          inflate_main fuel
            { l with st := { l.st with mode := if flg / 32 % 2 = 1 then .DICTID else .TYPE,
                                       hold := [], check := 1 },
                     next := next }
    | .DICTID =>
      match needbytes 4 l.st.hold l.next with
      | .inr hold => (Z_OK, { l with st := { l.st with hold := hold }, next := [] })
      | .inl (_, next) =>
        inflate_main fuel { l with st := { l.st with mode := .DICT, hold := [] }, next := next }
    | .DICT => (Z_NEED_DICT, l)
    | .TYPE =>
      if l.st.last then
        inflate_main fuel { l with st := { l.st with mode := .CHECK, hold := [] } }
      else
        match needbytes 1 l.st.hold l.next with
        | .inr hold => (Z_OK, { l with st := { l.st with hold := hold }, next := [] })
        | .inl (bs, next) =>
          let b := (bs.getD 0 0).val
          let last := b % 2 = 1
          match b / 2 % 4 with
          | 0 => inflate_main fuel
              { l with st := { l.st with mode := .STORED, last := last, hold := [] }, next := next }
          | 3 => inflate_main fuel
              { l with st := { l.st with mode := .BAD, last := last, hold := [] }, next := next,
                       msg := some "invalid block type" }
          | _ => inflate_main fuel
              { l with st := { l.st with mode := .CODES, last := last, hold := [] }, next := next }
    | .STORED =>
      match needbytes 4 l.st.hold l.next with
      | .inr hold => (Z_OK, { l with st := { l.st with hold := hold }, next := [] })
      | .inl (bs, next) =>
        let len := le_uint (bs.take 2)
        let nlen := le_uint (bs.drop 2)
        if len ≠ nlen ^^^ 65535 then
          inflate_main fuel { l with st := { l.st with mode := .BAD, hold := [] }, next := next,
                                     msg := some "invalid stored block lengths" }
        else
          inflate_main fuel
            { l with st := { l.st with mode := .COPY, hold := [], length := len }, next := next }
    | .COPY =>
      if l.st.length ≠ 0 then
        let copy := min (min l.st.length l.next.length) l.left
        if copy = 0 then (Z_OK, l)
        else
          inflate_main fuel
            { l with st := { l.st with length := l.st.length - copy,
                                       check := adler32 l.st.check (l.next.take copy) },
                     next := l.next.drop copy
                     put := l.put ++ l.next.take copy
                     left := l.left - copy }
      else inflate_main fuel { l with st := { l.st with mode := .TYPE } }
    | .CHECK =>
      match needbytes 4 l.st.hold l.next with
      | .inr hold => (Z_OK, { l with st := { l.st with hold := hold }, next := [] })
      | .inl (bs, next) =>
        if le_uint bs.reverse ≠ l.st.check then
          inflate_main fuel { l with st := { l.st with mode := .BAD, hold := [] }, next := next,
                                     msg := some "incorrect data check" }
        else
          inflate_main fuel { l with st := { l.st with mode := .DONE, hold := [] }, next := next }
    | .DONE => (Z_STREAM_END, l)
    | .BAD => (Z_DATA_ERROR, l)
    | .CODES => (Z_NOT_MODELLED, { l with msg := some "Huffman-coded block: not modelled" })

/-- Function `inflate(strm, Z_SYNC_FLUSH)` on a stream of stored blocks. -/
def zlib_stored_inflate (st : inflate_state) (next_in : Bytes) (avail_out : Nat) (msg : Option String) :
    InflateResult (inflate_state × Option String) :=
  let r := inflate_main (next_in.length + 10)
    { st := st, next := next_in, put := [], left := avail_out, msg := msg }
  let consumed := next_in.length - r.2.next.length
  let ret := if consumed = 0 ∧ r.2.put.length = 0 ∧ r.1 = Z_OK then Z_BUF_ERROR else r.1
  { ret := ret, state := (r.2.st, r.2.msg), consumed := consumed, output := r.2.put, msg := r.2.msg }

/-- The zlib calls of class `ZlibInflate` as zlib answers them on streams of
stored blocks. The state carries `strm->msg` along with the internal state. -/
def zlib_stored : Zlib where
  State := inflate_state × Option String
  inflateInit := some ({ mode := .HEAD, last := false, hold := [], length := 0, check := 1 }, none)
  inflate := fun s next_in avail_out => zlib_stored_inflate s.1 next_in avail_out s.2
  inflateEnd := fun s => (Z_OK, s.2)

/-- The stored block or blocks holding `data`, the last one flagged final:
at most 65535 bytes per block. `n` bounds the number of blocks. -/
def stored_blocks : Nat → Bytes → Bytes
  | 0, _ => []
  | n + 1, data =>
    let len := min data.length 65535
    let final := data.length ≤ 65535
    let hdr : Bytes :=
      [if final then 1 else 0, Fin.ofNat (len % 256), Fin.ofNat (len / 256),
        Fin.ofNat ((len ^^^ 65535) % 256), Fin.ofNat ((len ^^^ 65535) / 256)]
    if final then hdr ++ data else hdr ++ data.take len ++ stored_blocks n (data.drop len)

/-- A zlib stream for `data` made of stored blocks only: header `78 01`, the
blocks, the big-endian Adler-32 of `data`. -/
def zlib_store (data : Bytes) : Bytes :=
  let a := adler32 1 data
  [0x78, 0x01] ++ stored_blocks (data.length / 65535 + 1) data ++
    [Fin.ofNat (a / 16777216 % 256), Fin.ofNat (a / 65536 % 256), Fin.ofNat (a / 256 % 256),
      Fin.ofNat (a % 256)]

/-- Blank characters skipped between tokens: space, tab, line feed, carriage return. -/
def json_blank (b : Byte) : Bool :=
  b.val = 32 || b.val = 9 || b.val = 10 || b.val = 13

/-- The text after leading blanks. -/
def json_skip : Bytes → Bytes
  | [] => []
  | b :: bs => if json_blank b then json_skip bs else b :: bs

/-- The characters of a string up to its closing quote, and the text after the
quote. A backslash or a control character ends the fragment. -/
def json_string_body : Bytes → Option (Bytes × Bytes)
  | [] => none
  | b :: bs =>
    if b.val = 34 then some ([], bs)
    else if b.val = 92 || b.val < 32 then none
    else
      match json_string_body bs with
      | none => none
      | some (str, rest) => some (b :: str, rest)

/-- One of `null`, `true`, `false` or a string at the head of the text. -/
def json_scalar : Bytes → Option (JsonValue × Bytes)
  | 110 :: 117 :: 108 :: 108 :: rest => some (.null, rest)
  | 116 :: 114 :: 117 :: 101 :: rest => some (.bool true, rest)
  | 102 :: 97 :: 108 :: 115 :: 101 :: rest => some (.bool false, rest)
  | 34 :: rest =>
    match json_string_body rest with
    | none => none
    | some (str, rest1) => some (.string str, rest1)
  | _ => none

/-- Whether `key` names a member of the object. -/
def JsonObject.has_key (key : Bytes) : JsonObject → Bool
  | .nil => false
  | .cons k _ tail => k = key || JsonObject.has_key key tail

/-- The members of a non-empty object, read after its opening brace: pairs
`"key" : scalar` separated by commas, up to the closing brace. A key that occurs
twice ends the fragment. `n` bounds the number of members. -/
def json_members : Nat → Bytes → Option (JsonObject × Bytes)
  | 0, _ => none
  | n + 1, text =>
    match json_skip text with
    | 34 :: rest =>
      match json_string_body rest with
      | none => none
      | some (key, rest1) =>
        match json_skip rest1 with
        | 58 :: rest2 =>
          match json_scalar (json_skip rest2) with
          | none => none
          | some (value, rest3) =>
            match json_skip rest3 with
            | 125 :: rest4 => some (.cons key value .nil, rest4)
            | 44 :: rest4 =>
              match json_members n rest4 with
              | none => none
              | some (tail, rest5) =>
                if tail.has_key key then none else some (.cons key value tail, rest5)
            | _ => none
        | _ => none
    | _ => none

/-- The root value of a text in the fragment, and the text after it. -/
def json_root (text : Bytes) : Option (JsonValue × Bytes) :=
  match json_skip text with
  | 123 :: rest =>
    match json_skip rest with
    | 125 :: rest1 => some (.object .nil, rest1)
    | _ =>
      match json_members text.length rest with
      | none => none
      | some (members, rest1) => some (.object members, rest1)
  | other => json_scalar other

/-- The call `Json::CharReader::parse` on texts of the fragment. -/
def jsoncpp_flat (src : Bytes) : Except String JsonValue :=
  match json_root src with
  | some (v, rest) =>
    if json_skip rest = [] then .ok v else .error "text outside the modelled fragment"
  | none => .error "text outside the modelled fragment"

/-- OpenSSL's RC4, zlib on stored blocks, jsoncpp on flat texts. -/
def libs : Env where
  evp := openssl_rc4
  zlib := zlib_stored
  parse := jsoncpp_flat

/-- The bytes of an ASCII text. -/
def ascii (s : String) : Bytes := s.toList.map (fun c => Fin.ofNat c.toNat)

/-- The eight bytes of a `uint64_t`, little-endian. -/
def u64_le (n : Nat) : Bytes :=
  (List.range 8).map (fun i => Fin.ofNat (n / 256 ^ i % 256))

/-- A header record with tag `CART`, version 1, reserved 0, a zero key field
and the given `opt_header_len`. -/
def make_header (opt_header_len : Nat) : Bytes :=
  ascii "CART" ++ [1, 0] ++ List.replicate 8 0 ++ List.replicate 16 0 ++ u64_le opt_header_len

/-- A footer record with tag `TARC`, reserved 0 and the given `opt_footer_len`. -/
def make_footer (opt_footer_len : Nat) : Bytes :=
  ascii "TARC" ++ List.replicate 16 0 ++ u64_le opt_footer_len

/-- A container: the five regions joined in order, with the two length fields
set to the lengths of the optional regions. -/
def make_container (opt_header payload opt_footer : Bytes) : Bytes :=
  make_header opt_header.length ++ opt_header ++ payload ++ opt_footer ++
    make_footer opt_footer.length

/-- The header record as the constructor reads it from `cart_input`. -/
def header_of (cart_input : Bytes) : CartHeader := read_CartHeader cart_input

/-- The footer record as the constructor reads it from the end of `cart_input`. -/
def footer_of (cart_input : Bytes) : CartFooter :=
  read_CartFooter (cart_input.drop (cart_input.length - sizeof_CartFooter))

/-- The key `"0123456789abcdef"` used by the test `txtFile1CustomKey`. -/
def custom_key : Key := ⟨ascii "0123456789abcdef", by decide⟩

/-- A small plaintext. -/
def sample_plain : Bytes := ascii "CaRT sample text"

/-- Text of the optional header of the sample container. -/
def sample_header_json : Bytes := ascii "\x7b\"name\": \"sample\"\x7d"

/-- Text of the optional footer of the sample container. -/
def sample_footer_json : Bytes := ascii "\x7b\"length\": \"16\"\x7d"

/-- The sample plaintext carted under `key`: both optional blocks present, the
payload compressed with stored blocks. -/
def sample_container (key : Key) : Bytes :=
  make_container (rc4_encrypt key sample_header_json) (rc4_encrypt key (zlib_store sample_plain))
    (rc4_encrypt key sample_footer_json)

/-- The object that decoding the sample container is expected to give. -/
def sample_object (key : Key) : CartObject :=
  { cart_header :=
      { cart := ascii "CART", version := 1, reserved := 0, rc4_key := List.replicate 16 0,
        opt_header_len := 18 }
    cart_opt_header := .object (.cons (ascii "name") (.string (ascii "sample")) .nil)
    encoded_file := rc4_encrypt key (zlib_store sample_plain)
    decoded_file := sample_plain
    cart_opt_footer := .object (.cons (ascii "length") (.string (ascii "16")) .nil)
    cart_footer := { tarc := ascii "TARC", reserved := (0, 0), opt_footer_len := 16 } }

/-- The smallest container: the two records and nothing between them. -/
def minimal_container : Bytes := make_container [] [] []

/-- The sample plaintext carted under `key` without optional header or footer. -/
def bare_container (key : Key) : Bytes :=
  make_container [] (rc4_encrypt key (zlib_store sample_plain)) []

/-- The object that decoding the bare container is expected to give. -/
def bare_object (key : Key) : CartObject :=
  { cart_header :=
      { cart := ascii "CART", version := 1, reserved := 0, rc4_key := List.replicate 16 0,
        opt_header_len := 0 }
    cart_opt_header := .null
    encoded_file := rc4_encrypt key (zlib_store sample_plain)
    decoded_file := sample_plain
    cart_opt_footer := .null
    cart_footer := { tarc := ascii "TARC", reserved := (0, 0), opt_footer_len := 0 } }

/-- The sample plaintext carted under `key` with an optional header whose JSON
text is `null` and no optional footer. -/
def null_header_container (key : Key) : Bytes :=
  make_container (rc4_encrypt key (ascii "null")) (rc4_encrypt key (zlib_store sample_plain)) []

/-- The object that decoding `null_header_container` gives. -/
def null_header_object (key : Key) : CartObject :=
  { bare_object key with
    cart_header :=
      { cart := ascii "CART", version := 1, reserved := 0, rc4_key := List.replicate 16 0,
        opt_header_len := 4 } }

/-- A buffer of `sizeof(CartHeader) + sizeof(CartFooter)` bytes whose header
announces an optional header of 29 bytes, one more than the bytes that follow
the header record. -/
def overlong_container : Bytes := make_header 29 ++ make_footer 0

/-- A complete zlib stream followed by one more byte. -/
def trailing_stream : Bytes := zlib_store sample_plain ++ [0]

/-- The state of `zlib_stored` after `inflateInit`. -/
def zlib_stored_init : zlib_stored.State :=
  ({ mode := .HEAD, last := false, hold := [], length := 0, check := 1 }, none)

/-- The contract of a complete compressed stream, as `inflate_next` uses the
engine: `Delivers Z n s inp out` says that `Z`, in state `s` with the input
`inp` still unread and called round after round with an empty buffer of `n`
bytes under `Z_SYNC_FLUSH`, delivers `out`. A round that is not the last fills
the buffer with the next `n` bytes and leaves input unread (the check value at
the end of the stream is read only after the data before it has been
delivered); the last round delivers the rest and reads the input to its end.
Every round returns `Z_OK` or `Z_STREAM_END`. -/
inductive Delivers (Z : Zlib) (n : Nat) : Z.State → Bytes → Bytes → Prop where
  | last (s : Z.State) (inp out : Bytes) :
      inp ≠ [] →
      (Z.inflate s inp n).output = out →
      out.length ≤ n →
      (Z.inflate s inp n).consumed = inp.length →
      ((Z.inflate s inp n).ret = Z_OK ∨ (Z.inflate s inp n).ret = Z_STREAM_END) →
      Delivers Z n s inp out
  | more (s : Z.State) (inp out : Bytes) :
      (Z.inflate s inp n).output = out.take n →
      n ≤ out.length →
      (Z.inflate s inp n).consumed < inp.length →
      ((Z.inflate s inp n).ret = Z_OK ∨ (Z.inflate s inp n).ret = Z_STREAM_END) →
      Delivers Z n (Z.inflate s inp n).state (inp.drop (Z.inflate s inp n).consumed) (out.drop n) →
      Delivers Z n s inp out

/-- The input `raw` with its header tag (bytes 0..4) replaced by `t1` and its
footer tag (the first 4 bytes of the footer record) replaced by `t2`. -/
def retag (raw t1 t2 : Bytes) : Bytes :=
  t1 ++ slice raw 4 (raw.length - sizeof_CartFooter) ++ t2 ++ raw.drop (raw.length - 24)

/-- The bare container under the default key with the tags `XXXX` and `YYYY`
in place of `CART` and `TARC`. -/
def badtag_container : Bytes := retag (bare_container DEFAULT_RC4_KEY) (ascii "XXXX") (ascii "YYYY")

/-- The object that decoding `badtag_container` gives. -/
def badtag_object : CartObject :=
  { bare_object DEFAULT_RC4_KEY with
    cart_header := { (bare_object DEFAULT_RC4_KEY).cart_header with cart := ascii "XXXX" }
    cart_footer := { (bare_object DEFAULT_RC4_KEY).cart_footer with tarc := ascii "YYYY" } }

/-- The key `"fieldkey30299999"`. -/
def field_key : Key := ⟨ascii "fieldkey30299999", by decide⟩

/-- An input of 72 bytes: a header record with `opt_header_len = 12`, six bytes,
and a footer record with tag `TARC`, first reserved word starting with the
bytes `b`, 213, second reserved word 0, and `opt_footer_len = 6`. The 12 bytes
after the header record are the six bytes, the footer tag and the first two
bytes of the first reserved word. -/
def reserved_variant (b : Byte) : Bytes :=
  make_header 12 ++ [77, 33, 151, 118, 117, 94] ++
    (ascii "TARC" ++ ([b, 213] ++ List.replicate 14 0) ++ u64_le 6)

/-- An input of 68 bytes: a header record with tag `CART`, version 1, reserved 0,
an `rc4_key` field starting with the byte `b` and `opt_header_len = 0`, two
bytes, and a footer record with `opt_footer_len = 26`. The 26 bytes before the
footer record are the `rc4_key` field, the `opt_header_len` field and the two
bytes. -/
def key_field_variant (b : Byte) : Bytes :=
  (ascii "CART" ++ [1, 0] ++ List.replicate 8 0 ++
      [b, 33, 147, 57, 45, 25, 96, 124, 14, 70, 94, 138, 59, 38, 94, 223] ++ u64_le 0) ++
    [199, 177] ++ make_footer 26

/-- A zlib header with the preset-dictionary flag set (`78 20`: the check
`0x7820 % 31 = 0` holds) followed by a four-byte dictionary identifier. -/
def need_dict_stream : Bytes := [0x78, 0x20, 0, 0, 0, 0]

/-- A container without optional blocks whose payload is `need_dict_stream`
encrypted under the default key. -/
def need_dict_container : Bytes :=
  make_container [] (rc4_encrypt DEFAULT_RC4_KEY need_dict_stream) []

/-- OpenSSL in which `EVP_DecryptInit` with `EVP_rc4()` returns 0, as it does in
OpenSSL 3 when the legacy provider, which holds RC4, is not loaded. -/
def openssl_without_rc4 : EVP where
  CTX := Unit
  CIPHER_CTX_new := some ()
  DecryptInit := fun _ _ => none
  DecryptUpdate := fun _ _ _ => none

/-- The concrete libraries with an OpenSSL that has no RC4. -/
def libs_without_rc4 : Env where
  evp := openssl_without_rc4
  zlib := zlib_stored
  parse := jsoncpp_flat

/-- The sample plaintext carted under `key` with an optional footer and no
optional header. -/
def footer_only_container (key : Key) : Bytes :=
  make_container [] (rc4_encrypt key (zlib_store sample_plain)) (rc4_encrypt key sample_footer_json)

/-- The sample plaintext carted under `key` with the JSON string `"sample"` as
optional header and the JSON text `true` as optional footer. -/
def scalar_meta_container (key : Key) : Bytes :=
  make_container (rc4_encrypt key (ascii "\"sample\"")) (rc4_encrypt key (zlib_store sample_plain))
    (rc4_encrypt key (ascii "true"))

/-- The object that decoding `scalar_meta_container` gives. -/
def scalar_meta_object (key : Key) : CartObject :=
  { cart_header :=
      { cart := ascii "CART", version := 1, reserved := 0, rc4_key := List.replicate 16 0,
        opt_header_len := 8 }
    cart_opt_header := .string (ascii "sample")
    encoded_file := rc4_encrypt key (zlib_store sample_plain)
    decoded_file := sample_plain
    cart_opt_footer := .bool true
    cart_footer := { tarc := ascii "TARC", reserved := (0, 0), opt_footer_len := 4 } }


/-- The first 82 bytes of the 218-byte zlib stream that `compress` (zlib 1.2.13,
default level) makes of 200000 bytes `a`: the zlib header `78 9c` and the start
of one dynamic-Huffman block whose codes stand for runs of 258 bytes. Given
these 82 bytes and an empty buffer of 65536 bytes, zlib's `inflate` reads all
82, fills the buffer and returns `Z_OK`; 256 more bytes of output, which these
82 bytes also stand for, are written by its next call. -/
def deflate_run_prefix : Bytes :=
  [0x78, 0x9c, 0xed, 0xc1, 0x31, 0x01, 0x00, 0x00, 0x00, 0xc2, 0xa0, 0xac, 0xeb, 0x5f, 0xc2, 0x0c,
    0xfe, 0x40, 0x01] ++ List.replicate 63 0

/-- The `zlib_stream` of a newly constructed `ZlibInflate` with the concrete
libraries. -/
def zlib_stored_stream : z_stream libs.zlib.State :=
  { next_in := [], avail_in := 0, avail_out := 0, state := zlib_stored_init, msg := none }

/-! ## General lemmas -/

section lemmas

variable {α β : Type}

theorem Outcome.bind_eq_ok {x : Outcome α} {f : α → Outcome β} {b : β} :
    x.bind f = .ok b ↔ ∃ a, x = .ok a ∧ f a = .ok b := by
  cases x <;> simp [Outcome.bind]

theorem Outcome.bind_eq_throws {x : Outcome α} {f : α → Outcome β} {w : What} :
    x.bind f = .throws w ↔ x = .throws w ∨ ∃ a, x = .ok a ∧ f a = .throws w := by
  cases x <;> simp [Outcome.bind]

theorem vector_range_ne_throws (v : Bytes) (a b : Int) (w : What) :
    vector_range v a b ≠ .throws w := by
  unfold vector_range
  split <;> simp

theorem Rc4_new_throws {E : Env} {key : Key} {w : What} (h : Rc4.new E key = .throws w) :
    w = .cipher_init_failed ∨ w = .decrypt_init_failed := by
  unfold Rc4.new at h
  split at h
  · simp at h; exact Or.inl h.symm
  · split at h
    · simp at h; exact Or.inr h.symm
    · simp at h

theorem Rc4_decrypt_next_throws {E : Env} {ctx : E.evp.CTX} {input : Bytes} {w : What}
    (h : Rc4.decrypt_next E ctx input = .throws w) : w = .decrypt_update_failed := by
  unfold Rc4.decrypt_next at h
  split at h
  · simp at h; exact h.symm
  · split at h <;> simp at h

theorem fresh_decrypt_throws {E : Env} {key : Key} {input : Bytes} {w : What}
    (h : fresh_decrypt E key input = .throws w) :
    w = .cipher_init_failed ∨ w = .decrypt_init_failed ∨ w = .decrypt_update_failed := by
  unfold fresh_decrypt at h
  rcases Outcome.bind_eq_throws.1 h with h1 | ⟨ctx, -, h2⟩
  · rcases Rc4_new_throws h1 with h3 | h3
    · exact Or.inl h3
    · exact Or.inr (Or.inl h3)
  · rcases Outcome.bind_eq_throws.1 h2 with h3 | ⟨r, -, h4⟩
    · exact Or.inr (Or.inr (Rc4_decrypt_next_throws h3))
    · simp at h4

theorem from_string_cases (E : Env) (src : Bytes) :
    (∃ errors, E.parse src = .error errors ∧
        from_string E src = .throws (.failed_to_parse src errors)) ∨
      (∃ dst, E.parse src = .ok dst ∧ from_string E src = .ok dst) := by
  unfold from_string
  cases h : E.parse src with
  | error e => exact Or.inl ⟨e, rfl, rfl⟩
  | ok d => exact Or.inr ⟨d, rfl, rfl⟩

theorem inflate_loop_throws {E : Env} : ∀ (fuel : Nat) (ret : Int) (z : z_stream E.zlib.State)
    (buf : Bytes) (w : What), inflate_loop E fuel ret z buf = .throws w →
    ∃ m, w = .error_while_inflating m := by
  intro fuel
  induction fuel with
  | zero =>
    intro ret z buf w h
    unfold inflate_loop at h
    split at h <;> simp at h
  | succ n ih =>
    intro ret z buf w h
    unfold inflate_loop at h
    split at h
    · simp only at h
      split at h
      · split at h
        · simp at h
        · rename_i m _
          simp at h
          exact ⟨m, h.symm⟩
      · exact ih _ _ _ _ h
    · simp at h

theorem inflate_next_eq (E : Env) (fuel : Nat) (z0 : z_stream E.zlib.State) (input : Bytes) :
    ZlibInflate.inflate_next E fuel z0 input =
      inflate_loop E fuel Z_OK
        { z0 with next_in := input, avail_in := input.length % 2 ^ 32, avail_out := 0 } [] := by
  unfold ZlibInflate.inflate_next
  simp only [show ¬ (Z_OK = Z_STREAM_END) by decide, if_false]
  cases inflate_loop E fuel Z_OK
      { z0 with next_in := input, avail_in := input.length % 2 ^ 32, avail_out := 0 } [] <;> rfl

theorem fresh_inflate_throws {E : Env} {fuel : Nat} {input : Bytes} {w : What}
    (h : fresh_inflate E fuel input = .throws w) :
    w = .inflate_init_failed ∨ ∃ m, w = .error_while_inflating m := by
  unfold fresh_inflate at h
  rcases Outcome.bind_eq_throws.1 h with h1 | ⟨z0, -, h2⟩
  · unfold ZlibInflate.new at h1
    split at h1
    · simp at h1; exact Or.inl h1.symm
    · simp at h1
  · rcases Outcome.bind_eq_throws.1 h2 with h3 | ⟨r, -, h4⟩
    · rw [inflate_next_eq] at h3
      exact Or.inr (inflate_loop_throws _ _ _ _ _ h3)
    · simp at h4

theorem opt_header_stage_throws {E : Env} {raw : Bytes} {hd : CartHeader} {key : Key} {w : What}
    (h : opt_header_stage E raw hd key = .throws w) :
    w = .cipher_init_failed ∨ w = .decrypt_init_failed ∨ w = .decrypt_update_failed ∨
      ∃ src errors, w = .opt_header_json (.failed_to_parse src errors) := by
  unfold opt_header_stage at h
  split at h
  · rcases Outcome.bind_eq_throws.1 h with h1 | ⟨enc, -, h2⟩
    · exact absurd h1 (vector_range_ne_throws _ _ _ _)
    · rcases Outcome.bind_eq_throws.1 h2 with h3 | ⟨dec, -, h4⟩
      · rcases fresh_decrypt_throws h3 with h5 | h5 | h5
        · exact Or.inl h5
        · exact Or.inr (Or.inl h5)
        · exact Or.inr (Or.inr (Or.inl h5))
      · rcases from_string_cases E dec with ⟨errors, -, h5⟩ | ⟨dst, -, h5⟩
        · rw [h5] at h4
          simp at h4
          exact Or.inr (Or.inr (Or.inr ⟨dec, errors, h4.symm⟩))
        · rw [h5] at h4
          simp at h4
  · simp at h

theorem opt_footer_stage_throws {E : Env} {raw : Bytes} {ft : CartFooter} {key : Key} {w : What}
    (h : opt_footer_stage E raw ft key = .throws w) :
    w = .cipher_init_failed ∨ w = .decrypt_init_failed ∨ w = .decrypt_update_failed ∨
      ∃ src errors, w = .opt_footer_json (.failed_to_parse src errors) := by
  unfold opt_footer_stage at h
  split at h
  · rcases Outcome.bind_eq_throws.1 h with h1 | ⟨enc, -, h2⟩
    · exact absurd h1 (vector_range_ne_throws _ _ _ _)
    · rcases Outcome.bind_eq_throws.1 h2 with h3 | ⟨dec, -, h4⟩
      · rcases fresh_decrypt_throws h3 with h5 | h5 | h5
        · exact Or.inl h5
        · exact Or.inr (Or.inl h5)
        · exact Or.inr (Or.inr (Or.inl h5))
      · rcases from_string_cases E dec with ⟨errors, -, h5⟩ | ⟨dst, -, h5⟩
        · rw [h5] at h4
          simp at h4
          exact Or.inr (Or.inr (Or.inr ⟨dec, errors, h4.symm⟩))
        · rw [h5] at h4
          simp at h4
  · simp at h

/-- Every exception that leaves the constructor on an input that passed the
size check comes from one of the later stages. -/
theorem CartObject_new_throws_of_size {E : Env} {fuel : Nat} {raw : Bytes} {key : Key} {w : What}
    (hs : ¬ raw.length < sizeof_CartHeader + sizeof_CartFooter)
    (h : CartObject.new E fuel raw key = .throws w) :
    w = .cipher_init_failed ∨ w = .decrypt_init_failed ∨ w = .decrypt_update_failed ∨
      (∃ src errors, w = .opt_header_json (.failed_to_parse src errors)) ∨
      (∃ src errors, w = .opt_footer_json (.failed_to_parse src errors)) ∨
      w = .inflate_init_failed ∨ ∃ m, w = .error_while_inflating m := by
  unfold CartObject.new at h
  rw [if_neg hs] at h
  simp only at h
  rcases Outcome.bind_eq_throws.1 h with h1 | ⟨oh, -, h2⟩
  · rcases opt_header_stage_throws h1 with h5 | h5 | h5 | h5
    · exact Or.inl h5
    · exact Or.inr (Or.inl h5)
    · exact Or.inr (Or.inr (Or.inl h5))
    · exact Or.inr (Or.inr (Or.inr (Or.inl h5)))
  · rcases Outcome.bind_eq_throws.1 h2 with h1 | ⟨of, -, h3⟩
    · rcases opt_footer_stage_throws h1 with h5 | h5 | h5 | h5
      · exact Or.inl h5
      · exact Or.inr (Or.inl h5)
      · exact Or.inr (Or.inr (Or.inl h5))
      · exact Or.inr (Or.inr (Or.inr (Or.inr (Or.inl h5))))
    · rcases Outcome.bind_eq_throws.1 h3 with h1 | ⟨enc, -, h4⟩
      · exact absurd h1 (vector_range_ne_throws _ _ _ _)
      · rcases Outcome.bind_eq_throws.1 h4 with h1 | ⟨dec, -, h5⟩
        · rcases fresh_decrypt_throws h1 with h6 | h6 | h6
          · exact Or.inl h6
          · exact Or.inr (Or.inl h6)
          · exact Or.inr (Or.inr (Or.inl h6))
        · rcases Outcome.bind_eq_throws.1 h5 with h1 | ⟨out, -, h6⟩
          · rcases fresh_inflate_throws h1 with h7 | h7
            · exact Or.inr (Or.inr (Or.inr (Or.inr (Or.inr (Or.inl h7)))))
            · exact Or.inr (Or.inr (Or.inr (Or.inr (Or.inr (Or.inr h7)))))
          · simp at h6

theorem le_uint_lt (bs : Bytes) : le_uint bs < 256 ^ bs.length := by
  induction bs with
  | nil => simp [le_uint]
  | cons b bs ih =>
    have hb := b.isLt
    simp only [le_uint, List.length_cons, pow_succ]
    omega

theorem slice_length_le (v : Bytes) (a b : Nat) : (slice v a b).length ≤ b - a := by
  unfold slice
  simp [List.length_take]

theorem le_uint_slice_lt (v : Bytes) (a : Nat) : le_uint (slice v a (a + 8)) < 2 ^ 64 := by
  have h1 := le_uint_lt (slice v a (a + 8))
  have h2 := slice_length_le v a (a + 8)
  have h3 : (256 : Nat) ^ (slice v a (a + 8)).length ≤ 256 ^ 8 :=
    Nat.pow_le_pow_right (by decide) (by omega)
  have h4 : (256 : Nat) ^ 8 = 2 ^ 64 := by norm_num
  omega

theorem opt_header_len_lt (p : Bytes) : (read_CartHeader p).opt_header_len < 2 ^ 64 :=
  le_uint_slice_lt p 30

theorem opt_footer_len_lt (p : Bytes) : (read_CartFooter p).opt_footer_len < 2 ^ 64 :=
  le_uint_slice_lt p 20

theorem to_difference_type_of_lt {n : Nat} (h : n < 2 ^ 63) : to_difference_type n = n := by
  unfold to_difference_type
  have h1 : n % 2 ^ 64 = n := Nat.mod_eq_of_lt (by omega)
  rw [h1, if_pos h]

theorem to_difference_type_nonneg {n : Nat} (hn : n < 2 ^ 64) (h : 0 ≤ to_difference_type n) :
    n < 2 ^ 63 := by
  unfold to_difference_type at h
  have h1 : n % 2 ^ 64 = n := Nat.mod_eq_of_lt hn
  rw [h1] at h
  by_contra hc
  rw [if_neg hc] at h
  omega

theorem vector_range_eq_ok {v : Bytes} {a b : Int} {r : Bytes} (h : vector_range v a b = .ok r) :
    0 ≤ a ∧ a ≤ b ∧ b ≤ v.length ∧ r = slice v a.toNat b.toNat := by
  unfold vector_range at h
  split at h
  · rename_i hc
    simp at h
    exact ⟨hc.1, hc.2.1, hc.2.2, h.symm⟩
  · simp at h

/-- A successful optional-header stage: either the length field is zero and the
member keeps its default value, or the slice after the header record lies in
the buffer, decrypts with a fresh cipher and parses. -/
theorem opt_header_stage_ok {E : Env} {raw : Bytes} {hd : CartHeader} {key : Key} {v : JsonValue}
    (hn : hd.opt_header_len < 2 ^ 64) (h : opt_header_stage E raw hd key = .ok v) :
    (hd.opt_header_len = 0 ∧ v = .null) ∨
      (0 < hd.opt_header_len ∧ hd.opt_header_len < 2 ^ 63 ∧
        sizeof_CartHeader + hd.opt_header_len ≤ raw.length ∧
        ∃ dec, fresh_decrypt E key
            (slice raw sizeof_CartHeader (sizeof_CartHeader + hd.opt_header_len)) = .ok dec ∧
          E.parse dec = .ok v) := by
  unfold opt_header_stage at h
  split at h
  · rename_i hpos
    right
    obtain ⟨enc, h1, h2⟩ := Outcome.bind_eq_ok.1 h
    obtain ⟨dec, h3, h4⟩ := Outcome.bind_eq_ok.1 h2
    obtain ⟨-, hb, hc, hr⟩ := vector_range_eq_ok h1
    have hlt : hd.opt_header_len < 2 ^ 63 := to_difference_type_nonneg hn (by omega)
    rw [to_difference_type_of_lt hlt] at hb hc hr
    refine ⟨hpos, hlt, by omega, dec, ?_, ?_⟩
    · have e1 : ((sizeof_CartHeader : Int)).toNat = sizeof_CartHeader := by simp
      have e2 : ((sizeof_CartHeader : Int) + (hd.opt_header_len : Int)).toNat =
          sizeof_CartHeader + hd.opt_header_len := by omega
      rw [e1, e2] at hr
      rw [← hr]
      exact h3
    · rcases from_string_cases E dec with ⟨errors, -, h5⟩ | ⟨dst, h6, h5⟩
      · rw [h5] at h4
        simp at h4
      · rw [h5] at h4
        simp at h4
        rw [← h4]
        exact h6
  · rename_i hz
    left
    simp at h
    exact ⟨by omega, h.symm⟩

/-- A successful optional-footer stage, as for the header: the slice is the
`opt_footer_len` bytes before the footer record. -/
theorem opt_footer_stage_ok {E : Env} {raw : Bytes} {ft : CartFooter} {key : Key} {v : JsonValue}
    (hn : ft.opt_footer_len < 2 ^ 64) (h : opt_footer_stage E raw ft key = .ok v) :
    (ft.opt_footer_len = 0 ∧ v = .null) ∨
      (0 < ft.opt_footer_len ∧ ft.opt_footer_len < 2 ^ 63 ∧
        sizeof_CartFooter + ft.opt_footer_len ≤ raw.length ∧
        ∃ dec, fresh_decrypt E key
            (slice raw (raw.length - sizeof_CartFooter - ft.opt_footer_len)
              (raw.length - sizeof_CartFooter)) = .ok dec ∧
          E.parse dec = .ok v) := by
  unfold opt_footer_stage at h
  split at h
  · rename_i hpos
    right
    obtain ⟨enc, h1, h2⟩ := Outcome.bind_eq_ok.1 h
    obtain ⟨dec, h3, h4⟩ := Outcome.bind_eq_ok.1 h2
    obtain ⟨ha, hb, -, hr⟩ := vector_range_eq_ok h1
    have hlt : ft.opt_footer_len < 2 ^ 63 := to_difference_type_nonneg hn (by omega)
    rw [to_difference_type_of_lt hlt] at ha hb hr
    refine ⟨hpos, hlt, by omega, dec, ?_, ?_⟩
    · have e1 : ((raw.length : Int) - (sizeof_CartFooter : Int)).toNat =
          raw.length - sizeof_CartFooter := by omega
      have e2 : ((raw.length : Int) - (sizeof_CartFooter : Int) - (ft.opt_footer_len : Int)).toNat =
          raw.length - sizeof_CartFooter - ft.opt_footer_len := by omega
      rw [e1, e2] at hr
      rw [← hr]
      exact h3
    · rcases from_string_cases E dec with ⟨errors, -, h5⟩ | ⟨dst, h6, h5⟩
      · rw [h5] at h4
        simp at h4
      · rw [h5] at h4
        simp at h4
        rw [← h4]
        exact h6
  · rename_i hz
    left
    simp at h
    exact ⟨by omega, h.symm⟩

/-- What a normal return of the constructor says about each stage. -/
theorem CartObject_new_ok {E : Env} {fuel : Nat} {raw : Bytes} {key : Key} {obj : CartObject}
    (h : CartObject.new E fuel raw key = .ok obj) :
    sizeof_CartHeader + sizeof_CartFooter ≤ raw.length ∧
      obj.cart_header = read_CartHeader raw ∧
      obj.cart_footer = read_CartFooter (raw.drop (raw.length - sizeof_CartFooter)) ∧
      opt_header_stage E raw obj.cart_header key = .ok obj.cart_opt_header ∧
      opt_footer_stage E raw obj.cart_footer key = .ok obj.cart_opt_footer ∧
      vector_range raw (sizeof_CartHeader + to_difference_type obj.cart_header.opt_header_len)
        (raw.length - sizeof_CartFooter - to_difference_type obj.cart_footer.opt_footer_len) =
          .ok obj.encoded_file ∧
      ∃ dec, fresh_decrypt E key obj.encoded_file = .ok dec ∧
        fresh_inflate E fuel dec = .ok obj.decoded_file := by
  unfold CartObject.new at h
  split at h
  · simp at h
  · rename_i hs
    have hoff : raw.length - 1 - sizeof_CartFooter + 1 = raw.length - sizeof_CartFooter := by
      simp only [sizeof_CartHeader, sizeof_CartFooter] at hs ⊢
      omega
    have hle : sizeof_CartHeader + sizeof_CartFooter ≤ raw.length := by omega
    simp only [hoff] at h
    obtain ⟨oh, h1, h⟩ := Outcome.bind_eq_ok.1 h
    obtain ⟨of, h2, h⟩ := Outcome.bind_eq_ok.1 h
    obtain ⟨enc, h3, h⟩ := Outcome.bind_eq_ok.1 h
    obtain ⟨dec, h4, h⟩ := Outcome.bind_eq_ok.1 h
    obtain ⟨out, h5, h⟩ := Outcome.bind_eq_ok.1 h
    simp only [Outcome.ok.injEq] at h
    subst h
    exact ⟨hle, rfl, rfl, h1, h2, h3, dec, h4, h5⟩

/-- On a normal return both length fields are below `2 ^ 63`, the regions fit
in the input in order, and `encoded_file` is the bytes between them. -/
theorem CartObject_new_layout {E : Env} {fuel : Nat} {raw : Bytes} {key : Key} {obj : CartObject}
    (h : CartObject.new E fuel raw key = .ok obj) :
    sizeof_CartHeader + obj.cart_header.opt_header_len + obj.cart_footer.opt_footer_len +
        sizeof_CartFooter ≤ raw.length ∧
      obj.encoded_file = slice raw (sizeof_CartHeader + obj.cart_header.opt_header_len)
        (raw.length - sizeof_CartFooter - obj.cart_footer.opt_footer_len) := by
  obtain ⟨hs, hh, hf, h1, h2, h3, -⟩ := CartObject_new_ok h
  have hn1 : obj.cart_header.opt_header_len < 2 ^ 64 := by rw [hh]; exact opt_header_len_lt _
  have hn2 : obj.cart_footer.opt_footer_len < 2 ^ 64 := by rw [hf]; exact opt_footer_len_lt _
  have hl1 : obj.cart_header.opt_header_len < 2 ^ 63 := by
    rcases opt_header_stage_ok hn1 h1 with ⟨hz, -⟩ | ⟨-, hlt, -⟩
    · rw [hz]; norm_num
    · exact hlt
  have hl2 : obj.cart_footer.opt_footer_len < 2 ^ 63 := by
    rcases opt_footer_stage_ok hn2 h2 with ⟨hz, -⟩ | ⟨-, hlt, -⟩
    · rw [hz]; norm_num
    · exact hlt
  obtain ⟨ha, hb, hc, hr⟩ := vector_range_eq_ok h3
  simp only [to_difference_type_of_lt hl1, to_difference_type_of_lt hl2] at ha hb hr
  have e1 : ((sizeof_CartHeader : Int) + (obj.cart_header.opt_header_len : Int)).toNat =
      sizeof_CartHeader + obj.cart_header.opt_header_len := by omega
  have e2 : ((raw.length : Int) - (sizeof_CartFooter : Int) -
      (obj.cart_footer.opt_footer_len : Int)).toNat =
      raw.length - sizeof_CartFooter - obj.cart_footer.opt_footer_len := by omega
  rw [e1, e2] at hr
  exact ⟨by omega, hr⟩

theorem fresh_decrypt_eq_ok {E : Env} {key : Key} {input dec : Bytes} :
    fresh_decrypt E key input = .ok dec ↔
      ∃ ctx ctx1, Rc4.new E key = .ok ctx ∧ Rc4.decrypt_next E ctx input = .ok (ctx1, dec) := by
  unfold fresh_decrypt
  constructor
  · intro h
    obtain ⟨ctx, h1, h2⟩ := Outcome.bind_eq_ok.1 h
    obtain ⟨r, h3, h4⟩ := Outcome.bind_eq_ok.1 h2
    simp only [Outcome.ok.injEq] at h4
    subst h4
    exact ⟨ctx, r.1, h1, h3⟩
  · rintro ⟨ctx, ctx1, h1, h2⟩
    simp [h1, h2, Outcome.bind]

theorem fresh_inflate_eq_ok {E : Env} {fuel : Nat} {input out : Bytes} :
    fresh_inflate E fuel input = .ok out ↔
      ∃ z0 z1, ZlibInflate.new E = .ok z0 ∧
        ZlibInflate.inflate_next E fuel z0 input = .ok (z1, out) := by
  unfold fresh_inflate
  constructor
  · intro h
    obtain ⟨z0, h1, h2⟩ := Outcome.bind_eq_ok.1 h
    obtain ⟨r, h3, h4⟩ := Outcome.bind_eq_ok.1 h2
    simp only [Outcome.ok.injEq] at h4
    subst h4
    exact ⟨z0, r.1, h1, h3⟩
  · rintro ⟨z0, z1, h1, h2⟩
    simp [h1, h2, Outcome.bind]

theorem to_difference_type_zero : to_difference_type 0 = 0 := by
  unfold to_difference_type
  simp

theorem fresh_inflate_nil {E : Env} (fuel : Nat) (s : E.zlib.State)
    (hinit : E.zlib.inflateInit = some s) : fresh_inflate E fuel [] = .ok [] := by
  unfold fresh_inflate ZlibInflate.new
  rw [hinit]
  simp only [Outcome.bind]
  rw [inflate_next_eq]
  unfold inflate_loop
  simp

theorem footer_offset {raw : Bytes} (hs : sizeof_CartHeader + sizeof_CartFooter ≤ raw.length) :
    raw.length - 1 - sizeof_CartFooter + 1 = raw.length - sizeof_CartFooter := by
  simp only [sizeof_CartHeader, sizeof_CartFooter] at hs ⊢
  omega

/-- The loop of `inflate_next` on a stream the engine delivers in rounds: with
enough rounds allowed it ends normally and has appended the whole output. -/
theorem inflate_loop_delivers {E : Env} {s : E.zlib.State} {inp out : Bytes}
    (h : Delivers E.zlib output_buffer_size s inp out) :
    ∃ N, ∀ fuel, N ≤ fuel → ∀ (buf : Bytes) (msg : Option String),
      ∃ z1, inflate_loop E fuel Z_OK
        { next_in := inp, avail_in := inp.length, avail_out := 0, state := s, msg := msg } buf =
          .ok (z1, buf ++ out) := by
  induction h with
  | last s inp out hne hout hlen hcons hret =>
    refine ⟨1, ?_⟩
    intro fuel hfuel buf msg
    obtain ⟨k, rfl⟩ : ∃ k, fuel = k + 1 := ⟨fuel - 1, by omega⟩
    have hpos : 0 < inp.length := List.length_pos.2 hne
    unfold inflate_loop
    simp only [List.take_length]
    rw [if_pos (by refine ⟨hpos, ?_, ?_⟩ <;> trivial)]
    have hr : ¬ ((E.zlib.inflate s inp output_buffer_size).ret ≠ Z_OK ∧
        (E.zlib.inflate s inp output_buffer_size).ret ≠ Z_STREAM_END) := by
      rcases hret with h1 | h1 <;> simp [h1]
    simp only [hr, if_false]
    unfold inflate_loop
    simp [hcons, hout]
  | more s inp out hout hlen hcons hret _ ih =>
    obtain ⟨N, hN⟩ := ih
    refine ⟨N + 1, ?_⟩
    intro fuel hfuel buf msg
    obtain ⟨k, rfl⟩ : ∃ k, fuel = k + 1 := ⟨fuel - 1, by omega⟩
    have hpos : 0 < inp.length := by omega
    unfold inflate_loop
    simp only [List.take_length]
    rw [if_pos (by refine ⟨hpos, ?_, ?_⟩ <;> trivial)]
    have hr : ¬ ((E.zlib.inflate s inp output_buffer_size).ret ≠ Z_OK ∧
        (E.zlib.inflate s inp output_buffer_size).ret ≠ Z_STREAM_END) := by
      rcases hret with h1 | h1 <;> simp [h1]
    simp only [hr, if_false]
    have hfull : output_buffer_size - (E.zlib.inflate s inp output_buffer_size).output.length = 0 := by
      rw [hout, List.length_take]
      omega
    have hrest : inp.length - (E.zlib.inflate s inp output_buffer_size).consumed =
        (inp.drop (E.zlib.inflate s inp output_buffer_size).consumed).length := by
      rw [List.length_drop]
    rw [hfull, hrest]
    obtain ⟨z1, hz⟩ := hN k (by omega) (buf ++ (E.zlib.inflate s inp output_buffer_size).output)
      (E.zlib.inflate s inp output_buffer_size).msg
    refine ⟨z1, ?_⟩
    rw [hz, hout, List.append_assoc, List.take_append_drop]

/-- A newly constructed `ZlibInflate` on a stream the engine delivers returns
the whole output. -/
theorem fresh_inflate_delivers {E : Env} {s0 : E.zlib.State} {D P : Bytes}
    (hinit : E.zlib.inflateInit = some s0)
    (hD : Delivers E.zlib output_buffer_size s0 D P) (hsize : D.length < 2 ^ 32) :
    ∃ N, ∀ fuel, N ≤ fuel → fresh_inflate E fuel D = .ok P := by
  obtain ⟨N, hN⟩ := inflate_loop_delivers hD
  refine ⟨N, ?_⟩
  intro fuel hfuel
  obtain ⟨z1, hz⟩ := hN fuel hfuel [] none
  unfold fresh_inflate ZlibInflate.new
  rw [hinit]
  simp only [Outcome.bind]
  rw [inflate_next_eq, Nat.mod_eq_of_lt hsize]
  simp only [List.nil_append] at hz
  rw [hz]

theorem slice_append_left (a b : Bytes) (i j : Nat) (h : j ≤ a.length) :
    slice (a ++ b) i j = slice a i j := by
  unfold slice
  by_cases hi : i ≤ a.length
  · rw [List.drop_append_of_le_length hi, List.take_append_of_le_length]
    rw [List.length_drop]
    omega
  · have hz : j - i = 0 := by omega
    rw [hz]
    simp

theorem slice_mid (a b c : Bytes) (i j : Nat) (hi : i = a.length) (hj : j = a.length + b.length) :
    slice (a ++ (b ++ c)) i j = b := by
  subst hi hj
  unfold slice
  rw [List.drop_left, Nat.add_sub_cancel_left, List.take_left]

theorem read_CartHeader_append (hdr rest : Bytes) (h : hdr.length = sizeof_CartHeader) :
    read_CartHeader (hdr ++ rest) = read_CartHeader hdr := by
  have h38 : hdr.length = 38 := h
  unfold read_CartHeader
  rw [slice_append_left hdr rest 0 4 (by omega), slice_append_left hdr rest 4 6 (by omega),
    slice_append_left hdr rest 6 14 (by omega), slice_append_left hdr rest 14 30 (by omega),
    slice_append_left hdr rest 30 38 (by omega)]

/-- The optional-header stage on a buffer whose slice after the header record
is `oh`, the field being its length. -/
theorem opt_header_stage_of_slice (E : Env) (raw : Bytes) (K : Key) {oh : Bytes} {hd : CartHeader}
    {v : JsonValue}
    (hh : hd.opt_header_len = oh.length) (hlt : oh.length < 2 ^ 63)
    (hfit : sizeof_CartHeader + oh.length ≤ raw.length)
    (hsl : slice raw sizeof_CartHeader (sizeof_CartHeader + oh.length) = oh)
    (hoh : (oh = [] ∧ v = .null) ∨
      (oh ≠ [] ∧ ∃ txt, fresh_decrypt E K oh = .ok txt ∧ E.parse txt = .ok v)) :
    opt_header_stage E raw hd K = .ok v := by
  unfold opt_header_stage
  rw [hh]
  rcases hoh with ⟨h0, hv⟩ | ⟨hne, txt, h1, h2⟩
  · subst h0 hv
    rfl
  · have hz : oh.length > 0 := List.length_pos.2 hne
    rw [if_pos hz]
    have hr : vector_range raw sizeof_CartHeader
        (sizeof_CartHeader + to_difference_type oh.length) = .ok oh := by
      rw [to_difference_type_of_lt hlt]
      unfold vector_range
      rw [if_pos (by omega)]
      have e1 : ((sizeof_CartHeader : Int)).toNat = sizeof_CartHeader := by simp
      have e2 : ((sizeof_CartHeader : Int) + (oh.length : Int)).toNat =
          sizeof_CartHeader + oh.length := by omega
      rw [e1, e2, hsl]
    rw [hr]
    simp only [Outcome.bind, h1]
    rcases from_string_cases E txt with ⟨errors, h3, -⟩ | ⟨dst, h3, h4⟩
    · rw [h2] at h3
      simp at h3
    · rw [h4]
      rw [h2] at h3
      simp only [Except.ok.injEq] at h3
      rw [h3]

/-- The optional-footer stage on a buffer whose slice before the footer record
is `of`, the field being its length. -/
theorem opt_footer_stage_of_slice (E : Env) (raw : Bytes) (K : Key) {of : Bytes} {ft : CartFooter}
    {v : JsonValue}
    (hf : ft.opt_footer_len = of.length) (hlt : of.length < 2 ^ 63)
    (hfit : sizeof_CartFooter + of.length ≤ raw.length)
    (hsl : slice raw (raw.length - sizeof_CartFooter - of.length)
      (raw.length - sizeof_CartFooter) = of)
    (hof : (of = [] ∧ v = .null) ∨
      (of ≠ [] ∧ ∃ txt, fresh_decrypt E K of = .ok txt ∧ E.parse txt = .ok v)) :
    opt_footer_stage E raw ft K = .ok v := by
  unfold opt_footer_stage
  rw [hf]
  rcases hof with ⟨h0, hv⟩ | ⟨hne, txt, h1, h2⟩
  · subst h0 hv
    rfl
  · have hz : of.length > 0 := List.length_pos.2 hne
    rw [if_pos hz]
    have hr : vector_range raw
        ((raw.length : Int) - (sizeof_CartFooter : Int) - to_difference_type of.length)
        ((raw.length : Int) - (sizeof_CartFooter : Int)) = .ok of := by
      rw [to_difference_type_of_lt hlt]
      unfold vector_range
      rw [if_pos (by omega)]
      have e1 : ((raw.length : Int) - (sizeof_CartFooter : Int)).toNat =
          raw.length - sizeof_CartFooter := by omega
      have e2 : ((raw.length : Int) - (sizeof_CartFooter : Int) - (of.length : Int)).toNat =
          raw.length - sizeof_CartFooter - of.length := by omega
      rw [e1, e2, hsl]
    rw [hr]
    simp only [Outcome.bind, h1]
    rcases from_string_cases E txt with ⟨errors, h3, -⟩ | ⟨dst, h3, h4⟩
    · rw [h2] at h3
      simp at h3
    · rw [h4]
      rw [h2] at h3
      simp only [Except.ok.injEq] at h3
      rw [h3]

/-- The layout facts of a buffer made of the five regions in order. -/
theorem regions_layout (hdr oh pl of ftr : Bytes)
    (hhdr : hdr.length = sizeof_CartHeader) (hftr : ftr.length = sizeof_CartFooter) :
    (hdr ++ oh ++ pl ++ of ++ ftr).length =
        sizeof_CartHeader + oh.length + pl.length + of.length + sizeof_CartFooter ∧
      read_CartHeader (hdr ++ oh ++ pl ++ of ++ ftr) = read_CartHeader hdr ∧
      (hdr ++ oh ++ pl ++ of ++ ftr).drop
        ((hdr ++ oh ++ pl ++ of ++ ftr).length - sizeof_CartFooter) = ftr ∧
      slice (hdr ++ oh ++ pl ++ of ++ ftr) sizeof_CartHeader (sizeof_CartHeader + oh.length) = oh ∧
      slice (hdr ++ oh ++ pl ++ of ++ ftr)
        ((hdr ++ oh ++ pl ++ of ++ ftr).length - sizeof_CartFooter - of.length)
        ((hdr ++ oh ++ pl ++ of ++ ftr).length - sizeof_CartFooter) = of ∧
      slice (hdr ++ oh ++ pl ++ of ++ ftr) (sizeof_CartHeader + oh.length)
        ((hdr ++ oh ++ pl ++ of ++ ftr).length - sizeof_CartFooter - of.length) = pl := by
  have h38 : hdr.length = 38 := hhdr
  have h28 : ftr.length = 28 := hftr
  have e0 : sizeof_CartHeader = 38 := rfl
  have e00 : sizeof_CartFooter = 28 := rfl
  have hlen : (hdr ++ oh ++ pl ++ of ++ ftr).length =
      38 + oh.length + pl.length + of.length + 28 := by
    simp only [List.length_append, h38, h28]
  refine ⟨by rw [hlen, e0, e00], ?_, ?_, ?_, ?_, ?_⟩
  · simp only [List.append_assoc]
    exact read_CartHeader_append hdr _ hhdr
  · have e : (hdr ++ oh ++ pl ++ of ++ ftr).length - sizeof_CartFooter =
        (hdr ++ oh ++ pl ++ of).length := by
      simp only [List.length_append, h38, h28, e00]
      omega
    rw [e, List.drop_left]
  · simp only [List.append_assoc]
    exact slice_mid hdr oh _ _ _ hhdr.symm (by rw [hhdr])
  · rw [hlen]
    have e : hdr ++ oh ++ pl ++ of ++ ftr = (hdr ++ oh ++ pl) ++ (of ++ ftr) := by
      simp only [List.append_assoc]
    rw [e]
    apply slice_mid
    · simp only [List.length_append, h38, e00]
      omega
    · simp only [List.length_append, h38, e00]
      omega
  · rw [hlen]
    have e : hdr ++ oh ++ pl ++ of ++ ftr = (hdr ++ oh) ++ (pl ++ (of ++ ftr)) := by
      simp only [List.append_assoc]
    rw [e]
    apply slice_mid
    · simp only [List.length_append, h38, e0]
    · simp only [List.length_append, h38, e00]
      omega

/-- The constructor on a buffer made of the five regions in order: when the
optional blocks decode to `v1` and `v2` and the payload decrypts to `D`, the
object holds whatever a new `ZlibInflate` returns for `D`. -/
theorem CartObject_new_of_regions (E : Env) (K : Key) (fuel : Nat) {D out hdr oh pl of ftr : Bytes}
    {v1 v2 : JsonValue}
    (hhdr : hdr.length = sizeof_CartHeader)
    (hh : (read_CartHeader hdr).opt_header_len = oh.length)
    (hftr : ftr.length = sizeof_CartFooter)
    (hf : (read_CartFooter ftr).opt_footer_len = of.length)
    (hoh : (oh = [] ∧ v1 = .null) ∨
      (oh ≠ [] ∧ ∃ txt, fresh_decrypt E K oh = .ok txt ∧ E.parse txt = .ok v1))
    (hof : (of = [] ∧ v2 = .null) ∨
      (of ≠ [] ∧ ∃ txt, fresh_decrypt E K of = .ok txt ∧ E.parse txt = .ok v2))
    (hpl : fresh_decrypt E K pl = .ok D)
    (hinf : fresh_inflate E fuel D = .ok out)
    (hmax : (hdr ++ oh ++ pl ++ of ++ ftr).length < 2 ^ 63) :
    CartObject.new E fuel (hdr ++ oh ++ pl ++ of ++ ftr) K =
      .ok { cart_header := read_CartHeader hdr
            cart_opt_header := v1
            encoded_file := pl
            decoded_file := out
            cart_opt_footer := v2
            cart_footer := read_CartFooter ftr } := by
  obtain ⟨hlen, hrh, hrf, hs1, hs2, hs3⟩ := regions_layout hdr oh pl of ftr hhdr hftr
  generalize hdr ++ oh ++ pl ++ of ++ ftr = raw at hlen hmax hrh hrf hs1 hs2 hs3 ⊢
  have e0 : sizeof_CartHeader = 38 := rfl
  have e00 : sizeof_CartFooter = 28 := rfl
  have hs : sizeof_CartHeader + sizeof_CartFooter ≤ raw.length := by omega
  have hl1 : oh.length < 2 ^ 63 := by omega
  have hl2 : of.length < 2 ^ 63 := by omega
  have hv1 := opt_header_stage_of_slice E raw K hh hl1 (by omega) hs1 hoh
  have hv2 := opt_footer_stage_of_slice E raw K hf hl2 (by omega) hs2 hof
  have hr : vector_range raw
      ((sizeof_CartHeader : Int) + to_difference_type (read_CartHeader hdr).opt_header_len)
      ((raw.length : Int) - (sizeof_CartFooter : Int) -
        to_difference_type (read_CartFooter ftr).opt_footer_len) = .ok pl := by
    rw [hh, hf, to_difference_type_of_lt hl1, to_difference_type_of_lt hl2]
    unfold vector_range
    rw [if_pos (by omega)]
    have e1 : ((sizeof_CartHeader : Int) + (oh.length : Int)).toNat =
        sizeof_CartHeader + oh.length := by omega
    have e2 : ((raw.length : Int) - (sizeof_CartFooter : Int) - (of.length : Int)).toNat =
        raw.length - sizeof_CartFooter - of.length := by omega
    rw [e1, e2, hs3]
  unfold CartObject.new
  rw [if_neg (by omega)]
  simp only [footer_offset hs, hrh, hrf, hv1, hv2, hr, hpl, hinf, Outcome.bind]

theorem RC4_length : ∀ (data : Bytes) (k : RC4_KEY), (RC4 k data).2.length = data.length := by
  intro data
  induction data with
  | nil => intro k; simp [RC4]
  | cons b bs ih =>
    intro k
    simp only [RC4, List.length_cons]
    rw [ih]

theorem xor_byte_cancel (b : Byte) (ks : Nat) (h : ks < 256) :
    ((b.val ^^^ ks) % 256 ^^^ ks) % 256 = b.val := by
  have hb : b.val < 2 ^ 8 := b.isLt
  have hk : ks < 2 ^ 8 := h
  have h1 : b.val ^^^ ks < 2 ^ 8 := Nat.xor_lt_two_pow hb hk
  have h2 : (b.val ^^^ ks) % 256 = b.val ^^^ ks := Nat.mod_eq_of_lt h1
  rw [h2, Nat.xor_assoc, Nat.xor_self, Nat.xor_zero]
  exact Nat.mod_eq_of_lt hb

/-- RC4 is an involution: applying the key stream twice from the same state
gives the data back. -/
theorem RC4_involution : ∀ (data : Bytes) (k : RC4_KEY), (RC4 k (RC4 k data).2).2 = data := by
  intro data
  induction data with
  | nil => intro k; simp [RC4]
  | cons b bs ih =>
    intro k
    simp only [RC4]
    rw [ih]
    congr 1
    apply Fin.ext
    exact xor_byte_cancel b _ (Nat.mod_lt _ (by decide))

set_option maxRecDepth 1000000 in
/-- The first key-stream bytes for the 128-bit key of RFC 6229. -/
theorem rc4_known_answer :
    rc4_encrypt ⟨[1, 2, 3, 4, 5, 6, 7, 8, 9, 10, 11, 12, 13, 14, 15, 16], rfl⟩ (List.replicate 16 0) =
      [0x9a, 0xc7, 0xcc, 0x9a, 0x60, 0x9d, 0x1e, 0xf7, 0xb2, 0x93, 0x28, 0x99, 0xcd, 0xe4, 0x1b,
        0x97] := by
  decide!

theorem rc4_encrypt_length (K : Key) (data : Bytes) : (rc4_encrypt K data).length = data.length :=
  RC4_length data _

theorem rc4_encrypt_involution (K : Key) (data : Bytes) :
    rc4_encrypt K (rc4_encrypt K data) = data :=
  RC4_involution data _

theorem to_int_of_lt {n : Nat} (h : n < 2 ^ 31) : to_int n = n := by
  unfold to_int
  have h1 : n % 2 ^ 32 = n := Nat.mod_eq_of_lt (by omega)
  rw [h1, if_pos h]

/-- With OpenSSL's RC4, a new `Rc4` keyed with `K` returns the RC4 transform of
its input (for inputs whose size fits the `int` parameter). -/
theorem fresh_decrypt_libs (K : Key) (data : Bytes) (h : data.length < 2 ^ 31) :
    fresh_decrypt libs K data = .ok (rc4_encrypt K data) := by
  unfold fresh_decrypt Rc4.new Rc4.decrypt_next
  simp only [libs, openssl_rc4, Outcome.bind, to_int_of_lt h]
  cases data with
  | nil => simp [rc4_encrypt, RC4]
  | cons b bs =>
    have hpos : ¬ ((((b :: bs).length : Nat) : Int) < 0) := by omega
    have hne : ¬ ((((b :: bs).length : Nat) : Int) = 0) := by
      simp only [List.length_cons]
      omega
    simp only [hpos, hne, if_false, Int.toNat_ofNat, List.take_length]
    rw [if_pos (by rw [RC4_length])]
    rfl

/-- With OpenSSL's RC4, what was encrypted under `K` decrypts under `K`. -/
theorem fresh_decrypt_encrypt (K : Key) (data : Bytes) (h : data.length < 2 ^ 31) :
    fresh_decrypt libs K (rc4_encrypt K data) = .ok data := by
  rw [fresh_decrypt_libs K _ (by rw [rc4_encrypt_length]; exact h), rc4_encrypt_involution]

/-- Method `inflate_next` never throws the trailing-data error: the `ret` it
tests after the loop is the one declared before the loop, which is `Z_OK`. -/
theorem inflate_next_ne_trailing_data (E : Env) (fuel : Nat) (z0 : z_stream E.zlib.State)
    (input : Bytes) : ZlibInflate.inflate_next E fuel z0 input ≠ .throws .trailing_data := by
  rw [inflate_next_eq]
  intro h
  obtain ⟨m, hm⟩ := inflate_loop_throws _ _ _ _ _ h
  simp at hm

/-! ### Containers made by `make_container`, decoded with the concrete libraries -/

theorem le_uint_u64_le (n : Nat) (h : n < 2 ^ 64) : le_uint (u64_le n) = n := by
  have e : u64_le n = [Fin.ofNat (n / 256 ^ 0 % 256), Fin.ofNat (n / 256 ^ 1 % 256),
      Fin.ofNat (n / 256 ^ 2 % 256), Fin.ofNat (n / 256 ^ 3 % 256), Fin.ofNat (n / 256 ^ 4 % 256),
      Fin.ofNat (n / 256 ^ 5 % 256), Fin.ofNat (n / 256 ^ 6 % 256),
      Fin.ofNat (n / 256 ^ 7 % 256)] := rfl
  rw [e]
  simp only [le_uint, Fin.ofNat, Fin.val_mk]
  norm_num
  omega

theorem u64_le_length (n : Nat) : (u64_le n).length = 8 := by
  simp [u64_le]

theorem make_header_length (n : Nat) : (make_header n).length = sizeof_CartHeader := by
  simp only [make_header, List.length_append, u64_le_length, List.length_replicate]
  rfl

theorem make_footer_length (n : Nat) : (make_footer n).length = sizeof_CartFooter := by
  simp only [make_footer, List.length_append, u64_le_length, List.length_replicate]
  rfl

theorem read_make_header (n : Nat) (h : n < 2 ^ 64) :
    read_CartHeader (make_header n) =
      { cart := ascii "CART", version := 1, reserved := 0, rc4_key := List.replicate 16 0,
        opt_header_len := n } := by
  have hp : make_header n =
      (ascii "CART" ++ [1, 0] ++ List.replicate 8 0 ++ List.replicate 16 0) ++ u64_le n := rfl
  have hl : (ascii "CART" ++ [1, 0] ++ List.replicate 8 (0 : Byte) ++
      List.replicate 16 (0 : Byte)).length = 30 := by decide
  unfold read_CartHeader
  rw [hp, slice_append_left _ _ 0 4 (by rw [hl]; omega),
    slice_append_left _ _ 4 6 (by rw [hl]; omega),
    slice_append_left _ _ 6 14 (by rw [hl]; omega),
    slice_append_left _ _ 14 30 (by rw [hl])]
  have h5 : slice ((ascii "CART" ++ [1, 0] ++ List.replicate 8 (0 : Byte) ++
      List.replicate 16 (0 : Byte)) ++ u64_le n) 30 38 = u64_le n := by
    have := slice_mid (ascii "CART" ++ [1, 0] ++ List.replicate 8 (0 : Byte) ++
      List.replicate 16 (0 : Byte)) (u64_le n) [] 30 38 hl.symm (by rw [hl, u64_le_length])
    rwa [List.append_nil] at this
  rw [h5, le_uint_u64_le n h]
  congr 1

theorem read_make_footer (n : Nat) (h : n < 2 ^ 64) :
    read_CartFooter (make_footer n) =
      { tarc := ascii "TARC", reserved := (0, 0), opt_footer_len := n } := by
  have hp : make_footer n = (ascii "TARC" ++ List.replicate 16 0) ++ u64_le n := rfl
  have hl : (ascii "TARC" ++ List.replicate 16 (0 : Byte)).length = 20 := by decide
  unfold read_CartFooter
  rw [hp, slice_append_left _ _ 0 4 (by rw [hl]; omega),
    slice_append_left _ _ 4 12 (by rw [hl]; omega),
    slice_append_left _ _ 12 20 (by rw [hl])]
  have h5 : slice ((ascii "TARC" ++ List.replicate 16 (0 : Byte)) ++ u64_le n) 20 28 =
      u64_le n := by
    have := slice_mid (ascii "TARC" ++ List.replicate 16 (0 : Byte)) (u64_le n) [] 20 28 hl.symm
      (by rw [hl, u64_le_length])
    rwa [List.append_nil] at this
  rw [h5, le_uint_u64_le n h]
  congr 1

theorem rc4_encrypt_ne_nil (K : Key) {data : Bytes} (h : data ≠ []) : rc4_encrypt K data ≠ [] := by
  intro hc
  have := rc4_encrypt_length K data
  rw [hc] at this
  exact h (List.length_eq_zero.1 this.symm)

/-- Decoding, with the concrete libraries and the key `K'`, a container that
`make_container` built from blocks encrypted under `K`: when the two optional
blocks decrypt under `K'` to texts that parse (or are absent) and the payload
decrypts under `K'` to a stream that `inflate_next` accepts, the constructor
returns this object. -/
theorem libs_decode_container (K K1 : Key) (fuel : Nat) (ohj D ofj out : Bytes)
    (v1 v2 : JsonValue)
    (h1 : (ohj = [] ∧ v1 = .null) ∨
      (ohj ≠ [] ∧ jsoncpp_flat (rc4_encrypt K1 (rc4_encrypt K ohj)) = .ok v1))
    (h2 : (ofj = [] ∧ v2 = .null) ∨
      (ofj ≠ [] ∧ jsoncpp_flat (rc4_encrypt K1 (rc4_encrypt K ofj)) = .ok v2))
    (hinf : fresh_inflate libs fuel (rc4_encrypt K1 (rc4_encrypt K D)) = .ok out)
    (hsize : ohj.length + D.length + ofj.length < 2 ^ 31) :
    CartObject.new libs fuel
        (make_container (rc4_encrypt K ohj) (rc4_encrypt K D) (rc4_encrypt K ofj)) K1 =
      .ok { cart_header :=
              { cart := ascii "CART", version := 1, reserved := 0, rc4_key := List.replicate 16 0,
                opt_header_len := ohj.length }
            cart_opt_header := v1
            encoded_file := rc4_encrypt K D
            decoded_file := out
            cart_opt_footer := v2
            cart_footer := { tarc := ascii "TARC", reserved := (0, 0), opt_footer_len := ofj.length } } := by
  have e1 := rc4_encrypt_length K ohj
  have e2 := rc4_encrypt_length K D
  have e3 := rc4_encrypt_length K ofj
  have e0 : sizeof_CartHeader = 38 := rfl
  have e00 : sizeof_CartFooter = 28 := rfl
  have hh : (read_CartHeader (make_header (rc4_encrypt K ohj).length)).opt_header_len =
      (rc4_encrypt K ohj).length := by
    rw [read_make_header _ (by omega)]
  have hf : (read_CartFooter (make_footer (rc4_encrypt K ofj).length)).opt_footer_len =
      (rc4_encrypt K ofj).length := by
    rw [read_make_footer _ (by omega)]
  have hoh : (rc4_encrypt K ohj = [] ∧ v1 = .null) ∨ (rc4_encrypt K ohj ≠ [] ∧
      ∃ txt, fresh_decrypt libs K1 (rc4_encrypt K ohj) = .ok txt ∧ libs.parse txt = .ok v1) := by
    rcases h1 with ⟨ha, hb⟩ | ⟨ha, hb⟩
    · left
      subst ha
      exact ⟨rfl, hb⟩
    · right
      exact ⟨rc4_encrypt_ne_nil K ha, _, fresh_decrypt_libs K1 _ (by omega), hb⟩
  have hof : (rc4_encrypt K ofj = [] ∧ v2 = .null) ∨ (rc4_encrypt K ofj ≠ [] ∧
      ∃ txt, fresh_decrypt libs K1 (rc4_encrypt K ofj) = .ok txt ∧ libs.parse txt = .ok v2) := by
    rcases h2 with ⟨ha, hb⟩ | ⟨ha, hb⟩
    · left
      subst ha
      exact ⟨rfl, hb⟩
    · right
      exact ⟨rc4_encrypt_ne_nil K ha, _, fresh_decrypt_libs K1 _ (by omega), hb⟩
  have hpl : fresh_decrypt libs K1 (rc4_encrypt K D) = .ok (rc4_encrypt K1 (rc4_encrypt K D)) :=
    fresh_decrypt_libs K1 _ (by omega)
  have hmax : (make_header (rc4_encrypt K ohj).length ++ rc4_encrypt K ohj ++ rc4_encrypt K D ++
      rc4_encrypt K ofj ++ make_footer (rc4_encrypt K ofj).length).length < 2 ^ 63 := by
    simp only [List.length_append, make_header_length, make_footer_length, e1, e2, e3, e0, e00]
    omega
  have h := CartObject_new_of_regions libs K1 fuel
    (make_header_length _) hh (make_footer_length _) hf hoh hof hpl hinf hmax
  unfold make_container
  rw [h, read_make_header _ (by omega), read_make_footer _ (by omega), e1, e3]

/-- Decoding a container with the key it was built with. -/
theorem libs_decode_container_same_key (K : Key) (fuel : Nat) (ohj D ofj out : Bytes)
    (v1 v2 : JsonValue)
    (h1 : (ohj = [] ∧ v1 = .null) ∨ (ohj ≠ [] ∧ jsoncpp_flat ohj = .ok v1))
    (h2 : (ofj = [] ∧ v2 = .null) ∨ (ofj ≠ [] ∧ jsoncpp_flat ofj = .ok v2))
    (hinf : fresh_inflate libs fuel D = .ok out)
    (hsize : ohj.length + D.length + ofj.length < 2 ^ 31) :
    CartObject.new libs fuel
        (make_container (rc4_encrypt K ohj) (rc4_encrypt K D) (rc4_encrypt K ofj)) K =
      .ok { cart_header :=
              { cart := ascii "CART", version := 1, reserved := 0, rc4_key := List.replicate 16 0,
                opt_header_len := ohj.length }
            cart_opt_header := v1
            encoded_file := rc4_encrypt K D
            decoded_file := out
            cart_opt_footer := v2
            cart_footer := { tarc := ascii "TARC", reserved := (0, 0), opt_footer_len := ofj.length } } := by
  apply libs_decode_container K K fuel ohj D ofj out v1 v2
  · rw [rc4_encrypt_involution]; exact h1
  · rw [rc4_encrypt_involution]; exact h2
  · rw [rc4_encrypt_involution]; exact hinf
  · exact hsize

set_option maxRecDepth 1000000 in
theorem inflate_sample_stream : fresh_inflate libs 1 (zlib_store sample_plain) = .ok sample_plain := by
  decide!

/-- Decoding the sample container under the key it was carted with. -/
theorem sample_decode (K : Key) :
    CartObject.new libs 1 (sample_container K) K = .ok (sample_object K) :=
  libs_decode_container_same_key K 1 sample_header_json (zlib_store sample_plain)
    sample_footer_json sample_plain _ _ (Or.inr ⟨by decide, rfl⟩)
    (Or.inr ⟨by decide, rfl⟩) inflate_sample_stream (by decide)

/-- Decoding the bare container under the key it was carted with. -/
theorem bare_decode (K : Key) : CartObject.new libs 1 (bare_container K) K = .ok (bare_object K) :=
  libs_decode_container_same_key K 1 [] (zlib_store sample_plain) [] sample_plain _ _
    (Or.inl ⟨rfl, rfl⟩) (Or.inl ⟨rfl, rfl⟩) inflate_sample_stream (by decide)

/-- Decoding the container whose optional header is the text `null`. -/
theorem null_header_decode (K : Key) :
    CartObject.new libs 1 (null_header_container K) K = .ok (null_header_object K) :=
  libs_decode_container_same_key K 1 (ascii "null") (zlib_store sample_plain) [] sample_plain
    .null .null (Or.inr ⟨by decide, rfl⟩) (Or.inl ⟨rfl, rfl⟩) inflate_sample_stream (by decide)

theorem sample_container_length (K : Key) : (sample_container K).length = 127 := by
  simp only [sample_container, make_container, List.length_append, make_header_length,
    make_footer_length, rc4_encrypt_length]
  decide

theorem take_append_slice (v : Bytes) (a b : Nat) (h : a ≤ b) :
    v.take a ++ slice v a b = v.take b := by
  unfold slice
  have e : b = a + (b - a) := by omega
  conv_rhs => rw [e, List.take_add]

theorem slice_length (v : Bytes) (a b : Nat) (h : b ≤ v.length) : (slice v a b).length = b - a := by
  unfold slice
  rw [List.length_take, List.length_drop]
  omega

theorem slice_zero (v : Bytes) (b : Nat) : slice v 0 b = v.take b := by
  unfold slice
  simp

theorem slice_to_end (v : Bytes) (a : Nat) : slice v a v.length = v.drop a := by
  unfold slice
  rw [List.take_of_length_le]
  rw [List.length_drop]

/-- On a normal return both length fields are below `2 ^ 63`. -/
theorem CartObject_new_lens_lt {E : Env} {fuel : Nat} {raw : Bytes} {key : Key} {obj : CartObject}
    (h : CartObject.new E fuel raw key = .ok obj) :
    obj.cart_header.opt_header_len < 2 ^ 63 ∧ obj.cart_footer.opt_footer_len < 2 ^ 63 := by
  obtain ⟨-, hh, hf, h1, h2, -, -⟩ := CartObject_new_ok h
  have hn1 : obj.cart_header.opt_header_len < 2 ^ 64 := by rw [hh]; exact opt_header_len_lt _
  have hn2 : obj.cart_footer.opt_footer_len < 2 ^ 64 := by rw [hf]; exact opt_footer_len_lt _
  constructor
  · rcases opt_header_stage_ok hn1 h1 with ⟨hz, -⟩ | ⟨-, hlt, -⟩
    · rw [hz]; norm_num
    · exact hlt
  · rcases opt_footer_stage_ok hn2 h2 with ⟨hz, -⟩ | ⟨-, hlt, -⟩
    · rw [hz]; norm_num
    · exact hlt

/-- A buffer cut at four increasing offsets is the five pieces joined. -/
theorem five_pieces (v : Bytes) (a b c d : Nat) (hab : a ≤ b) (hbc : b ≤ c) (hcd : c ≤ d) :
    v = v.take a ++ slice v a b ++ slice v b c ++ slice v c d ++ v.drop d := by
  rw [take_append_slice v a b hab, take_append_slice v b c hbc, take_append_slice v c d hcd,
    List.take_append_drop]

/-! ### Little-endian fields -/
theorem slice_drop (v : Bytes) (d a b : Nat) : slice (v.drop d) a b = slice v (d + a) (d + b) := by
  unfold slice
  rw [List.drop_drop]
  have e : d + b - (d + a) = b - a := by omega
  rw [e, Nat.add_comm d a]

theorem le_uint_eq_sum : ∀ bs : Bytes,
    le_uint bs = ∑ i in Finset.range bs.length, (bs.getD i 0).val * 256 ^ i
  | [] => by simp [le_uint]
  | b :: bs => by
    rw [le_uint, le_uint_eq_sum bs, List.length_cons, Finset.sum_range_succ', Finset.mul_sum]
    simp only [List.getD_cons_succ, List.getD_cons_zero, pow_zero, mul_one, pow_succ]
    rw [Nat.add_comm]
    congr 1
    apply Finset.sum_congr rfl
    intro i _
    ring

theorem slice_getD (v : Bytes) (a b i : Nat) (h : i < b - a) :
    (slice v a b).getD i 0 = v.getD (a + i) 0 := by
  unfold slice
  simp only [List.getD_eq_getElem?_getD]
  rw [List.getElem?_take_of_lt h, List.getElem?_drop]

/-- The little-endian value of `n` bytes at offset `a`, as a weighted sum of bytes. -/
theorem le_uint_slice (v : Bytes) (a n : Nat) (h : a + n ≤ v.length) :
    le_uint (slice v a (a + n)) = ∑ i in Finset.range n, (v.getD (a + i) 0).val * 256 ^ i := by
  rw [le_uint_eq_sum, slice_length v a (a + n) h]
  have e : a + n - a = n := by omega
  rw [e]
  apply Finset.sum_congr rfl
  intro i hi
  rw [slice_getD v a (a + n) i (by rw [e]; exact Finset.mem_range.1 hi)]

/-! ### Inputs that differ outside the bytes the constructor decodes -/
theorem Outcome.bind_assoc {α β γ : Type} (x : Outcome α) (f : α → Outcome β) (g : β → Outcome γ) :
    (x.bind f).bind g = x.bind (fun a => (f a).bind g) := by
  cases x <;> rfl

theorem slice_slice (v : Bytes) (a b c d : Nat) (hac : a ≤ c) (hdb : d ≤ b) :
    slice (slice v a b) (c - a) (d - a) = slice v c d := by
  unfold slice
  rw [List.drop_take, List.take_take, List.drop_drop]
  have e1 : a + (c - a) = c := by omega
  have e2 : min (d - a - (c - a)) (b - a - (c - a)) = d - c := by omega
  rw [e1, e2]

theorem slice_sub {v1 v2 : Bytes} {a b : Nat} (h : slice v1 a b = slice v2 a b) (c d : Nat)
    (hac : a ≤ c) (hdb : d ≤ b) : slice v1 c d = slice v2 c d := by
  rw [← slice_slice v1 a b c d hac hdb, ← slice_slice v2 a b c d hac hdb, h]

theorem vector_range_congr {v1 v2 : Bytes} (hlen : v1.length = v2.length) (a b : Int)
    (h : 0 ≤ a → a ≤ b → b ≤ v1.length → slice v1 a.toNat b.toNat = slice v2 a.toNat b.toNat) :
    vector_range v1 a b = vector_range v2 a b := by
  unfold vector_range
  rw [← hlen]
  by_cases hc : 0 ≤ a ∧ a ≤ b ∧ b ≤ v1.length
  · rw [if_pos hc, if_pos hc, h hc.1 hc.2.1 hc.2.2]
  · rw [if_neg hc, if_neg hc]


theorem opt_header_stage_congr (E : Env) (key : Key) {raw1 raw2 : Bytes} {hd1 hd2 : CartHeader}
    (hlen : raw1.length = raw2.length) (hh : hd1.opt_header_len = hd2.opt_header_len)
    (hn : hd1.opt_header_len < 2 ^ 64)
    (hsl : hd1.opt_header_len < 2 ^ 63 → sizeof_CartHeader + hd1.opt_header_len ≤ raw1.length →
      slice raw1 sizeof_CartHeader (sizeof_CartHeader + hd1.opt_header_len) =
        slice raw2 sizeof_CartHeader (sizeof_CartHeader + hd1.opt_header_len)) :
    opt_header_stage E raw1 hd1 key = opt_header_stage E raw2 hd2 key := by
  have hv : vector_range raw1 sizeof_CartHeader
      (sizeof_CartHeader + to_difference_type hd1.opt_header_len) =
      vector_range raw2 sizeof_CartHeader
        (sizeof_CartHeader + to_difference_type hd1.opt_header_len) := by
    apply vector_range_congr hlen
    intro _ h1 h2
    have hlt : hd1.opt_header_len < 2 ^ 63 := to_difference_type_nonneg hn (by omega)
    rw [to_difference_type_of_lt hlt] at h2 ⊢
    have e1 : ((sizeof_CartHeader : Int)).toNat = sizeof_CartHeader := by simp
    have e2 : ((sizeof_CartHeader : Int) + (hd1.opt_header_len : Int)).toNat =
        sizeof_CartHeader + hd1.opt_header_len := by omega
    rw [e1, e2]
    exact hsl hlt (by omega)
  unfold opt_header_stage
  rw [← hh, hv]

theorem opt_footer_stage_congr (E : Env) (key : Key) {raw1 raw2 : Bytes} {ft1 ft2 : CartFooter}
    (hlen : raw1.length = raw2.length) (hf : ft1.opt_footer_len = ft2.opt_footer_len)
    (hn : ft1.opt_footer_len < 2 ^ 64)
    (hsl : ft1.opt_footer_len < 2 ^ 63 → sizeof_CartFooter + ft1.opt_footer_len ≤ raw1.length →
      slice raw1 (raw1.length - sizeof_CartFooter - ft1.opt_footer_len)
          (raw1.length - sizeof_CartFooter) =
        slice raw2 (raw1.length - sizeof_CartFooter - ft1.opt_footer_len)
          (raw1.length - sizeof_CartFooter)) :
    opt_footer_stage E raw1 ft1 key = opt_footer_stage E raw2 ft2 key := by
  have hv : vector_range raw1
      ((raw1.length : Int) - (sizeof_CartFooter : Int) - to_difference_type ft1.opt_footer_len)
      ((raw1.length : Int) - (sizeof_CartFooter : Int)) =
      vector_range raw2
        ((raw1.length : Int) - (sizeof_CartFooter : Int) - to_difference_type ft1.opt_footer_len)
        ((raw1.length : Int) - (sizeof_CartFooter : Int)) := by
    apply vector_range_congr hlen
    intro h0 h1 h2
    have hlt : ft1.opt_footer_len < 2 ^ 63 := to_difference_type_nonneg hn (by omega)
    rw [to_difference_type_of_lt hlt] at h0 ⊢
    have e1 : ((raw1.length : Int) - (sizeof_CartFooter : Int)).toNat =
        raw1.length - sizeof_CartFooter := by omega
    have e2 : ((raw1.length : Int) - (sizeof_CartFooter : Int) -
        (ft1.opt_footer_len : Int)).toNat =
        raw1.length - sizeof_CartFooter - ft1.opt_footer_len := by omega
    rw [e1, e2]
    exact hsl hlt (by omega)
  unfold opt_footer_stage
  rw [← hf, ← hlen, hv]

/-- Two inputs of equal length whose length fields agree and whose bytes between
the two records agree, the regions fitting between the records: the constructor
does the same on both, apart from the two records it stores. -/
theorem CartObject_new_congr (E : Env) (fuel : Nat) (key : Key) {raw1 raw2 : Bytes}
    (hlen : raw1.length = raw2.length)
    (hh : (header_of raw1).opt_header_len = (header_of raw2).opt_header_len)
    (hf : (footer_of raw1).opt_footer_len = (footer_of raw2).opt_footer_len)
    (hmid : slice raw1 sizeof_CartHeader (raw1.length - sizeof_CartFooter) =
      slice raw2 sizeof_CartHeader (raw1.length - sizeof_CartFooter))
    (hl1 : (header_of raw1).opt_header_len < 2 ^ 63)
    (hl2 : (footer_of raw1).opt_footer_len < 2 ^ 63)
    (hfit : sizeof_CartHeader + (header_of raw1).opt_header_len +
      (footer_of raw1).opt_footer_len + sizeof_CartFooter ≤ raw1.length) :
    CartObject.new E fuel raw2 key =
      (CartObject.new E fuel raw1 key).bind fun o =>
        .ok { o with cart_header := header_of raw2, cart_footer := footer_of raw2 } := by
  have e0 : sizeof_CartHeader = 38 := rfl
  have e00 : sizeof_CartFooter = 28 := rfl
  have hs1 : sizeof_CartHeader + sizeof_CartFooter ≤ raw1.length := by omega
  have hs2 : sizeof_CartHeader + sizeof_CartFooter ≤ raw2.length := by omega
  have hA : opt_header_stage E raw1 (header_of raw1) key =
      opt_header_stage E raw2 (header_of raw2) key :=
    opt_header_stage_congr E key hlen hh (by omega)
      (fun _ _ => slice_sub hmid _ _ (le_refl _) (by omega))
  have hB : opt_footer_stage E raw1 (footer_of raw1) key =
      opt_footer_stage E raw2 (footer_of raw2) key :=
    opt_footer_stage_congr E key hlen hf (by omega)
      (fun _ _ => slice_sub hmid _ _ (by omega) (le_refl _))
  have hC : vector_range raw1
      ((sizeof_CartHeader : Int) + to_difference_type (header_of raw1).opt_header_len)
      ((raw1.length : Int) - (sizeof_CartFooter : Int) -
        to_difference_type (footer_of raw1).opt_footer_len) =
      vector_range raw2
        ((sizeof_CartHeader : Int) + to_difference_type (header_of raw1).opt_header_len)
        ((raw1.length : Int) - (sizeof_CartFooter : Int) -
          to_difference_type (footer_of raw1).opt_footer_len) := by
    apply vector_range_congr hlen
    intro _ _ _
    rw [to_difference_type_of_lt hl1, to_difference_type_of_lt hl2]
    have e1 : ((sizeof_CartHeader : Int) + ((header_of raw1).opt_header_len : Int)).toNat =
        sizeof_CartHeader + (header_of raw1).opt_header_len := by omega
    have e2 : ((raw1.length : Int) - (sizeof_CartFooter : Int) -
        ((footer_of raw1).opt_footer_len : Int)).toNat =
        raw1.length - sizeof_CartFooter - (footer_of raw1).opt_footer_len := by omega
    rw [e1, e2]
    exact slice_sub hmid _ _ (by omega) (by omega)
  unfold CartObject.new
  rw [if_neg (by omega), if_neg (by omega)]
  simp only [footer_offset hs1, footer_offset hs2, Outcome.bind_assoc]
  change (opt_header_stage E raw2 (header_of raw2) key).bind _ =
    (opt_header_stage E raw1 (header_of raw1) key).bind _
  rw [← hA]
  congr 1
  funext oh
  change (opt_footer_stage E raw2 (footer_of raw2) key).bind _ =
    (opt_footer_stage E raw1 (footer_of raw1) key).bind _
  rw [← hB]
  congr 1
  funext of
  have hh1 : (read_CartHeader raw2).opt_header_len = (header_of raw1).opt_header_len := hh.symm
  have hf1 : (read_CartFooter (raw2.drop (raw2.length - sizeof_CartFooter))).opt_footer_len =
      (footer_of raw1).opt_footer_len := hf.symm
  have hh0 : (read_CartHeader raw1).opt_header_len = (header_of raw1).opt_header_len := rfl
  have hf0 : (read_CartFooter (raw1.drop (raw1.length - sizeof_CartFooter))).opt_footer_len =
      (footer_of raw1).opt_footer_len := rfl
  rw [hh1, hf1, hh0, hf0, ← hlen, ← hC]
  congr 1
  funext a
  congr 1
  funext b
  congr 1
  funext c
  show Outcome.ok _ = Outcome.ok _
  simp only [header_of, footer_of, hlen]

theorem slice_shift (A Y : Bytes) (n a b : Nat) (hn : n = A.length) :
    slice (A ++ Y) (n + a) (n + b) = slice Y a b := by
  subst hn
  unfold slice
  rw [List.drop_append]
  have e : A.length + b - (A.length + a) = b - a := by omega
  rw [e]

theorem slice_all (v : Bytes) (n : Nat) (h : n = v.length) : slice v 0 n = v := by
  subst h
  unfold slice
  simp

/-- The records and the bytes between them of a buffer made of a header tag
`A`, the bytes `M` up to the footer record, a footer tag `T` and the rest `R`
of the footer record. -/
theorem records_of_pieces (A M T R : Bytes) (hA : A.length = 4) (hT : T.length = 4)
    (hR : R.length = 24) (hM : 34 ≤ M.length) :
    (A ++ M ++ T ++ R).length = M.length + 32 ∧
      header_of (A ++ M ++ T ++ R) =
        { cart := A, version := le_uint (slice M 0 2), reserved := le_uint (slice M 2 10),
          rc4_key := slice M 10 26, opt_header_len := le_uint (slice M 26 34) } ∧
      footer_of (A ++ M ++ T ++ R) =
        { tarc := T, reserved := (le_uint (slice R 0 8), le_uint (slice R 8 16)),
          opt_footer_len := le_uint (slice R 16 24) } ∧
      slice (A ++ M ++ T ++ R) sizeof_CartHeader ((A ++ M ++ T ++ R).length - sizeof_CartFooter) =
        slice M 34 M.length := by
  have e0 : sizeof_CartHeader = 38 := rfl
  have e00 : sizeof_CartFooter = 28 := rfl
  have hlen : (A ++ M ++ T ++ R).length = M.length + 32 := by
    simp only [List.length_append, hA, hT, hR]
    omega
  have hin : ∀ a b, b ≤ M.length →
      slice (A ++ M ++ T ++ R) (4 + a) (4 + b) = slice M a b := by
    intro a b hb
    have e : A ++ M ++ T ++ R = A ++ (M ++ (T ++ R)) := by simp only [List.append_assoc]
    rw [e, slice_shift A _ 4 a b hA.symm, slice_append_left M _ a b hb]
  refine ⟨hlen, ?_, ?_, ?_⟩
  · unfold header_of read_CartHeader
    have h1 : slice (A ++ M ++ T ++ R) 0 4 = A := by
      have e : A ++ M ++ T ++ R = A ++ (M ++ (T ++ R)) := by simp only [List.append_assoc]
      rw [e, slice_append_left A _ 0 4 (by omega), slice_all A 4 hA.symm]
    have h2 := hin 0 2 (by omega)
    have h3 := hin 2 10 (by omega)
    have h4 := hin 10 26 (by omega)
    have h5 := hin 26 34 (by omega)
    simp only [Nat.reduceAdd] at h2 h3 h4 h5
    rw [h1, h2, h3, h4, h5]
  · unfold footer_of
    have hd : (A ++ M ++ T ++ R).drop ((A ++ M ++ T ++ R).length - sizeof_CartFooter) = T ++ R := by
      have e : A ++ M ++ T ++ R = (A ++ M) ++ (T ++ R) := by simp only [List.append_assoc]
      have e1 : (A ++ M ++ T ++ R).length - sizeof_CartFooter = (A ++ M).length := by
        rw [hlen, e00, List.length_append, hA]
        omega
      rw [e1, e, List.drop_left]
    rw [hd]
    unfold read_CartFooter
    have h1 : slice (T ++ R) 0 4 = T := by
      rw [slice_append_left T R 0 4 (by omega), slice_all T 4 hT.symm]
    have h2 := slice_shift T R 4 0 8 hT.symm
    have h3 := slice_shift T R 4 8 16 hT.symm
    have h4 := slice_shift T R 4 16 24 hT.symm
    simp only [Nat.reduceAdd] at h2 h3 h4
    rw [h1, h2, h3, h4]
  · rw [hlen, e0, e00]
    have h := hin 34 M.length (le_refl _)
    have e1 : M.length + 32 - 28 = 4 + M.length := by omega
    rw [e1]
    exact h

/-- An input of at least 66 bytes cut into its header tag, the bytes up to the
footer record, the footer tag and the rest of the footer record. -/
theorem raw_pieces (raw : Bytes) (hs : sizeof_CartHeader + sizeof_CartFooter ≤ raw.length) :
    raw = raw.take 4 ++ slice raw 4 (raw.length - sizeof_CartFooter) ++
      slice raw (raw.length - sizeof_CartFooter) (raw.length - 24) ++ raw.drop (raw.length - 24) := by
  have e0 : sizeof_CartHeader = 38 := rfl
  have e00 : sizeof_CartFooter = 28 := rfl
  rw [e0, e00] at hs
  rw [e00, take_append_slice raw 4 _ (by omega), take_append_slice raw _ _ (by omega),
    List.take_append_drop]

/-- Replacing the two tags changes nothing but the tags the constructor stores. -/
theorem CartObject_new_retag (E : Env) (fuel : Nat) (raw : Bytes) (key : Key) (obj : CartObject)
    (t1 t2 : Bytes) (h1 : t1.length = 4) (h2 : t2.length = 4)
    (hok : CartObject.new E fuel raw key = .ok obj) :
    CartObject.new E fuel (retag raw t1 t2) key =
      .ok { obj with
            cart_header := { obj.cart_header with cart := t1 }
            cart_footer := { obj.cart_footer with tarc := t2 } } := by
  obtain ⟨hs, hh, hf, -⟩ := CartObject_new_ok hok
  obtain ⟨hfit, -⟩ := CartObject_new_layout hok
  obtain ⟨hl1, hl2⟩ := CartObject_new_lens_lt hok
  have e0 : sizeof_CartHeader = 38 := rfl
  have e00 : sizeof_CartFooter = 28 := rfl
  have hM : (slice raw 4 (raw.length - sizeof_CartFooter)).length = raw.length - 32 := by
    rw [slice_length _ _ _ (by omega), e00]
    omega
  have hT : (slice raw (raw.length - sizeof_CartFooter) (raw.length - 24)).length = 4 := by
    rw [slice_length _ _ _ (by omega), e00]
    omega
  have hR : (raw.drop (raw.length - 24)).length = 24 := by
    rw [List.length_drop]
    omega
  have hA : (raw.take 4).length = 4 := by
    rw [List.length_take]
    omega
  obtain ⟨a1, a2, a3, a4⟩ := records_of_pieces (raw.take 4)
    (slice raw 4 (raw.length - sizeof_CartFooter))
    (slice raw (raw.length - sizeof_CartFooter) (raw.length - 24)) (raw.drop (raw.length - 24))
    hA hT hR (by omega)
  rw [← raw_pieces raw hs] at a1 a2 a3 a4
  obtain ⟨b1, b2, b3, b4⟩ := records_of_pieces t1
    (slice raw 4 (raw.length - sizeof_CartFooter)) t2 (raw.drop (raw.length - 24))
    h1 h2 hR (by omega)
  have hlen : raw.length = (retag raw t1 t2).length := by
    unfold retag
    rw [b1, hM]
    omega
  have hh0 : obj.cart_header = header_of raw := hh
  have hf0 : obj.cart_footer = footer_of raw := hf
  rw [hh0] at hl1 hfit
  rw [hf0] at hl2 hfit
  have hc := CartObject_new_congr E fuel key hlen
    (by unfold retag; rw [a2, b2])
    (by unfold retag; rw [a3, b3])
    (by
      have el : (t1 ++ slice raw 4 (raw.length - sizeof_CartFooter) ++ t2 ++
          raw.drop (raw.length - 24)).length = raw.length := by
        rw [b1, hM]
        omega
      rw [el] at b4
      unfold retag
      rw [a4, b4])
    hl1 hl2 hfit
  rw [hc, hok]
  show Outcome.ok _ = Outcome.ok _
  rw [hh0, hf0]
  unfold retag
  rw [a2, a3, b2, b3]

/-! ### The rounds of `inflate_next` -/
/-- A call of `inflate_next` whose first round returns `Z_OK` or `Z_STREAM_END`
and exhausts the input or leaves space in the buffer: the loop ends after this
round and the buffer of this round is returned. -/
theorem inflate_next_one_round (E : Env) (fuel : Nat) (z0 : z_stream E.zlib.State) (input : Bytes)
    (r : InflateResult E.zlib.State) (rest : Bytes) (a o : Nat)
    (hr : E.zlib.inflate z0.state input output_buffer_size = r)
    (hne : 0 < input.length) (hlt : input.length < 2 ^ 32)
    (hret : r.ret = Z_OK ∨ r.ret = Z_STREAM_END)
    (hrest : input.drop r.consumed = rest) (ha : input.length - r.consumed = a)
    (ho : output_buffer_size - r.output.length = o)
    (hstop : a = 0 ∨ o ≠ 0) :
    ZlibInflate.inflate_next E (fuel + 1) z0 input =
      .ok ({ next_in := rest, avail_in := a, avail_out := o, state := r.state, msg := r.msg },
        r.output) := by
  subst hr hrest ha ho
  rw [inflate_next_eq]
  unfold inflate_loop
  simp only [Nat.mod_eq_of_lt hlt, List.take_length]
  rw [if_pos (by refine ⟨hne, ?_, ?_⟩ <;> trivial)]
  have hr : ¬ ((E.zlib.inflate z0.state input output_buffer_size).ret ≠ Z_OK ∧
      (E.zlib.inflate z0.state input output_buffer_size).ret ≠ Z_STREAM_END) := by
    rcases hret with h1 | h1 <;> simp [h1]
  simp only [hr, if_false]
  unfold inflate_loop
  rw [if_neg (by
    rintro ⟨h1, -, h2⟩
    rcases hstop with h3 | h3
    · simp only at h1
      omega
    · simp only at h2
      omega)]
  simp

/-! ### The status of an inflate round -/
/-- A round whose status is neither `Z_OK` nor `Z_STREAM_END`: the loop is left
by the `throw`, whose message is built from `zlib_stream.msg`. -/
theorem inflate_loop_bad_status (E : Env) (fuel : Nat) (z : z_stream E.zlib.State) (buf : Bytes)
    (hin : 0 < z.avail_in) (hout : z.avail_out = 0)
    (h1 : (E.zlib.inflate z.state (z.next_in.take z.avail_in) output_buffer_size).ret ≠ Z_OK)
    (h2 : (E.zlib.inflate z.state (z.next_in.take z.avail_in) output_buffer_size).ret ≠
      Z_STREAM_END) :
    inflate_loop E (fuel + 1) Z_OK z buf =
      match (E.zlib.inflate z.state (z.next_in.take z.avail_in) output_buffer_size).msg with
      | none => .undefined
      | some m => .throws (.error_while_inflating m) := by
  unfold inflate_loop
  rw [if_pos ⟨hin, rfl, hout⟩]
  simp only
  rw [if_pos ⟨h1, h2⟩]

/-- With an engine whose rounds all return `Z_OK` or `Z_STREAM_END` the loop
returns normally or is still running when the round bound is reached. -/
theorem inflate_loop_good_status {E : Env}
    (hE : ∀ s i n, (E.zlib.inflate s i n).ret = Z_OK ∨ (E.zlib.inflate s i n).ret = Z_STREAM_END) :
    ∀ (fuel : Nat) (z : z_stream E.zlib.State) (buf : Bytes),
      (∃ r, inflate_loop E fuel Z_OK z buf = .ok r) ∨ inflate_loop E fuel Z_OK z buf = .unfinished := by
  intro fuel
  induction fuel with
  | zero =>
    intro z buf
    unfold inflate_loop
    split
    · exact Or.inr rfl
    · exact Or.inl ⟨_, rfl⟩
  | succ k ih =>
    intro z buf
    unfold inflate_loop
    split
    · simp only
      have hr : ¬ ((E.zlib.inflate z.state (z.next_in.take z.avail_in) output_buffer_size).ret ≠ Z_OK ∧
          (E.zlib.inflate z.state (z.next_in.take z.avail_in) output_buffer_size).ret ≠
            Z_STREAM_END) := by
        rcases hE z.state (z.next_in.take z.avail_in) output_buffer_size with h1 | h1 <;> simp [h1]
      rw [if_neg hr]
      exact ih _ _
    · exact Or.inl ⟨_, rfl⟩

set_option maxRecDepth 1000000 in
theorem need_dict_round :
    zlib_stored_inflate zlib_stored_init.1 need_dict_stream output_buffer_size none =
      { ret := Z_NEED_DICT
        state := ({ mode := .DICT, last := false, hold := [], length := 0, check := 1 }, none)
        consumed := 6, output := [], msg := none } := by
  rfl

set_option maxRecDepth 1000000 in
theorem need_dict_inflate_next :
    fresh_inflate libs 1 need_dict_stream = .undefined := by
  decide!

set_option maxRecDepth 1000000 in
theorem need_dict_decode :
    CartObject.new libs 1 need_dict_container DEFAULT_RC4_KEY = .undefined := by
  decide!

/-! ### The stage an exception comes from -/
theorem CartObject_new_header_throws (E : Env) (fuel : Nat) (raw : Bytes) (key : Key) (w : What)
    (hs : sizeof_CartHeader + sizeof_CartFooter ≤ raw.length)
    (h : opt_header_stage E raw (header_of raw) key = .throws w) :
    CartObject.new E fuel raw key = .throws w := by
  unfold CartObject.new
  rw [if_neg (by omega)]
  have h1 : opt_header_stage E raw (read_CartHeader raw) key = .throws w := h
  simp only [h1, Outcome.bind]

theorem CartObject_new_footer_throws (E : Env) (fuel : Nat) (raw : Bytes) (key : Key) (w : What)
    (v : JsonValue)
    (hs : sizeof_CartHeader + sizeof_CartFooter ≤ raw.length)
    (hh : opt_header_stage E raw (header_of raw) key = .ok v)
    (h : opt_footer_stage E raw (footer_of raw) key = .throws w) :
    CartObject.new E fuel raw key = .throws w := by
  unfold CartObject.new
  rw [if_neg (by omega)]
  have h1 : opt_header_stage E raw (read_CartHeader raw) key = .ok v := hh
  have h2 : opt_footer_stage E raw
      (read_CartFooter (raw.drop (raw.length - sizeof_CartFooter))) key = .throws w := h
  simp only [footer_offset hs, h1, h2, Outcome.bind]

/-- The slice of the optional header when its length field is in range. -/
theorem opt_header_range (raw : Bytes) (n : Nat) (hlt : n < 2 ^ 63)
    (hfit : sizeof_CartHeader + n ≤ raw.length) :
    vector_range raw sizeof_CartHeader (sizeof_CartHeader + to_difference_type n) =
      .ok (slice raw sizeof_CartHeader (sizeof_CartHeader + n)) := by
  rw [to_difference_type_of_lt hlt]
  unfold vector_range
  rw [if_pos (by omega)]
  have e1 : ((sizeof_CartHeader : Int)).toNat = sizeof_CartHeader := by simp
  have e2 : ((sizeof_CartHeader : Int) + (n : Int)).toNat = sizeof_CartHeader + n := by omega
  rw [e1, e2]

/-- The slice of the optional footer when its length field is in range. -/
theorem opt_footer_range (raw : Bytes) (n : Nat) (hlt : n < 2 ^ 63)
    (hfit : sizeof_CartFooter + n ≤ raw.length) :
    vector_range raw ((raw.length : Int) - (sizeof_CartFooter : Int) - to_difference_type n)
        ((raw.length : Int) - (sizeof_CartFooter : Int)) =
      .ok (slice raw (raw.length - sizeof_CartFooter - n) (raw.length - sizeof_CartFooter)) := by
  rw [to_difference_type_of_lt hlt]
  unfold vector_range
  rw [if_pos (by omega)]
  have e1 : ((raw.length : Int) - (sizeof_CartFooter : Int)).toNat =
      raw.length - sizeof_CartFooter := by omega
  have e2 : ((raw.length : Int) - (sizeof_CartFooter : Int) - (n : Int)).toNat =
      raw.length - sizeof_CartFooter - n := by omega
  rw [e1, e2]

/-- The optional-header stage in terms of the decrypted slice. -/
theorem opt_header_stage_eq (E : Env) (raw : Bytes) (hd : CartHeader) (key : Key)
    (hpos : 0 < hd.opt_header_len) (hlt : hd.opt_header_len < 2 ^ 63)
    (hfit : sizeof_CartHeader + hd.opt_header_len ≤ raw.length) :
    opt_header_stage E raw hd key =
      (fresh_decrypt E key
        (slice raw sizeof_CartHeader (sizeof_CartHeader + hd.opt_header_len))).bind fun txt =>
      match E.parse txt with
      | .error errors => .throws (.opt_header_json (.failed_to_parse txt errors))
      | .ok v => .ok v := by
  unfold opt_header_stage
  rw [if_pos hpos, opt_header_range raw _ hlt hfit]
  show (fresh_decrypt E key _).bind _ = _
  congr 1
  funext txt
  unfold from_string
  cases E.parse txt <;> rfl

/-- The optional-footer stage in terms of the decrypted slice. -/
theorem opt_footer_stage_eq (E : Env) (raw : Bytes) (ft : CartFooter) (key : Key)
    (hpos : 0 < ft.opt_footer_len) (hlt : ft.opt_footer_len < 2 ^ 63)
    (hfit : sizeof_CartFooter + ft.opt_footer_len ≤ raw.length) :
    opt_footer_stage E raw ft key =
      (fresh_decrypt E key
        (slice raw (raw.length - sizeof_CartFooter - ft.opt_footer_len)
          (raw.length - sizeof_CartFooter))).bind fun txt =>
      match E.parse txt with
      | .error errors => .throws (.opt_footer_json (.failed_to_parse txt errors))
      | .ok v => .ok v := by
  unfold opt_footer_stage
  rw [if_pos hpos, opt_footer_range raw _ hlt hfit]
  show (fresh_decrypt E key _).bind _ = _
  congr 1
  funext txt
  unfold from_string
  cases E.parse txt <;> rfl

/-- An exception wrapped as the optional-header error comes from the
optional-header stage. -/
theorem CartObject_new_throws_opt_header {E : Env} {fuel : Nat} {raw : Bytes} {key : Key}
    {inner : What} (h : CartObject.new E fuel raw key = .throws (.opt_header_json inner)) :
    opt_header_stage E raw (header_of raw) key = .throws (.opt_header_json inner) := by
  unfold CartObject.new at h
  split at h
  · simp at h
  · simp only at h
    rcases Outcome.bind_eq_throws.1 h with h1 | ⟨oh, -, h2⟩
    · exact h1
    · rcases Outcome.bind_eq_throws.1 h2 with h3 | ⟨of, -, h4⟩
      · rcases opt_footer_stage_throws h3 with h5 | h5 | h5 | ⟨_, _, h5⟩ <;> simp at h5
      · rcases Outcome.bind_eq_throws.1 h4 with h5 | ⟨enc, -, h6⟩
        · exact absurd h5 (vector_range_ne_throws _ _ _ _)
        · rcases Outcome.bind_eq_throws.1 h6 with h7 | ⟨dec, -, h8⟩
          · rcases fresh_decrypt_throws h7 with h9 | h9 | h9 <;> simp at h9
          · rcases Outcome.bind_eq_throws.1 h8 with h9 | ⟨out, -, h10⟩
            · rcases fresh_inflate_throws h9 with h11 | ⟨_, h11⟩ <;> simp at h11
            · simp at h10

/-- An exception wrapped as the optional-footer error comes from the
optional-footer stage, after the optional-header stage has passed. -/
theorem CartObject_new_throws_opt_footer {E : Env} {fuel : Nat} {raw : Bytes} {key : Key}
    {inner : What} (h : CartObject.new E fuel raw key = .throws (.opt_footer_json inner)) :
    (∃ v, opt_header_stage E raw (header_of raw) key = .ok v) ∧
      opt_footer_stage E raw (footer_of raw) key = .throws (.opt_footer_json inner) := by
  unfold CartObject.new at h
  split at h
  · simp at h
  · rename_i hs
    have hs1 : sizeof_CartHeader + sizeof_CartFooter ≤ raw.length := by omega
    simp only [footer_offset hs1] at h
    rcases Outcome.bind_eq_throws.1 h with h1 | ⟨oh, hoh, h2⟩
    · rcases opt_header_stage_throws h1 with h5 | h5 | h5 | ⟨_, _, h5⟩ <;> simp at h5
    · rcases Outcome.bind_eq_throws.1 h2 with h3 | ⟨of, -, h4⟩
      · exact ⟨⟨oh, hoh⟩, h3⟩
      · rcases Outcome.bind_eq_throws.1 h4 with h5 | ⟨enc, -, h6⟩
        · exact absurd h5 (vector_range_ne_throws _ _ _ _)
        · rcases Outcome.bind_eq_throws.1 h6 with h7 | ⟨dec, -, h8⟩
          · rcases fresh_decrypt_throws h7 with h9 | h9 | h9 <;> simp at h9
          · rcases Outcome.bind_eq_throws.1 h8 with h9 | ⟨out, -, h10⟩
            · rcases fresh_inflate_throws h9 with h11 | ⟨_, h11⟩ <;> simp at h11
            · simp at h10

set_option maxRecDepth 1000000 in
theorem without_rc4_sample :
    CartObject.new libs_without_rc4 1 (sample_container custom_key) custom_key =
      .throws .decrypt_init_failed := by
  decide!

set_option maxRecDepth 1000000 in
theorem without_rc4_footer_only :
    CartObject.new libs_without_rc4 1 (footer_only_container custom_key) custom_key =
      .throws .decrypt_init_failed := by
  decide!

set_option maxRecDepth 1000000 in
theorem without_rc4_bare :
    CartObject.new libs_without_rc4 1 (bare_container custom_key) custom_key =
      .throws .decrypt_init_failed := by
  decide!

/-- Decoding scalar metadata with the concrete libraries. -/
theorem scalar_meta_decode (K : Key) :
    CartObject.new libs 1 (scalar_meta_container K) K = .ok (scalar_meta_object K) :=
  libs_decode_container_same_key K 1 (ascii "\"sample\"") (zlib_store sample_plain)
    (ascii "true") sample_plain _ _ (Or.inr ⟨by decide, rfl⟩)
    (Or.inr ⟨by decide, rfl⟩) inflate_sample_stream (by decide)

/-- On `deflate_run_prefix`, with an engine whose first round answers as zlib
does there (all 82 bytes read, status `Z_OK`), `inflate_next` returns the
buffer of that round and calls the engine no more, whatever output the engine
still holds. -/
theorem deflate_run_prefix_one_round (E : Env) (fuel : Nat) (z0 : z_stream E.zlib.State)
    (hret : (E.zlib.inflate z0.state deflate_run_prefix output_buffer_size).ret = Z_OK)
    (hall : (E.zlib.inflate z0.state deflate_run_prefix output_buffer_size).consumed = 82) :
    ZlibInflate.inflate_next E (fuel + 1) z0 deflate_run_prefix =
      .ok ({ next_in := []
             avail_in := 0
             avail_out := output_buffer_size -
               (E.zlib.inflate z0.state deflate_run_prefix output_buffer_size).output.length
             state := (E.zlib.inflate z0.state deflate_run_prefix output_buffer_size).state
             msg := (E.zlib.inflate z0.state deflate_run_prefix output_buffer_size).msg },
        (E.zlib.inflate z0.state deflate_run_prefix output_buffer_size).output) :=
  inflate_next_one_round E fuel z0 deflate_run_prefix _ [] 0 _ rfl (by decide) (by decide)
    (Or.inl hret) (by rw [hall]; rfl) (by rw [hall]; rfl) rfl (Or.inl rfl)

/-! ### Sizes that do not fit `int` and `uInt` -/
theorem deflate_run_prefix_length : deflate_run_prefix.length = 82 := by decide

/-- The constructor on a container without optional blocks: the payload is
decrypted and inflated, whatever its size. -/
theorem CartObject_new_bare (E : Env) (K : Key) (fuel : Nat) (pl : Bytes) :
    CartObject.new E fuel (make_container [] pl []) K =
      (fresh_decrypt E K pl).bind fun dec =>
      (fresh_inflate E fuel dec).bind fun out =>
      .ok { cart_header := read_CartHeader (make_header 0)
            cart_opt_header := .null
            encoded_file := pl
            decoded_file := out
            cart_opt_footer := .null
            cart_footer := read_CartFooter (make_footer 0) } := by
  have hh : (read_CartHeader (make_header 0)).opt_header_len = ([] : Bytes).length := by
    rw [read_make_header 0 (by norm_num)]
    rfl
  have hf : (read_CartFooter (make_footer 0)).opt_footer_len = ([] : Bytes).length := by
    rw [read_make_footer 0 (by norm_num)]
    rfl
  obtain ⟨hlen, hrh, hrf, hs1, hs2, hs3⟩ :=
    regions_layout (make_header 0) [] pl [] (make_footer 0) (make_header_length 0)
      (make_footer_length 0)
  have hraw : make_container [] pl [] = make_header 0 ++ [] ++ pl ++ [] ++ make_footer 0 := rfl
  rw [hraw]
  generalize make_header 0 ++ [] ++ pl ++ [] ++ make_footer 0 = raw at hlen hrh hrf hs1 hs2 hs3 ⊢
  have e0 : sizeof_CartHeader = 38 := rfl
  have e00 : sizeof_CartFooter = 28 := rfl
  simp only [List.length_nil, Nat.add_zero, Nat.sub_zero] at hlen hs1 hs2 hs3 hh hf
  have hs : sizeof_CartHeader + sizeof_CartFooter ≤ raw.length := by omega
  have hv1 : opt_header_stage E raw (read_CartHeader (make_header 0)) K = .ok .null := by
    unfold opt_header_stage
    rw [hh]
    rfl
  have hv2 : opt_footer_stage E raw (read_CartFooter (make_footer 0)) K = .ok .null := by
    unfold opt_footer_stage
    rw [hf]
    rfl
  have hr : vector_range raw
      ((sizeof_CartHeader : Int) + to_difference_type (read_CartHeader (make_header 0)).opt_header_len)
      ((raw.length : Int) - (sizeof_CartFooter : Int) -
        to_difference_type (read_CartFooter (make_footer 0)).opt_footer_len) = .ok pl := by
    rw [hh, hf, to_difference_type_zero]
    unfold vector_range
    rw [if_pos (by omega)]
    have e1 : ((sizeof_CartHeader : Int) + 0).toNat = sizeof_CartHeader := by omega
    have e2 : ((raw.length : Int) - (sizeof_CartFooter : Int) - 0).toNat =
        raw.length - sizeof_CartFooter := by omega
    rw [e1, e2, hs3]
  unfold CartObject.new
  rw [if_neg (by omega)]
  simp only [footer_offset hs, hrh, hrf, hv1, hv2, hr]
  rfl

theorem to_int_of_ge {n : Nat} (h1 : 2 ^ 31 ≤ n) (h2 : n < 2 ^ 32) : to_int n < 0 := by
  unfold to_int
  have e : n % 2 ^ 32 = n := Nat.mod_eq_of_lt h2
  rw [e, if_neg (by omega)]
  omega

theorem to_int_two_pow_32 : to_int (2 ^ 32) = 0 := by
  unfold to_int
  norm_num

/-- With OpenSSL's RC4, an input of `2 ^ 31` bytes or more (below `2 ^ 32`)
reaches `EVP_DecryptUpdate` with a negative `inl`, which it refuses. -/
theorem fresh_decrypt_libs_negative (K : Key) (data : Bytes) (h1 : 2 ^ 31 ≤ data.length)
    (h2 : data.length < 2 ^ 32) :
    fresh_decrypt libs K data = .throws .decrypt_update_failed := by
  unfold fresh_decrypt Rc4.new Rc4.decrypt_next
  simp only [libs, openssl_rc4, Outcome.bind, to_int_of_ge h1 h2, if_true]

/-- With OpenSSL's RC4, an input of `2 ^ 32` bytes reaches `EVP_DecryptUpdate`
with `inl = 0`: nothing is decrypted. -/
theorem fresh_decrypt_libs_zero (K : Key) (data : Bytes) (h : data.length = 2 ^ 32) :
    fresh_decrypt libs K data = .ok [] := by
  unfold fresh_decrypt Rc4.new Rc4.decrypt_next
  simp only [libs, openssl_rc4, Outcome.bind, h, to_int_two_pow_32]
  simp

/-- An input of `2 ^ 32` bytes reaches `inflate` with `avail_in = 0`: no round
is run. -/
theorem inflate_next_truncated (E : Env) (fuel : Nat) (z0 : z_stream E.zlib.State) (input : Bytes)
    (h : input.length = 2 ^ 32) :
    ZlibInflate.inflate_next E fuel z0 input =
      .ok ({ z0 with next_in := input, avail_in := 0, avail_out := 0 }, []) := by
  rw [inflate_next_eq, h, Nat.mod_self]
  unfold inflate_loop
  rw [if_neg (by
    rintro ⟨h1, -⟩
    simp only at h1
    omega)]

end lemmas

/-! ## Claims -/

/-- C3: the constructor throws the too-small error exactly on the inputs shorter
than `sizeof(CartHeader) + sizeof(CartFooter)`: on every such input, whatever
its bytes, the key and the libraries (no header field takes part), and on no
input of at least that length. -/
theorem C3_too_small_iff (E : Env) (fuel : Nat) (raw : Bytes) (key : Key) :
    CartObject.new E fuel raw key = .throws .too_small ↔
      raw.length < sizeof_CartHeader + sizeof_CartFooter := by
  constructor
  · intro h
    by_contra hs
    rcases CartObject_new_throws_of_size hs h with h5 | h5 | h5 | ⟨_, _, h5⟩ | ⟨_, _, h5⟩ | h5 |
      ⟨_, h5⟩ <;> simp at h5
  · intro hs
    unfold CartObject.new
    rw [if_pos hs]

/-- Round trip within the sizes the calls carry: a container built as header
record (with `opt_header_len` the length of the encrypted optional header),
encrypted optional header, `encrypt_K(compress(P))`, encrypted optional footer
and footer record (with `opt_footer_len` the length of the encrypted optional
footer) is decoded by the constructor under the key `K` to an object whose
`decoded_file` is `P`, however many inflate rounds of 65536 bytes `P` takes,
when a new `Rc4` keyed with `K` decrypts the blocks (for OpenSSL this needs the
size of each block to fit `int`), the compressed stream `D` is shorter than
`2 ^ 32` bytes and is one that the inflate engine delivers as `P`, and the
container is shorter than `2 ^ 63` bytes. -/
theorem round_trip_within_sizes (E : Env) (K : Key) (P D hdr oh pl of ftr : Bytes) (s0 : E.zlib.State)
    (hhdr : hdr.length = sizeof_CartHeader)
    (hh : (read_CartHeader hdr).opt_header_len = oh.length)
    (hftr : ftr.length = sizeof_CartFooter)
    (hf : (read_CartFooter ftr).opt_footer_len = of.length)
    (hoh : oh ≠ [] → ∃ txt v, fresh_decrypt E K oh = .ok txt ∧ E.parse txt = .ok v)
    (hof : of ≠ [] → ∃ txt v, fresh_decrypt E K of = .ok txt ∧ E.parse txt = .ok v)
    (hpl : fresh_decrypt E K pl = .ok D)
    (hinit : E.zlib.inflateInit = some s0)
    (hD : Delivers E.zlib output_buffer_size s0 D P)
    (hsize : D.length < 2 ^ 32)
    (hmax : (hdr ++ oh ++ pl ++ of ++ ftr).length < 2 ^ 63) :
    ∃ N, ∀ fuel, N ≤ fuel →
      ∃ obj, CartObject.new E fuel (hdr ++ oh ++ pl ++ of ++ ftr) K = .ok obj ∧
        obj.decoded_file = P := by
  obtain ⟨N, hN⟩ := fresh_inflate_delivers hinit hD hsize
  refine ⟨N, ?_⟩
  intro fuel hfuel
  have h1 : ∃ v1, (oh = [] ∧ v1 = JsonValue.null) ∨
      (oh ≠ [] ∧ ∃ txt, fresh_decrypt E K oh = .ok txt ∧ E.parse txt = .ok v1) := by
    by_cases hz : oh = []
    · exact ⟨.null, Or.inl ⟨hz, rfl⟩⟩
    · obtain ⟨txt, v, ha, hb⟩ := hoh hz
      exact ⟨v, Or.inr ⟨hz, txt, ha, hb⟩⟩
  have h2 : ∃ v2, (of = [] ∧ v2 = JsonValue.null) ∨
      (of ≠ [] ∧ ∃ txt, fresh_decrypt E K of = .ok txt ∧ E.parse txt = .ok v2) := by
    by_cases hz : of = []
    · exact ⟨.null, Or.inl ⟨hz, rfl⟩⟩
    · obtain ⟨txt, v, ha, hb⟩ := hof hz
      exact ⟨v, Or.inr ⟨hz, txt, ha, hb⟩⟩
  obtain ⟨v1, hv1⟩ := h1
  obtain ⟨v2, hv2⟩ := h2
  exact ⟨_, CartObject_new_of_regions E K fuel hhdr hh hftr hf hv1 hv2 hpl (hN fuel hfuel) hmax, rfl⟩

set_option maxRecDepth 1000000 in
/-- The round trip of the sample container carted under the key
`0123456789abcdef`, with OpenSSL's RC4, zlib on stored blocks and jsoncpp on
flat texts. -/
theorem round_trip_within_sizes_sample :
    (make_header 18).length = sizeof_CartHeader ∧
    (read_CartHeader (make_header 18)).opt_header_len =
      (rc4_encrypt custom_key sample_header_json).length ∧
    (make_footer 16).length = sizeof_CartFooter ∧
    (read_CartFooter (make_footer 16)).opt_footer_len =
      (rc4_encrypt custom_key sample_footer_json).length ∧
    (rc4_encrypt custom_key sample_header_json ≠ [] →
      ∃ txt v, fresh_decrypt libs custom_key (rc4_encrypt custom_key sample_header_json) = .ok txt ∧
        libs.parse txt = .ok v) ∧
    (rc4_encrypt custom_key sample_footer_json ≠ [] →
      ∃ txt v, fresh_decrypt libs custom_key (rc4_encrypt custom_key sample_footer_json) = .ok txt ∧
        libs.parse txt = .ok v) ∧
    fresh_decrypt libs custom_key (rc4_encrypt custom_key (zlib_store sample_plain)) =
      .ok (zlib_store sample_plain) ∧
    libs.zlib.inflateInit = some zlib_stored_init ∧
    Delivers libs.zlib output_buffer_size zlib_stored_init (zlib_store sample_plain) sample_plain ∧
    (zlib_store sample_plain).length < 2 ^ 32 ∧
    (make_header 18 ++ rc4_encrypt custom_key sample_header_json ++
      rc4_encrypt custom_key (zlib_store sample_plain) ++
      rc4_encrypt custom_key sample_footer_json ++ make_footer 16).length < 2 ^ 63 ∧
    ∃ N, ∀ fuel, N ≤ fuel →
      ∃ obj, CartObject.new libs fuel
          (make_header 18 ++ rc4_encrypt custom_key sample_header_json ++
            rc4_encrypt custom_key (zlib_store sample_plain) ++
            rc4_encrypt custom_key sample_footer_json ++ make_footer 16) custom_key = .ok obj ∧
        obj.decoded_file = sample_plain :=
  have hhdr : (make_header 18).length = sizeof_CartHeader := make_header_length 18
  have hh : (read_CartHeader (make_header 18)).opt_header_len =
      (rc4_encrypt custom_key sample_header_json).length := by
    rw [rc4_encrypt_length, read_make_header 18 (by norm_num)]
    rfl
  have hftr : (make_footer 16).length = sizeof_CartFooter := make_footer_length 16
  have hf : (read_CartFooter (make_footer 16)).opt_footer_len =
      (rc4_encrypt custom_key sample_footer_json).length := by
    rw [rc4_encrypt_length, read_make_footer 16 (by norm_num)]
    rfl
  have hoh : rc4_encrypt custom_key sample_header_json ≠ [] →
      ∃ txt v, fresh_decrypt libs custom_key (rc4_encrypt custom_key sample_header_json) = .ok txt ∧
        libs.parse txt = .ok v :=
    fun _ => ⟨sample_header_json, _, fresh_decrypt_encrypt custom_key _ (by decide), rfl⟩
  have hof : rc4_encrypt custom_key sample_footer_json ≠ [] →
      ∃ txt v, fresh_decrypt libs custom_key (rc4_encrypt custom_key sample_footer_json) = .ok txt ∧
        libs.parse txt = .ok v :=
    fun _ => ⟨sample_footer_json, _, fresh_decrypt_encrypt custom_key _ (by decide), rfl⟩
  have hpl : fresh_decrypt libs custom_key (rc4_encrypt custom_key (zlib_store sample_plain)) =
      .ok (zlib_store sample_plain) :=
    fresh_decrypt_encrypt custom_key _ (by decide)
  have hinit : libs.zlib.inflateInit = some zlib_stored_init := rfl
  have hD : Delivers libs.zlib output_buffer_size zlib_stored_init (zlib_store sample_plain)
      sample_plain :=
    Delivers.last _ _ _ (by decide) (by decide!) (by decide) (by decide!) (Or.inr (by decide!))
  have hsize : (zlib_store sample_plain).length < 2 ^ 32 := by decide
  have hmax : (make_header 18 ++ rc4_encrypt custom_key sample_header_json ++
      rc4_encrypt custom_key (zlib_store sample_plain) ++
      rc4_encrypt custom_key sample_footer_json ++ make_footer 16).length < 2 ^ 63 := by
    simp only [List.length_append, make_header_length, make_footer_length, rc4_encrypt_length]
    decide
  ⟨hhdr, hh, hftr, hf, hoh, hof, hpl, hinit, hD, hsize, hmax,
    round_trip_within_sizes libs custom_key sample_plain (zlib_store sample_plain) (make_header 18)
      (rc4_encrypt custom_key sample_header_json) (rc4_encrypt custom_key (zlib_store sample_plain))
      (rc4_encrypt custom_key sample_footer_json) (make_footer 16) zlib_stored_init
      hhdr hh hftr hf hoh hof hpl hinit hD hsize hmax⟩

/-- C1 (code at failing inputs): the round trip fails for large payloads,
because `input.size()` is passed to OpenSSL as an `int` (line 53) and to zlib
as a 32-bit `uInt` (line 93). A payload of `2 ^ 31` bytes, whatever they are
(here the default key and the encryption of zero bytes), makes the constructor
throw `Decrypt update failed.`; so with `D = compress(P)` of `2 ^ 31` bytes or more
(below `2 ^ 32`) the container `header ++ encrypt_K(D) ++ footer` makes the
constructor throw `Decrypt update failed.` under the key `K`, because
`EVP_DecryptUpdate` is given a negative length; with `D` of `2 ^ 32` bytes the
length given is 0 and the constructor returns normally with an empty
`decoded_file`; and `inflate_next` on `2 ^ 32` bytes runs no round and returns
the empty vector, with every inflate engine. Within the sizes the calls carry
the round trip holds, over several inflate rounds too. -/
theorem C1_large_payload_is_not_decoded :
    CartObject.new libs 1
        (make_container [] (rc4_encrypt DEFAULT_RC4_KEY (List.replicate (2 ^ 31) 0)) [])
        DEFAULT_RC4_KEY = .throws .decrypt_update_failed ∧
    (∀ (K : Key) (fuel : Nat) (D : Bytes), 2 ^ 31 ≤ D.length → D.length < 2 ^ 32 →
      CartObject.new libs fuel (make_container [] (rc4_encrypt K D) []) K =
        .throws .decrypt_update_failed) ∧
    (∀ (K : Key) (fuel : Nat) (D : Bytes), D.length = 2 ^ 32 →
      ∃ obj, CartObject.new libs fuel (make_container [] (rc4_encrypt K D) []) K = .ok obj ∧
        obj.decoded_file = []) ∧
    (∀ (E : Env) (fuel : Nat) (z0 : z_stream E.zlib.State) (input : Bytes),
      input.length = 2 ^ 32 →
      ZlibInflate.inflate_next E fuel z0 input =
        .ok ({ z0 with next_in := input, avail_in := 0, avail_out := 0 }, [])) ∧
    ∀ (E : Env) (K : Key) (P D hdr oh pl of ftr : Bytes) (s0 : E.zlib.State),
      hdr.length = sizeof_CartHeader →
      (read_CartHeader hdr).opt_header_len = oh.length →
      ftr.length = sizeof_CartFooter →
      (read_CartFooter ftr).opt_footer_len = of.length →
      (oh ≠ [] → ∃ txt v, fresh_decrypt E K oh = .ok txt ∧ E.parse txt = .ok v) →
      (of ≠ [] → ∃ txt v, fresh_decrypt E K of = .ok txt ∧ E.parse txt = .ok v) →
      fresh_decrypt E K pl = .ok D →
      E.zlib.inflateInit = some s0 →
      Delivers E.zlib output_buffer_size s0 D P →
      D.length < 2 ^ 32 →
      (hdr ++ oh ++ pl ++ of ++ ftr).length < 2 ^ 63 →
      ∃ N, ∀ fuel, N ≤ fuel →
        ∃ obj, CartObject.new E fuel (hdr ++ oh ++ pl ++ of ++ ftr) K = .ok obj ∧
          obj.decoded_file = P := by
  refine ⟨?_, ?_, ?_, ?_, ?_⟩
  · have h1 : 2 ^ 31 ≤ (List.replicate (2 ^ 31) (0 : Byte)).length := by
      rw [List.length_replicate]
    have h2 : (List.replicate (2 ^ 31) (0 : Byte)).length < 2 ^ 32 := by
      rw [List.length_replicate]
      norm_num
    rw [CartObject_new_bare, fresh_decrypt_libs_negative DEFAULT_RC4_KEY _
      (by rw [rc4_encrypt_length]; exact h1) (by rw [rc4_encrypt_length]; exact h2)]
    rfl
  · intro K fuel D h1 h2
    rw [CartObject_new_bare, fresh_decrypt_libs_negative K _ (by rw [rc4_encrypt_length]; exact h1)
      (by rw [rc4_encrypt_length]; exact h2)]
    rfl
  · intro K fuel D h
    rw [CartObject_new_bare, fresh_decrypt_libs_zero K _ (by rw [rc4_encrypt_length]; exact h)]
    have hi : fresh_inflate libs fuel [] = .ok [] := fresh_inflate_nil fuel zlib_stored_init rfl
    simp only [Outcome.bind, hi]
    exact ⟨_, rfl, rfl⟩
  · intro E fuel z0 input h
    exact inflate_next_truncated E fuel z0 input h
  · intro E K P D hdr oh pl of ftr s0 hhdr hh hftr hf hoh hof hpl hinit hD hsize hmax
    exact round_trip_within_sizes E K P D hdr oh pl of ftr s0 hhdr hh hftr hf hoh hof hpl hinit hD
      hsize hmax

/-- C2: on every input whose length fields leave a valid payload range and on
which the constructor returns, `encoded_file` is exactly
`raw[sizeof(header)+opt_header_len .. raw.length - sizeof(footer) - opt_footer_len)`,
and `decoded_file` is the result of `inflate_next` on a newly constructed
`ZlibInflate`, applied to the result of `decrypt_next` on a newly constructed
`Rc4` keyed with the supplied key, applied to `encoded_file`. -/
theorem C2_payload_slice_decrypt_inflate (E : Env) (fuel : Nat) (raw : Bytes) (key : Key)
    (obj : CartObject)
    (_hrange : sizeof_CartHeader + (header_of raw).opt_header_len ≤
      raw.length - sizeof_CartFooter - (footer_of raw).opt_footer_len)
    (hok : CartObject.new E fuel raw key = .ok obj) :
    obj.encoded_file = slice raw (sizeof_CartHeader + (header_of raw).opt_header_len)
        (raw.length - sizeof_CartFooter - (footer_of raw).opt_footer_len) ∧
      ∃ ctx ctx1 dec z0 z1,
        Rc4.new E key = .ok ctx ∧
        Rc4.decrypt_next E ctx obj.encoded_file = .ok (ctx1, dec) ∧
        ZlibInflate.new E = .ok z0 ∧
        ZlibInflate.inflate_next E fuel z0 dec = .ok (z1, obj.decoded_file) := by
  obtain ⟨-, hh, hf, -, -, -, dec, h4, h5⟩ := CartObject_new_ok hok
  obtain ⟨-, hr⟩ := CartObject_new_layout hok
  obtain ⟨ctx, ctx1, h6, h7⟩ := fresh_decrypt_eq_ok.1 h4
  obtain ⟨z0, z1, h8, h9⟩ := fresh_inflate_eq_ok.1 h5
  refine ⟨?_, ctx, ctx1, dec, z0, z1, h6, h7, h8, h9⟩
  rw [hr, hh, hf]
  rfl

/-- C2 at the sample container and the default key. -/
theorem C2_payload_slice_decrypt_inflate_witness :
    (sizeof_CartHeader + (header_of (sample_container DEFAULT_RC4_KEY)).opt_header_len ≤
      (sample_container DEFAULT_RC4_KEY).length - sizeof_CartFooter -
        (footer_of (sample_container DEFAULT_RC4_KEY)).opt_footer_len) ∧
    CartObject.new libs 1 (sample_container DEFAULT_RC4_KEY) DEFAULT_RC4_KEY =
      .ok (sample_object DEFAULT_RC4_KEY) ∧
    ((sample_object DEFAULT_RC4_KEY).encoded_file =
        slice (sample_container DEFAULT_RC4_KEY)
          (sizeof_CartHeader + (header_of (sample_container DEFAULT_RC4_KEY)).opt_header_len)
          ((sample_container DEFAULT_RC4_KEY).length - sizeof_CartFooter -
            (footer_of (sample_container DEFAULT_RC4_KEY)).opt_footer_len) ∧
      ∃ ctx ctx1 dec z0 z1,
        Rc4.new libs DEFAULT_RC4_KEY = .ok ctx ∧
        Rc4.decrypt_next libs ctx (sample_object DEFAULT_RC4_KEY).encoded_file = .ok (ctx1, dec) ∧
        ZlibInflate.new libs = .ok z0 ∧
        ZlibInflate.inflate_next libs 1 z0 dec =
          .ok (z1, (sample_object DEFAULT_RC4_KEY).decoded_file)) :=
  have hr : sizeof_CartHeader + (header_of (sample_container DEFAULT_RC4_KEY)).opt_header_len ≤
      (sample_container DEFAULT_RC4_KEY).length - sizeof_CartFooter -
        (footer_of (sample_container DEFAULT_RC4_KEY)).opt_footer_len := by
    have h := (CartObject_new_layout (sample_decode DEFAULT_RC4_KEY)).1
    have hh := (CartObject_new_ok (sample_decode DEFAULT_RC4_KEY)).2.1
    have hf := (CartObject_new_ok (sample_decode DEFAULT_RC4_KEY)).2.2.1
    unfold header_of footer_of
    rw [← hh, ← hf]
    omega
  ⟨hr, sample_decode DEFAULT_RC4_KEY,
    C2_payload_slice_decrypt_inflate libs 1 (sample_container DEFAULT_RC4_KEY) DEFAULT_RC4_KEY
      (sample_object DEFAULT_RC4_KEY) hr (sample_decode DEFAULT_RC4_KEY)⟩

set_option maxRecDepth 1000000 in
/-- C4 (code at a failing input): on `overlong_container`, which passes the size
check and whose `opt_header_len` of 29 exceeds the 28 bytes after the header
record, the constructor builds `header_enc` from an iterator range that ends
past `cart_input.end()`: undefined behaviour, whatever the key and the
libraries, and no exception. -/
theorem C4_overlong_header_is_undefined (E : Env) (fuel : Nat) (key : Key) :
    ¬ overlong_container.length < sizeof_CartHeader + sizeof_CartFooter ∧
    sizeof_CartHeader + (header_of overlong_container).opt_header_len >
      overlong_container.length - sizeof_CartFooter -
        (footer_of overlong_container).opt_footer_len ∧
    CartObject.new E fuel overlong_container key = .undefined := by
  have h1 : (read_CartHeader overlong_container).opt_header_len = 29 := by decide
  have h2 : overlong_container.length = 66 := by decide
  refine ⟨by decide, by decide, ?_⟩
  unfold CartObject.new
  rw [if_neg (by decide)]
  have h3 : opt_header_stage E overlong_container (read_CartHeader overlong_container) key =
      .undefined := by
    unfold opt_header_stage
    rw [h1, if_pos (by decide)]
    have h4 : vector_range overlong_container sizeof_CartHeader
        (sizeof_CartHeader + to_difference_type 29) = .undefined := by
      unfold vector_range
      rw [h2, to_difference_type_of_lt (by norm_num), if_neg]
      simp only [sizeof_CartHeader]
      omega
    rw [h4]
    rfl
  simp only [h3, Outcome.bind]

/-- C6: on every input on which the constructor returns, when
`opt_header_len > 0` the member `cart_opt_header` is the JSON parse of the
output of a newly constructed `Rc4` (supplied key) on exactly
`raw[sizeof(header) .. sizeof(header)+opt_header_len)`, and when
`opt_footer_len > 0` the member `cart_opt_footer` is the JSON parse of the
output of another newly constructed `Rc4` (same key) on exactly the
`opt_footer_len` bytes before the footer record. -/
theorem C6_optional_blocks (E : Env) (fuel : Nat) (raw : Bytes) (key : Key) (obj : CartObject)
    (hok : CartObject.new E fuel raw key = .ok obj) :
    (0 < (header_of raw).opt_header_len →
      ∃ ctx ctx1 dec, Rc4.new E key = .ok ctx ∧
        Rc4.decrypt_next E ctx
          (slice raw sizeof_CartHeader (sizeof_CartHeader + (header_of raw).opt_header_len)) =
            .ok (ctx1, dec) ∧
        E.parse dec = .ok obj.cart_opt_header) ∧
    (0 < (footer_of raw).opt_footer_len →
      ∃ ctx ctx1 dec, Rc4.new E key = .ok ctx ∧
        Rc4.decrypt_next E ctx
          (slice raw (raw.length - sizeof_CartFooter - (footer_of raw).opt_footer_len)
            (raw.length - sizeof_CartFooter)) = .ok (ctx1, dec) ∧
        E.parse dec = .ok obj.cart_opt_footer) := by
  obtain ⟨-, hh, hf, h1, h2, -⟩ := CartObject_new_ok hok
  have hn1 : obj.cart_header.opt_header_len < 2 ^ 64 := by rw [hh]; exact opt_header_len_lt _
  have hn2 : obj.cart_footer.opt_footer_len < 2 ^ 64 := by rw [hf]; exact opt_footer_len_lt _
  have eh : header_of raw = obj.cart_header := hh.symm
  have ef : footer_of raw = obj.cart_footer := hf.symm
  rw [eh, ef]
  constructor
  · intro hpos
    rcases opt_header_stage_ok hn1 h1 with ⟨hz, -⟩ | ⟨-, -, -, dec, h3, h4⟩
    · omega
    · obtain ⟨ctx, ctx1, h5, h6⟩ := fresh_decrypt_eq_ok.1 h3
      exact ⟨ctx, ctx1, dec, h5, h6, h4⟩
  · intro hpos
    rcases opt_footer_stage_ok hn2 h2 with ⟨hz, -⟩ | ⟨-, -, -, dec, h3, h4⟩
    · omega
    · obtain ⟨ctx, ctx1, h5, h6⟩ := fresh_decrypt_eq_ok.1 h3
      exact ⟨ctx, ctx1, dec, h5, h6, h4⟩

/-- C6 at the sample container, whose optional header and footer are both present. -/
theorem C6_optional_blocks_witness :
    CartObject.new libs 1 (sample_container DEFAULT_RC4_KEY) DEFAULT_RC4_KEY =
      .ok (sample_object DEFAULT_RC4_KEY) ∧
    ((0 < (header_of (sample_container DEFAULT_RC4_KEY)).opt_header_len →
      ∃ ctx ctx1 dec, Rc4.new libs DEFAULT_RC4_KEY = .ok ctx ∧
        Rc4.decrypt_next libs ctx
          (slice (sample_container DEFAULT_RC4_KEY) sizeof_CartHeader
            (sizeof_CartHeader + (header_of (sample_container DEFAULT_RC4_KEY)).opt_header_len)) =
            .ok (ctx1, dec) ∧
        libs.parse dec = .ok (sample_object DEFAULT_RC4_KEY).cart_opt_header) ∧
    (0 < (footer_of (sample_container DEFAULT_RC4_KEY)).opt_footer_len →
      ∃ ctx ctx1 dec, Rc4.new libs DEFAULT_RC4_KEY = .ok ctx ∧
        Rc4.decrypt_next libs ctx
          (slice (sample_container DEFAULT_RC4_KEY)
            ((sample_container DEFAULT_RC4_KEY).length - sizeof_CartFooter -
              (footer_of (sample_container DEFAULT_RC4_KEY)).opt_footer_len)
            ((sample_container DEFAULT_RC4_KEY).length - sizeof_CartFooter)) = .ok (ctx1, dec) ∧
        libs.parse dec = .ok (sample_object DEFAULT_RC4_KEY).cart_opt_footer)) :=
  ⟨sample_decode DEFAULT_RC4_KEY,
    C6_optional_blocks libs 1 (sample_container DEFAULT_RC4_KEY) DEFAULT_RC4_KEY
      (sample_object DEFAULT_RC4_KEY) (sample_decode DEFAULT_RC4_KEY)⟩

/-- C7 refuted: the container whose optional header is present (4 encrypted
bytes) and holds the JSON text `null` decodes to the same `cart_opt_header` as
the container without optional header: the null value. -/
theorem C7_present_null_equals_absent :
    CartObject.new libs 1 (null_header_container custom_key) custom_key =
      .ok (null_header_object custom_key) ∧
    0 < (header_of (null_header_container custom_key)).opt_header_len ∧
    CartObject.new libs 1 (bare_container custom_key) custom_key = .ok (bare_object custom_key) ∧
    (header_of (bare_container custom_key)).opt_header_len = 0 ∧
    (null_header_object custom_key).cart_opt_header = (bare_object custom_key).cart_opt_header := by
  have h1 := null_header_decode custom_key
  have h2 := bare_decode custom_key
  have e1 : header_of (null_header_container custom_key) =
      (null_header_object custom_key).cart_header := (CartObject_new_ok h1).2.1.symm
  have e2 : header_of (bare_container custom_key) = (bare_object custom_key).cart_header :=
    (CartObject_new_ok h2).2.1.symm
  refine ⟨h1, ?_, h2, ?_, rfl⟩
  · rw [e1]
    decide
  · rw [e2]
    rfl

/-- C7 as amended: on every input that decodes, a zero `opt_header_len` leaves
`cart_opt_header` the null value of a default-constructed `Json::Value`, and
the optional-header stage gives that value with every choice of libraries (no
decryption and no parse takes part); likewise for `opt_footer_len` and
`cart_opt_footer`. The null value differs from the empty JSON object, and from
every value that is not null; a present block whose text is `null` gives the
same value. -/
theorem C7_absent_is_null (E : Env) (fuel : Nat) (raw : Bytes) (key : Key) (obj : CartObject)
    (hok : CartObject.new E fuel raw key = .ok obj) :
    ((header_of raw).opt_header_len = 0 →
      obj.cart_opt_header = .null ∧
        ∀ E1 : Env, opt_header_stage E1 raw (header_of raw) key = .ok .null) ∧
    ((footer_of raw).opt_footer_len = 0 →
      obj.cart_opt_footer = .null ∧
        ∀ E1 : Env, opt_footer_stage E1 raw (footer_of raw) key = .ok .null) ∧
    JsonValue.null ≠ JsonValue.object .nil ∧
    (∀ v : JsonValue, v ≠ .null →
      ((header_of raw).opt_header_len = 0 → obj.cart_opt_header ≠ v) ∧
      ((footer_of raw).opt_footer_len = 0 → obj.cart_opt_footer ≠ v)) := by
  obtain ⟨-, hh, hf, h1, h2, -⟩ := CartObject_new_ok hok
  have eh : header_of raw = obj.cart_header := hh.symm
  have ef : footer_of raw = obj.cart_footer := hf.symm
  have hA : (header_of raw).opt_header_len = 0 → obj.cart_opt_header = .null := by
    intro hz
    rw [eh] at hz
    unfold opt_header_stage at h1
    rw [hz] at h1
    simp at h1
    exact h1.symm
  have hB : (footer_of raw).opt_footer_len = 0 → obj.cart_opt_footer = .null := by
    intro hz
    rw [ef] at hz
    unfold opt_footer_stage at h2
    rw [hz] at h2
    simp at h2
    exact h2.symm
  refine ⟨?_, ?_, by simp, ?_⟩
  · intro hz
    refine ⟨hA hz, ?_⟩
    intro E1
    unfold opt_header_stage
    rw [hz]
    simp
  · intro hz
    refine ⟨hB hz, ?_⟩
    intro E1
    unfold opt_footer_stage
    rw [hz]
    simp
  · intro v hv
    constructor
    · intro hz
      rw [hA hz]
      exact fun h => hv h.symm
    · intro hz
      rw [hB hz]
      exact fun h => hv h.symm

/-- C7 as amended, at the container without optional header and footer. -/
theorem C7_absent_is_null_witness :
    CartObject.new libs 1 (bare_container custom_key) custom_key = .ok (bare_object custom_key) ∧
    (((header_of (bare_container custom_key)).opt_header_len = 0 →
      (bare_object custom_key).cart_opt_header = .null ∧
        ∀ E1 : Env, opt_header_stage E1 (bare_container custom_key)
          (header_of (bare_container custom_key)) custom_key = .ok .null) ∧
    ((footer_of (bare_container custom_key)).opt_footer_len = 0 →
      (bare_object custom_key).cart_opt_footer = .null ∧
        ∀ E1 : Env, opt_footer_stage E1 (bare_container custom_key)
          (footer_of (bare_container custom_key)) custom_key = .ok .null) ∧
    JsonValue.null ≠ JsonValue.object .nil ∧
    (∀ v : JsonValue, v ≠ .null →
      ((header_of (bare_container custom_key)).opt_header_len = 0 →
        (bare_object custom_key).cart_opt_header ≠ v) ∧
      ((footer_of (bare_container custom_key)).opt_footer_len = 0 →
        (bare_object custom_key).cart_opt_footer ≠ v))) :=
  ⟨bare_decode custom_key,
    C7_absent_is_null libs 1 (bare_container custom_key) custom_key (bare_object custom_key)
      (bare_decode custom_key)⟩

/-- C8: constructing a `CartObject` without a key gives the same outcome, error
or object, as constructing it with the key `{3,1,4,1,5,9,2,6,3,1,4,1,5,9,2,6}`. -/
theorem C8_default_key (E : Env) (fuel : Nat) (raw : Bytes) :
    CartObject.new_default E fuel raw =
      CartObject.new E fuel raw ⟨[3, 1, 4, 1, 5, 9, 2, 6, 3, 1, 4, 1, 5, 9, 2, 6], rfl⟩ := by
  rfl

/-- C9: a buffer of exactly `sizeof(CartHeader) + sizeof(CartFooter)` bytes with
both length fields zero decodes, under every key for which the cipher can be
set up and returns nothing for no input, to an object with empty `encoded_file`
and empty `decoded_file`: `inflate_next` on the empty vector makes no round and
returns the empty buffer. -/
theorem C9_minimum_size_decodes_empty (E : Env) (fuel : Nat) (raw : Bytes) (key : Key)
    (hlen : raw.length = sizeof_CartHeader + sizeof_CartFooter)
    (hh : (header_of raw).opt_header_len = 0)
    (hf : (footer_of raw).opt_footer_len = 0)
    (hcipher : fresh_decrypt E key [] = .ok [])
    (hinit : ∃ s, E.zlib.inflateInit = some s) :
    ∃ obj, CartObject.new E fuel raw key = .ok obj ∧ obj.encoded_file = [] ∧
      obj.decoded_file = [] := by
  obtain ⟨s, hs⟩ := hinit
  have hoff := footer_offset (le_of_eq hlen.symm)
  unfold header_of at hh
  unfold footer_of at hf
  have h1 : opt_header_stage E raw (read_CartHeader raw) key = .ok .null := by
    unfold opt_header_stage
    rw [hh]
    simp
  have h2 : opt_footer_stage E raw
      (read_CartFooter (raw.drop (raw.length - sizeof_CartFooter))) key = .ok .null := by
    unfold opt_footer_stage
    rw [hf]
    simp
  have h3 : vector_range raw
      (sizeof_CartHeader + to_difference_type (read_CartHeader raw).opt_header_len)
      (raw.length - sizeof_CartFooter - to_difference_type
        (read_CartFooter (raw.drop (raw.length - sizeof_CartFooter))).opt_footer_len) = .ok [] := by
    rw [hh, hf, to_difference_type_zero]
    unfold vector_range slice
    simp [hlen]
  unfold CartObject.new
  rw [if_neg (by omega)]
  simp only [hoff, h1, h2, h3, Outcome.bind, hcipher, fresh_inflate_nil fuel s hs]
  exact ⟨_, rfl, rfl, rfl⟩

set_option maxRecDepth 1000000 in
/-- C9 at the container made of a header and a footer record only. -/
theorem C9_minimum_size_decodes_empty_witness :
    minimal_container.length = sizeof_CartHeader + sizeof_CartFooter ∧
    (header_of minimal_container).opt_header_len = 0 ∧
    (footer_of minimal_container).opt_footer_len = 0 ∧
    fresh_decrypt libs custom_key [] = .ok [] ∧
    (∃ s, libs.zlib.inflateInit = some s) ∧
    ∃ obj, CartObject.new libs 0 minimal_container custom_key = .ok obj ∧ obj.encoded_file = [] ∧
      obj.decoded_file = [] :=
  ⟨by decide, by decide, by decide, by decide!, ⟨_, rfl⟩,
    C9_minimum_size_decodes_empty libs 0 minimal_container custom_key (by decide) (by decide)
      (by decide) (by decide!) ⟨_, rfl⟩⟩

set_option maxRecDepth 1000000 in
/-- C10 (code at a failing input): on `trailing_stream`, a complete zlib stream
followed by one more byte, the engine returns `Z_STREAM_END` in the first round
and leaves that byte unconsumed, and `inflate_next` returns the decompressed
buffer instead of throwing the trailing-data error. No input makes it throw
that error: the `ret` tested after the loop is the variable declared before
the loop, which the loop never assigns. -/
theorem C10_trailing_data_not_detected :
    (zlib_stored.inflate zlib_stored_init trailing_stream output_buffer_size).ret = Z_STREAM_END ∧
    (zlib_stored.inflate zlib_stored_init trailing_stream output_buffer_size).consumed <
      trailing_stream.length ∧
    fresh_inflate libs 1 trailing_stream = .ok sample_plain ∧
    ∀ (E : Env) (fuel : Nat) (z0 : z_stream E.zlib.State) (input : Bytes),
      ZlibInflate.inflate_next E fuel z0 input ≠ .throws .trailing_data :=
  ⟨by decide!, by decide!, by decide!, inflate_next_ne_trailing_data⟩

/-- C19 (partition): on every input on which the constructor returns, the input
is the header record (38 bytes), the optional-header ciphertext
(`opt_header_len` bytes), `encoded_file`, the optional-footer ciphertext
(`opt_footer_len` bytes) and the footer record (`sizeof(CartFooter)` bytes)
joined in this order, so that `encoded_file.size()` is exactly
`raw.size() - sizeof(CartHeader) - sizeof(CartFooter) - opt_header_len - opt_footer_len`
with nothing cut off at zero, and the metadata slices and the payload share no byte. -/
theorem C19_regions_tile_input (E : Env) (fuel : Nat) (raw : Bytes) (key : Key) (obj : CartObject)
    (hok : CartObject.new E fuel raw key = .ok obj) :
    raw = raw.take 38 ++
        slice raw sizeof_CartHeader (sizeof_CartHeader + obj.cart_header.opt_header_len) ++
        obj.encoded_file ++
        slice raw (raw.length - sizeof_CartFooter - obj.cart_footer.opt_footer_len)
          (raw.length - sizeof_CartFooter) ++
        raw.drop (raw.length - sizeof_CartFooter) ∧
      (raw.take 38).length = 38 ∧
      (slice raw sizeof_CartHeader (sizeof_CartHeader + obj.cart_header.opt_header_len)).length =
        obj.cart_header.opt_header_len ∧
      (slice raw (raw.length - sizeof_CartFooter - obj.cart_footer.opt_footer_len)
        (raw.length - sizeof_CartFooter)).length = obj.cart_footer.opt_footer_len ∧
      (raw.drop (raw.length - sizeof_CartFooter)).length = sizeof_CartFooter ∧
      obj.encoded_file.length + sizeof_CartHeader + sizeof_CartFooter +
        obj.cart_header.opt_header_len + obj.cart_footer.opt_footer_len = raw.length ∧
      obj.cart_header.opt_header_len = (header_of raw).opt_header_len ∧
      obj.cart_footer.opt_footer_len = (footer_of raw).opt_footer_len := by
  obtain ⟨hfit, henc⟩ := CartObject_new_layout hok
  obtain ⟨-, hh, hf, -⟩ := CartObject_new_ok hok
  have e0 : sizeof_CartHeader = 38 := rfl
  have e00 : sizeof_CartFooter = 28 := rfl
  rw [e0, e00] at hfit henc ⊢
  refine ⟨?_, ?_, ?_, ?_, ?_, ?_, ?_, ?_⟩
  · rw [henc]
    exact five_pieces raw 38 (38 + obj.cart_header.opt_header_len)
      (raw.length - 28 - obj.cart_footer.opt_footer_len) (raw.length - 28) (by omega) (by omega)
      (by omega)
  · rw [List.length_take]; omega
  · rw [slice_length _ _ _ (by omega)]; omega
  · rw [slice_length _ _ _ (by omega)]; omega
  · rw [List.length_drop]; omega
  · rw [henc, slice_length _ _ _ (by omega)]; omega
  · rw [hh]; rfl
  · rw [hf]; rfl

/-- C19 at the sample container. -/
theorem C19_regions_tile_input_witness :
    CartObject.new libs 1 (sample_container custom_key) custom_key =
      .ok (sample_object custom_key) ∧
    ((sample_container custom_key) = (sample_container custom_key).take 38 ++
        slice (sample_container custom_key) sizeof_CartHeader
          (sizeof_CartHeader + (sample_object custom_key).cart_header.opt_header_len) ++
        (sample_object custom_key).encoded_file ++
        slice (sample_container custom_key)
          ((sample_container custom_key).length - sizeof_CartFooter -
            (sample_object custom_key).cart_footer.opt_footer_len)
          ((sample_container custom_key).length - sizeof_CartFooter) ++
        (sample_container custom_key).drop ((sample_container custom_key).length - sizeof_CartFooter) ∧
      ((sample_container custom_key).take 38).length = 38 ∧
      (slice (sample_container custom_key) sizeof_CartHeader
        (sizeof_CartHeader + (sample_object custom_key).cart_header.opt_header_len)).length =
        (sample_object custom_key).cart_header.opt_header_len ∧
      (slice (sample_container custom_key)
        ((sample_container custom_key).length - sizeof_CartFooter -
          (sample_object custom_key).cart_footer.opt_footer_len)
        ((sample_container custom_key).length - sizeof_CartFooter)).length =
          (sample_object custom_key).cart_footer.opt_footer_len ∧
      ((sample_container custom_key).drop
        ((sample_container custom_key).length - sizeof_CartFooter)).length = sizeof_CartFooter ∧
      (sample_object custom_key).encoded_file.length + sizeof_CartHeader + sizeof_CartFooter +
        (sample_object custom_key).cart_header.opt_header_len +
        (sample_object custom_key).cart_footer.opt_footer_len = (sample_container custom_key).length ∧
      (sample_object custom_key).cart_header.opt_header_len =
        (header_of (sample_container custom_key)).opt_header_len ∧
      (sample_object custom_key).cart_footer.opt_footer_len =
        (footer_of (sample_container custom_key)).opt_footer_len) :=
  ⟨sample_decode custom_key,
    C19_regions_tile_input libs 1 (sample_container custom_key) custom_key
      (sample_object custom_key) (sample_decode custom_key)⟩

/-- C11 (the claim as written fails): `sizeof(CartFooter)` is not 20, and an
input of 58 bytes is rejected by the size check. -/
theorem C11_footer_is_not_20_bytes :
    sizeof_CartFooter ≠ 20 ∧
      CartObject.new libs 1 (List.replicate 58 0) DEFAULT_RC4_KEY = .throws .too_small := by
  constructor
  · decide
  · rfl

/-- C11 (amended): the header record occupies 38 bytes and the footer record 28
bytes (`char[4]`, two `uint64_t`, one `uint64_t`, packed); the size check
rejects exactly the inputs shorter than 66 bytes, and on a normal return the
footer record is the one read from the last 28 bytes of the input. -/
theorem C11_record_sizes (E : Env) (fuel : Nat) (raw : Bytes) (key : Key) :
    sizeof_CartHeader = 38 ∧ sizeof_CartFooter = 28 ∧
      (CartObject.new E fuel raw key = .throws .too_small ↔ raw.length < 66) ∧
      (66 ≤ raw.length → (raw.drop (raw.length - 28)).length = 28) ∧
      ∀ obj, CartObject.new E fuel raw key = .ok obj →
        66 ≤ raw.length ∧ obj.cart_header = read_CartHeader (raw.take 38) ∧
          obj.cart_footer = read_CartFooter (raw.drop (raw.length - 28)) := by
  refine ⟨rfl, rfl, ?_, ?_, ?_⟩
  · constructor
    · intro h
      by_contra hs
      have hs1 : ¬ raw.length < sizeof_CartHeader + sizeof_CartFooter := hs
      rcases CartObject_new_throws_of_size hs1 h with h5 | h5 | h5 | ⟨_, _, h5⟩ | ⟨_, _, h5⟩ | h5 |
        ⟨_, h5⟩ <;> simp at h5
    · intro hs
      have hs1 : raw.length < sizeof_CartHeader + sizeof_CartFooter := hs
      unfold CartObject.new
      rw [if_pos hs1]
  · intro h
    rw [List.length_drop]
    omega
  · intro obj hok
    obtain ⟨hs, hh, hf, -⟩ := CartObject_new_ok hok
    refine ⟨hs, ?_, hf⟩
    rw [hh]
    have e : raw = raw.take 38 ++ raw.drop 38 := (List.take_append_drop 38 raw).symm
    conv_lhs => rw [e]
    exact read_CartHeader_append (raw.take 38) (raw.drop 38)
      (by rw [List.length_take]; exact Nat.min_eq_left (by
        have : sizeof_CartHeader + sizeof_CartFooter = 66 := rfl
        omega))

/-- C12 (packed, little-endian fields): on every input of at least
`sizeof(CartHeader) + sizeof(CartFooter)` bytes the header record read by the
constructor has `cart` = bytes 0..4, `version` = the little-endian value of
bytes 4..6, `reserved` = that of bytes 6..14, `rc4_key` = bytes 14..30 and
`opt_header_len` = that of bytes 30..38; the footer record has `opt_footer_len`
= the little-endian value of the last 8 bytes, the two reserved words in the 16
bytes before them and `tarc` in the 4 bytes before those; the little-endian
value of a field is the sum of its bytes weighted by `256 ^ i`; and these are
the records a constructed object holds. -/
theorem C12_packed_little_endian (E : Env) (fuel : Nat) (raw : Bytes) (key : Key)
    (hsize : sizeof_CartHeader + sizeof_CartFooter ≤ raw.length) :
    (header_of raw).cart = slice raw 0 4 ∧ (header_of raw).cart.length = 4 ∧
      (header_of raw).version = ∑ i in Finset.range 2, (raw.getD (4 + i) 0).val * 256 ^ i ∧
      (header_of raw).reserved = ∑ i in Finset.range 8, (raw.getD (6 + i) 0).val * 256 ^ i ∧
      (header_of raw).rc4_key = slice raw 14 30 ∧ (header_of raw).rc4_key.length = 16 ∧
      (header_of raw).opt_header_len =
        ∑ i in Finset.range 8, (raw.getD (30 + i) 0).val * 256 ^ i ∧
      (footer_of raw).tarc = slice raw (raw.length - 28) (raw.length - 24) ∧
      (footer_of raw).tarc.length = 4 ∧
      (footer_of raw).reserved =
        (∑ i in Finset.range 8, (raw.getD (raw.length - 24 + i) 0).val * 256 ^ i,
          ∑ i in Finset.range 8, (raw.getD (raw.length - 16 + i) 0).val * 256 ^ i) ∧
      (footer_of raw).opt_footer_len =
        ∑ i in Finset.range 8, (raw.getD (raw.length - 8 + i) 0).val * 256 ^ i ∧
      ∀ obj, CartObject.new E fuel raw key = .ok obj →
        obj.cart_header = header_of raw ∧ obj.cart_footer = footer_of raw := by
  have e0 : sizeof_CartHeader = 38 := rfl
  have e00 : sizeof_CartFooter = 28 := rfl
  rw [e0, e00] at hsize
  have hd : ∀ a b, slice (raw.drop (raw.length - 28)) a b =
      slice raw (raw.length - 28 + a) (raw.length - 28 + b) := fun a b => slice_drop raw _ a b
  have f1 : raw.length - 28 + 0 = raw.length - 28 := rfl
  have f2 : raw.length - 28 + 4 = raw.length - 24 := by omega
  have f3 : raw.length - 28 + 12 = raw.length - 16 := by omega
  have f4 : raw.length - 28 + 20 = raw.length - 8 := by omega
  have f5 : raw.length - 28 + 28 = raw.length - 8 + 8 := by omega
  have f6 : raw.length - 16 = raw.length - 24 + 8 := by omega
  have f7 : raw.length - 8 = raw.length - 16 + 8 := by omega
  refine ⟨rfl, ?_, ?_, ?_, rfl, ?_, ?_, ?_, ?_, ?_, ?_, ?_⟩
  · exact slice_length raw 0 4 (by omega)
  · exact le_uint_slice raw 4 2 (by omega)
  · exact le_uint_slice raw 6 8 (by omega)
  · exact slice_length raw 14 30 (by omega)
  · exact le_uint_slice raw 30 8 (by omega)
  · show slice (raw.drop (raw.length - sizeof_CartFooter)) 0 4 = _
    rw [e00, hd, f2]
    rfl
  · show (slice (raw.drop (raw.length - sizeof_CartFooter)) 0 4).length = 4
    rw [e00, hd, slice_length _ _ _ (by omega)]
    omega
  · show (le_uint (slice (raw.drop (raw.length - sizeof_CartFooter)) 4 12),
      le_uint (slice (raw.drop (raw.length - sizeof_CartFooter)) 12 20)) = _
    rw [e00, hd, hd, f2, f3, f4]
    congr 1
    · conv_lhs => rw [f6]
      exact le_uint_slice raw (raw.length - 24) 8 (by omega)
    · conv_lhs => rw [f7]
      exact le_uint_slice raw (raw.length - 16) 8 (by omega)
  · show le_uint (slice (raw.drop (raw.length - sizeof_CartFooter)) 20 28) = _
    rw [e00, hd, f4, f5]
    exact le_uint_slice raw (raw.length - 8) 8 (by omega)
  · intro obj hok
    obtain ⟨-, hh, hf, -⟩ := CartObject_new_ok hok
    exact ⟨hh, hf⟩

/-- C12 at the sample container carted under the custom key, decoded with the
concrete libraries. -/
theorem C12_packed_little_endian_witness :
    sizeof_CartHeader + sizeof_CartFooter ≤ (sample_container custom_key).length ∧
    ((header_of (sample_container custom_key)).cart = slice (sample_container custom_key) 0 4 ∧
      (header_of (sample_container custom_key)).cart.length = 4 ∧
      (header_of (sample_container custom_key)).version =
        ∑ i in Finset.range 2, ((sample_container custom_key).getD (4 + i) 0).val * 256 ^ i ∧
      (header_of (sample_container custom_key)).reserved =
        ∑ i in Finset.range 8, ((sample_container custom_key).getD (6 + i) 0).val * 256 ^ i ∧
      (header_of (sample_container custom_key)).rc4_key = slice (sample_container custom_key) 14 30 ∧
      (header_of (sample_container custom_key)).rc4_key.length = 16 ∧
      (header_of (sample_container custom_key)).opt_header_len =
        ∑ i in Finset.range 8, ((sample_container custom_key).getD (30 + i) 0).val * 256 ^ i ∧
      (footer_of (sample_container custom_key)).tarc =
        slice (sample_container custom_key) ((sample_container custom_key).length - 28)
          ((sample_container custom_key).length - 24) ∧
      (footer_of (sample_container custom_key)).tarc.length = 4 ∧
      (footer_of (sample_container custom_key)).reserved =
        (∑ i in Finset.range 8, ((sample_container custom_key).getD
            ((sample_container custom_key).length - 24 + i) 0).val * 256 ^ i,
          ∑ i in Finset.range 8, ((sample_container custom_key).getD
            ((sample_container custom_key).length - 16 + i) 0).val * 256 ^ i) ∧
      (footer_of (sample_container custom_key)).opt_footer_len =
        ∑ i in Finset.range 8, ((sample_container custom_key).getD
          ((sample_container custom_key).length - 8 + i) 0).val * 256 ^ i ∧
      ∀ obj, CartObject.new libs 1 (sample_container custom_key) custom_key = .ok obj →
        obj.cart_header = header_of (sample_container custom_key) ∧
          obj.cart_footer = footer_of (sample_container custom_key)) :=
  ⟨by rw [sample_container_length]; decide,
    C12_packed_little_endian libs 1 (sample_container custom_key) custom_key
      (by rw [sample_container_length]; decide)⟩

/-- C13 (the claim as written fails): a container whose header tag is `XXXX`
and whose footer tag is `YYYY` is decoded like the same container with the tags
`CART` and `TARC`; no tag is compared with anything. -/
theorem C13_bad_tags_decode :
    (header_of badtag_container).cart = ascii "XXXX" ∧ ascii "XXXX" ≠ ascii "CART" ∧
      (footer_of badtag_container).tarc = ascii "YYYY" ∧ ascii "YYYY" ≠ ascii "TARC" ∧
      CartObject.new libs 1 badtag_container DEFAULT_RC4_KEY = .ok badtag_object := by
  have hd : CartObject.new libs 1 badtag_container DEFAULT_RC4_KEY = .ok badtag_object :=
    CartObject_new_retag libs 1 (bare_container DEFAULT_RC4_KEY) DEFAULT_RC4_KEY
      (bare_object DEFAULT_RC4_KEY) (ascii "XXXX") (ascii "YYYY") rfl rfl
      (bare_decode DEFAULT_RC4_KEY)
  obtain ⟨-, hh, hf, -⟩ := CartObject_new_ok hd
  refine ⟨?_, by decide, ?_, by decide, hd⟩
  · show (read_CartHeader badtag_container).cart = _
    rw [← hh]
    rfl
  · show (read_CartFooter (badtag_container.drop (badtag_container.length - sizeof_CartFooter))).tarc
      = _
    rw [← hf]
    rfl

/-- C13 (amended): the constructor compares neither tag with a constant. On a
normal return `cart_header.cart` is the first 4 bytes of the input and
`cart_footer.tarc` the first 4 bytes of its last 28, whatever they are; and the
same input with any 4 bytes `t1` as header tag and any 4 bytes `t2` as footer
tag is decoded too, to the same object apart from these two members. -/
theorem C13_tags_not_checked (E : Env) (fuel : Nat) (raw : Bytes) (key : Key) (obj : CartObject)
    (t1 t2 : Bytes) (h1 : t1.length = 4) (h2 : t2.length = 4)
    (hok : CartObject.new E fuel raw key = .ok obj) :
    obj.cart_header.cart = raw.take 4 ∧
      obj.cart_footer.tarc = slice raw (raw.length - 28) (raw.length - 24) ∧
      CartObject.new E fuel (retag raw t1 t2) key =
        .ok { obj with
              cart_header := { obj.cart_header with cart := t1 }
              cart_footer := { obj.cart_footer with tarc := t2 } } := by
  obtain ⟨hs, hh, hf, -⟩ := CartObject_new_ok hok
  have e0 : sizeof_CartHeader = 38 := rfl
  have e00 : sizeof_CartFooter = 28 := rfl
  refine ⟨?_, ?_, CartObject_new_retag E fuel raw key obj t1 t2 h1 h2 hok⟩
  · rw [hh]
    exact slice_zero raw 4
  · rw [hf]
    show slice (raw.drop (raw.length - sizeof_CartFooter)) 0 4 = _
    rw [e00, slice_drop]
    have f2 : raw.length - 28 + 4 = raw.length - 24 := by omega
    rw [f2]
    rfl

/-- C13 (amended) at the sample container, with the two tags exchanged. -/
theorem C13_tags_not_checked_witness :
    (ascii "TARC").length = 4 ∧ (ascii "CART").length = 4 ∧
      CartObject.new libs 1 (sample_container custom_key) custom_key =
        .ok (sample_object custom_key) ∧
      ((sample_object custom_key).cart_header.cart = (sample_container custom_key).take 4 ∧
        (sample_object custom_key).cart_footer.tarc =
          slice (sample_container custom_key) ((sample_container custom_key).length - 28)
            ((sample_container custom_key).length - 24) ∧
        CartObject.new libs 1 (retag (sample_container custom_key) (ascii "TARC") (ascii "CART"))
            custom_key =
          .ok { sample_object custom_key with
                cart_header := { (sample_object custom_key).cart_header with cart := ascii "TARC" }
                cart_footer :=
                  { (sample_object custom_key).cart_footer with tarc := ascii "CART" } }) :=
  ⟨rfl, rfl, sample_decode custom_key,
    C13_tags_not_checked libs 1 (sample_container custom_key) custom_key
      (sample_object custom_key) (ascii "TARC") (ascii "CART") rfl rfl (sample_decode custom_key)⟩

set_option maxRecDepth 1000000 in
/-- C14 (code at failing inputs): the ignored fields do take part when a length
field makes an optional slice reach into a record, which the constructor never
checks. `reserved_variant 76` and `reserved_variant 22` differ only in byte 48,
the first byte of the footer's first reserved word, which the optional-header
slice (bytes 38..50) covers: under `field_key` the first has a header that
parses and fails in the optional footer, the second fails in the optional
header. `key_field_variant 77` and `key_field_variant 78` differ only in byte
14, the first byte of the header's `rc4_key` field, which the optional-footer
slice (bytes 14..40) covers and decrypts as ciphertext: the first has a footer
that parses and then builds `encoded_file` from the iterator range (38, 14),
which is undefined behaviour, the second fails in the optional footer. When the
two slices and the payload fit between the two records in order, the outcome
is the same for two inputs of equal length that agree between the records and
in the two length fields: the same error, or the same members apart from the
two records. -/
theorem C14_ignored_fields_reach_the_slices :
    ((reserved_variant 76).length = 72 ∧ (reserved_variant 22).length = 72 ∧
      (reserved_variant 76).take 48 = (reserved_variant 22).take 48 ∧
      (reserved_variant 76).drop 49 = (reserved_variant 22).drop 49 ∧
      opt_header_stage libs (reserved_variant 76) (header_of (reserved_variant 76)) field_key =
        .ok (.object (.cons (ascii "a") (.string (ascii "PY9a")) .nil)) ∧
      CartObject.new libs 1 (reserved_variant 76) field_key =
        .throws (.opt_footer_json (.failed_to_parse (ascii "\x7b\"a\":\"")
          "text outside the modelled fragment")) ∧
      CartObject.new libs 1 (reserved_variant 22) field_key =
        .throws (.opt_header_json (.failed_to_parse (ascii "\x7b\"a\":\"PY9ax\x7d")
          "text outside the modelled fragment"))) ∧
    ((key_field_variant 77).length = 68 ∧ (key_field_variant 78).length = 68 ∧
      (key_field_variant 77).take 14 = (key_field_variant 78).take 14 ∧
      (key_field_variant 77).drop 15 = (key_field_variant 78).drop 15 ∧
      opt_footer_stage libs (key_field_variant 77) (footer_of (key_field_variant 77)) field_key =
        .ok (.object (.cons (ascii "embedded0") (.string (ascii "abuVL9Km9S")) .nil)) ∧
      CartObject.new libs 1 (key_field_variant 77) field_key = .undefined ∧
      CartObject.new libs 1 (key_field_variant 78) field_key =
        .throws (.opt_footer_json
          (.failed_to_parse (ascii "x\"embedded0\":\"abuVL9Km9S\"\x7d")
            "text outside the modelled fragment"))) ∧
    ∀ (E : Env) (fuel : Nat) (key : Key) (raw1 raw2 : Bytes),
      raw1.length = raw2.length →
      (header_of raw1).opt_header_len = (header_of raw2).opt_header_len →
      (footer_of raw1).opt_footer_len = (footer_of raw2).opt_footer_len →
      slice raw1 sizeof_CartHeader (raw1.length - sizeof_CartFooter) =
        slice raw2 sizeof_CartHeader (raw1.length - sizeof_CartFooter) →
      (header_of raw1).opt_header_len < 2 ^ 63 →
      (footer_of raw1).opt_footer_len < 2 ^ 63 →
      sizeof_CartHeader + (header_of raw1).opt_header_len + (footer_of raw1).opt_footer_len +
        sizeof_CartFooter ≤ raw1.length →
      CartObject.new E fuel raw2 key =
        (CartObject.new E fuel raw1 key).bind fun o =>
          .ok { o with cart_header := header_of raw2, cart_footer := footer_of raw2 } := by
  refine ⟨⟨by decide, by decide, by decide, by decide, ?_, ?_, ?_⟩,
    ⟨by decide, by decide, by decide, by decide, ?_, ?_, ?_⟩, ?_⟩
  · decide!
  · decide!
  · decide!
  · decide!
  · decide!
  · decide!
  · intro E fuel key raw1 raw2 hlen hh hf hmid hl1 hl2 hfit
    exact CartObject_new_congr E fuel key hlen hh hf hmid hl1 hl2 hfit

/-- C15 (code at a failing input): the loop of `inflate_next` runs a further
round only while input is unread. For every engine and every input, when the
first round reads the whole input (returning `Z_OK` or `Z_STREAM_END`),
`inflate_next` returns the buffer of that round and calls the engine no more:
the returned vector is what the round wrote, also when the round filled the
65536 bytes and the engine holds more output for this input, which is then
missing. zlib does so on `deflate_run_prefix`: 65536 bytes are returned of the
65792 that the 82 bytes stand for. -/
theorem C15_no_round_after_the_input_is_read (E : Env) (fuel : Nat) (z0 : z_stream E.zlib.State)
    (input : Bytes) (hne : 0 < input.length) (hlt : input.length < 2 ^ 32)
    (hret : (E.zlib.inflate z0.state input output_buffer_size).ret = Z_OK ∨
      (E.zlib.inflate z0.state input output_buffer_size).ret = Z_STREAM_END)
    (hall : (E.zlib.inflate z0.state input output_buffer_size).consumed = input.length) :
    ZlibInflate.inflate_next E (fuel + 1) z0 input =
      .ok ({ next_in := []
             avail_in := 0
             avail_out := output_buffer_size -
               (E.zlib.inflate z0.state input output_buffer_size).output.length
             state := (E.zlib.inflate z0.state input output_buffer_size).state
             msg := (E.zlib.inflate z0.state input output_buffer_size).msg },
        (E.zlib.inflate z0.state input output_buffer_size).output) :=
  inflate_next_one_round E fuel z0 input _ [] 0 _ rfl hne hlt hret
    (by rw [hall]; exact List.drop_length _) (by rw [hall]; exact Nat.sub_self _) rfl (Or.inl rfl)

set_option maxRecDepth 1000000 in
/-- C15 at the stored-block stream of the sample plaintext, with zlib on stored
blocks: the one round reads the 28 bytes and reaches the end of the stream. -/
theorem C15_no_round_after_the_input_is_read_witness :
    0 < (zlib_store sample_plain).length ∧ (zlib_store sample_plain).length < 2 ^ 32 ∧
    ((libs.zlib.inflate zlib_stored_stream.state (zlib_store sample_plain) output_buffer_size).ret =
        Z_OK ∨
      (libs.zlib.inflate zlib_stored_stream.state (zlib_store sample_plain) output_buffer_size).ret =
        Z_STREAM_END) ∧
    (libs.zlib.inflate zlib_stored_stream.state (zlib_store sample_plain)
      output_buffer_size).consumed = (zlib_store sample_plain).length ∧
    ZlibInflate.inflate_next libs (0 + 1) zlib_stored_stream (zlib_store sample_plain) =
      .ok ({ next_in := []
             avail_in := 0
             avail_out := output_buffer_size -
               (libs.zlib.inflate zlib_stored_stream.state (zlib_store sample_plain)
                 output_buffer_size).output.length
             state := (libs.zlib.inflate zlib_stored_stream.state (zlib_store sample_plain)
               output_buffer_size).state
             msg := (libs.zlib.inflate zlib_stored_stream.state (zlib_store sample_plain)
               output_buffer_size).msg },
        (libs.zlib.inflate zlib_stored_stream.state (zlib_store sample_plain)
          output_buffer_size).output) :=
  ⟨by decide, by decide, Or.inr (by decide!), by decide!,
    C15_no_round_after_the_input_is_read libs 0 zlib_stored_stream (zlib_store sample_plain)
      (by decide) (by decide) (Or.inr (by decide!)) (by decide!)⟩

/-- C17 (code at a failing input): on `need_dict_stream`, a zlib header with the
preset-dictionary flag, the first round returns `Z_NEED_DICT`, a status other
than `Z_OK` and `Z_STREAM_END`, and zlib leaves `zlib_stream.msg` a null
pointer, as it was set by `inflateInit`; the `throw` then evaluates
`std::string("Error while inflating: ") + zlib_stream.msg` on the null pointer,
which is undefined behaviour and not an exception with a message, in
`inflate_next` and so in the constructor on `need_dict_container`. In every
round, a status other than the two makes the loop end at the `throw`, with the
engine's message when there is one and nothing returned; and with an engine
that returns only the two statuses `inflate_next` neither throws nor reaches
undefined behaviour. -/
theorem C17_status_without_message_is_undefined :
    ((zlib_stored.inflate zlib_stored_init need_dict_stream output_buffer_size).ret = Z_NEED_DICT ∧
      (zlib_stored.inflate zlib_stored_init need_dict_stream output_buffer_size).msg = none ∧
      Z_NEED_DICT ≠ Z_OK ∧ Z_NEED_DICT ≠ Z_STREAM_END ∧
      fresh_inflate libs 1 need_dict_stream = .undefined ∧
      CartObject.new libs 1 need_dict_container DEFAULT_RC4_KEY = .undefined) ∧
    (∀ (E : Env) (fuel : Nat) (z : z_stream E.zlib.State) (buf : Bytes),
      0 < z.avail_in → z.avail_out = 0 →
      (E.zlib.inflate z.state (z.next_in.take z.avail_in) output_buffer_size).ret ≠ Z_OK →
      (E.zlib.inflate z.state (z.next_in.take z.avail_in) output_buffer_size).ret ≠ Z_STREAM_END →
      inflate_loop E (fuel + 1) Z_OK z buf =
        match (E.zlib.inflate z.state (z.next_in.take z.avail_in) output_buffer_size).msg with
        | none => .undefined
        | some m => .throws (.error_while_inflating m)) ∧
    ∀ (E : Env),
      (∀ s i n, (E.zlib.inflate s i n).ret = Z_OK ∨ (E.zlib.inflate s i n).ret = Z_STREAM_END) →
      ∀ (fuel : Nat) (z0 : z_stream E.zlib.State) (input : Bytes),
        (∃ r, ZlibInflate.inflate_next E fuel z0 input = .ok r) ∨
          ZlibInflate.inflate_next E fuel z0 input = .unfinished := by
  refine ⟨⟨congrArg InflateResult.ret need_dict_round, congrArg InflateResult.msg need_dict_round,
    by decide, by decide, need_dict_inflate_next, need_dict_decode⟩, ?_, ?_⟩
  · intro E fuel z buf hin hout h1 h2
    exact inflate_loop_bad_status E fuel z buf hin hout h1 h2
  · intro E hE fuel z0 input
    rw [inflate_next_eq]
    exact inflate_loop_good_status hE fuel _ _

set_option maxRecDepth 1000000 in
/-- C16 (the claim as written fails): with an OpenSSL in which the RC4 set-up
fails, the constructor throws the same exception, with the message
`Decrypt init failed.`, on a container whose first decryption is that of the
optional header, on one whose first decryption is that of the optional footer
and on one whose only decryption is that of the payload: a cipher failure is
not wrapped and names no stage. -/
theorem C16_cipher_failure_names_no_stage :
    (0 < (header_of (sample_container custom_key)).opt_header_len ∧
      CartObject.new libs_without_rc4 1 (sample_container custom_key) custom_key =
        .throws .decrypt_init_failed) ∧
    ((header_of (footer_only_container custom_key)).opt_header_len = 0 ∧
      0 < (footer_of (footer_only_container custom_key)).opt_footer_len ∧
      CartObject.new libs_without_rc4 1 (footer_only_container custom_key) custom_key =
        .throws .decrypt_init_failed) ∧
    ((header_of (bare_container custom_key)).opt_header_len = 0 ∧
      (footer_of (bare_container custom_key)).opt_footer_len = 0 ∧
      CartObject.new libs_without_rc4 1 (bare_container custom_key) custom_key =
        .throws .decrypt_init_failed) ∧
    What.what .decrypt_init_failed = "Decrypt init failed." := by
  refine ⟨⟨?_, without_rc4_sample⟩, ⟨?_, ?_, without_rc4_footer_only⟩,
    ⟨?_, ?_, without_rc4_bare⟩, rfl⟩
  · decide!
  · decide!
  · decide!
  · decide!
  · decide!

/-- C16 (amended): only a JSON parse failure names its stage. When the optional
header slice decrypts to a text that the parser rejects, the constructor throws
the parser's exception wrapped with the optional-header prefix, whatever the
rest of the input holds (nothing after the slice is looked at); likewise for
the optional footer, once the optional-header stage has passed. A failure of
the cipher is thrown as it is, one of the three `Rc4` messages, in whichever
stage it occurs. An exception with the optional-header prefix comes from the
optional-header stage and one with the optional-footer prefix from the
optional-footer stage, and both wrap a parse failure. -/
theorem C16_parse_failures_name_their_stage (E : Env) (fuel : Nat) (raw : Bytes) (key : Key)
    (txt : Bytes) (errors : String)
    (hs : sizeof_CartHeader + sizeof_CartFooter ≤ raw.length)
    (hpos : 0 < (header_of raw).opt_header_len)
    (hlt : (header_of raw).opt_header_len < 2 ^ 63)
    (hfit : sizeof_CartHeader + (header_of raw).opt_header_len ≤ raw.length)
    (hdec : fresh_decrypt E key
      (slice raw sizeof_CartHeader (sizeof_CartHeader + (header_of raw).opt_header_len)) = .ok txt)
    (hparse : E.parse txt = .error errors) :
    CartObject.new E fuel raw key = .throws (.opt_header_json (.failed_to_parse txt errors)) ∧
    What.what (.opt_header_json (.failed_to_parse txt errors)) =
      "CaRT optional header did not parse as valid JSON: " ++
        What.what (.failed_to_parse txt errors) ∧
    (∀ (raw1 txt1 : Bytes) (errors1 : String) (v : JsonValue),
      sizeof_CartHeader + sizeof_CartFooter ≤ raw1.length →
      opt_header_stage E raw1 (header_of raw1) key = .ok v →
      0 < (footer_of raw1).opt_footer_len → (footer_of raw1).opt_footer_len < 2 ^ 63 →
      sizeof_CartFooter + (footer_of raw1).opt_footer_len ≤ raw1.length →
      fresh_decrypt E key
        (slice raw1 (raw1.length - sizeof_CartFooter - (footer_of raw1).opt_footer_len)
          (raw1.length - sizeof_CartFooter)) = .ok txt1 →
      E.parse txt1 = .error errors1 →
      CartObject.new E fuel raw1 key =
        .throws (.opt_footer_json (.failed_to_parse txt1 errors1))) ∧
    (∀ (raw1 : Bytes) (w : What),
      sizeof_CartHeader + sizeof_CartFooter ≤ raw1.length →
      0 < (header_of raw1).opt_header_len → (header_of raw1).opt_header_len < 2 ^ 63 →
      sizeof_CartHeader + (header_of raw1).opt_header_len ≤ raw1.length →
      fresh_decrypt E key
        (slice raw1 sizeof_CartHeader (sizeof_CartHeader + (header_of raw1).opt_header_len)) =
          .throws w →
      CartObject.new E fuel raw1 key = .throws w ∧
        (w = .cipher_init_failed ∨ w = .decrypt_init_failed ∨ w = .decrypt_update_failed)) ∧
    (∀ (raw1 : Bytes) (inner : What),
      CartObject.new E fuel raw1 key = .throws (.opt_header_json inner) →
      opt_header_stage E raw1 (header_of raw1) key = .throws (.opt_header_json inner) ∧
        ∃ src errors1, inner = .failed_to_parse src errors1) ∧
    ∀ (raw1 : Bytes) (inner : What),
      CartObject.new E fuel raw1 key = .throws (.opt_footer_json inner) →
      (∃ v, opt_header_stage E raw1 (header_of raw1) key = .ok v) ∧
        opt_footer_stage E raw1 (footer_of raw1) key = .throws (.opt_footer_json inner) ∧
        ∃ src errors1, inner = .failed_to_parse src errors1 := by
  refine ⟨?_, rfl, ?_, ?_, ?_, ?_⟩
  · apply CartObject_new_header_throws E fuel raw key _ hs
    rw [opt_header_stage_eq E raw _ key hpos hlt hfit, hdec]
    simp only [Outcome.bind, hparse]
  · intro raw1 txt1 errors1 v hs1 hh hpos1 hlt1 hfit1 hdec1 hparse1
    apply CartObject_new_footer_throws E fuel raw1 key _ v hs1 hh
    rw [opt_footer_stage_eq E raw1 _ key hpos1 hlt1 hfit1, hdec1]
    simp only [Outcome.bind, hparse1]
  · intro raw1 w hs1 hpos1 hlt1 hfit1 hdec1
    refine ⟨?_, fresh_decrypt_throws hdec1⟩
    apply CartObject_new_header_throws E fuel raw1 key _ hs1
    rw [opt_header_stage_eq E raw1 _ key hpos1 hlt1 hfit1, hdec1]
    rfl
  · intro raw1 inner h
    have h1 := CartObject_new_throws_opt_header h
    refine ⟨h1, ?_⟩
    rcases opt_header_stage_throws h1 with h5 | h5 | h5 | ⟨src, errors1, h5⟩
    · simp at h5
    · simp at h5
    · simp at h5
    · simp only [What.opt_header_json.injEq] at h5
      exact ⟨src, errors1, h5⟩
  · intro raw1 inner h
    obtain ⟨h1, h2⟩ := CartObject_new_throws_opt_footer h
    refine ⟨h1, h2, ?_⟩
    rcases opt_footer_stage_throws h2 with h5 | h5 | h5 | ⟨src, errors1, h5⟩
    · simp at h5
    · simp at h5
    · simp at h5
    · simp only [What.opt_footer_json.injEq] at h5
      exact ⟨src, errors1, h5⟩

set_option maxRecDepth 1000000 in
/-- C16 (amended) at the sample container carted under the custom key and
decoded under the default key: the optional header decrypts to 18 bytes that
are not JSON text. -/
theorem C16_parse_failures_name_their_stage_witness :
    ((sizeof_CartHeader + sizeof_CartFooter ≤ (sample_container custom_key).length) ∧
      (0 < (header_of (sample_container custom_key)).opt_header_len) ∧
      ((header_of (sample_container custom_key)).opt_header_len < 2 ^ 63) ∧
      (sizeof_CartHeader + (header_of (sample_container custom_key)).opt_header_len ≤ (sample_container custom_key).length) ∧
      (fresh_decrypt libs DEFAULT_RC4_KEY (slice (sample_container custom_key) sizeof_CartHeader (sizeof_CartHeader + (header_of (sample_container custom_key)).opt_header_len)) = .ok [70, 204, 229, 5, 174, 155, 227, 111, 114, 193, 127, 91, 172, 208, 223, 133, 127, 118]) ∧
      (libs.parse [70, 204, 229, 5, 174, 155, 227, 111, 114, 193, 127, 91, 172, 208, 223, 133, 127, 118] = .error "text outside the modelled fragment")) ∧
    (CartObject.new libs 1 (sample_container custom_key) DEFAULT_RC4_KEY = .throws (.opt_header_json (.failed_to_parse [70, 204, 229, 5, 174, 155, 227, 111, 114, 193, 127, 91, 172, 208, 223, 133, 127, 118] "text outside the modelled fragment")) ∧
    What.what (.opt_header_json (.failed_to_parse [70, 204, 229, 5, 174, 155, 227, 111, 114, 193, 127, 91, 172, 208, 223, 133, 127, 118] "text outside the modelled fragment")) =
      "CaRT optional header did not parse as valid JSON: " ++
        What.what (.failed_to_parse [70, 204, 229, 5, 174, 155, 227, 111, 114, 193, 127, 91, 172, 208, 223, 133, 127, 118] "text outside the modelled fragment") ∧
    (∀ (raw1 txt1 : Bytes) (errors1 : String) (v : JsonValue),
      sizeof_CartHeader + sizeof_CartFooter ≤ raw1.length →
      opt_header_stage libs raw1 (header_of raw1) DEFAULT_RC4_KEY = .ok v →
      0 < (footer_of raw1).opt_footer_len → (footer_of raw1).opt_footer_len < 2 ^ 63 →
      sizeof_CartFooter + (footer_of raw1).opt_footer_len ≤ raw1.length →
      fresh_decrypt libs DEFAULT_RC4_KEY
        (slice raw1 (raw1.length - sizeof_CartFooter - (footer_of raw1).opt_footer_len)
          (raw1.length - sizeof_CartFooter)) = .ok txt1 →
      libs.parse txt1 = .error errors1 →
      CartObject.new libs 1 raw1 DEFAULT_RC4_KEY =
        .throws (.opt_footer_json (.failed_to_parse txt1 errors1))) ∧
    (∀ (raw1 : Bytes) (w : What),
      sizeof_CartHeader + sizeof_CartFooter ≤ raw1.length →
      0 < (header_of raw1).opt_header_len → (header_of raw1).opt_header_len < 2 ^ 63 →
      sizeof_CartHeader + (header_of raw1).opt_header_len ≤ raw1.length →
      fresh_decrypt libs DEFAULT_RC4_KEY
        (slice raw1 sizeof_CartHeader (sizeof_CartHeader + (header_of raw1).opt_header_len)) =
          .throws w →
      CartObject.new libs 1 raw1 DEFAULT_RC4_KEY = .throws w ∧
        (w = .cipher_init_failed ∨ w = .decrypt_init_failed ∨ w = .decrypt_update_failed)) ∧
    (∀ (raw1 : Bytes) (inner : What),
      CartObject.new libs 1 raw1 DEFAULT_RC4_KEY = .throws (.opt_header_json inner) →
      opt_header_stage libs raw1 (header_of raw1) DEFAULT_RC4_KEY = .throws (.opt_header_json inner) ∧
        ∃ src errors1, inner = .failed_to_parse src errors1) ∧
    ∀ (raw1 : Bytes) (inner : What),
      CartObject.new libs 1 raw1 DEFAULT_RC4_KEY = .throws (.opt_footer_json inner) →
      (∃ v, opt_header_stage libs raw1 (header_of raw1) DEFAULT_RC4_KEY = .ok v) ∧
        opt_footer_stage libs raw1 (footer_of raw1) DEFAULT_RC4_KEY = .throws (.opt_footer_json inner) ∧
        ∃ src errors1, inner = .failed_to_parse src errors1) :=
  ⟨⟨by decide!, by decide!, by decide!, by decide!, by decide!, rfl⟩,
    C16_parse_failures_name_their_stage libs 1 (sample_container custom_key) DEFAULT_RC4_KEY
      [70, 204, 229, 5, 174, 155, 227, 111, 114, 193, 127, 91, 172, 208, 223, 133, 127, 118]
      "text outside the modelled fragment"
      (by decide!) (by decide!) (by decide!) (by decide!) (by decide!) rfl⟩

/-- C18 (the claim as written fails): a container whose optional header holds
the JSON string `"sample"` and whose optional footer holds the JSON text `true`
is decoded; `cart_opt_header` is that string and `cart_opt_footer` that
boolean, neither of them a JSON object. -/
theorem C18_scalar_metadata_decodes :
    CartObject.new libs 1 (scalar_meta_container custom_key) custom_key =
        .ok (scalar_meta_object custom_key) ∧
      0 < (header_of (scalar_meta_container custom_key)).opt_header_len ∧
      0 < (footer_of (scalar_meta_container custom_key)).opt_footer_len ∧
      (scalar_meta_object custom_key).cart_opt_header = .string (ascii "sample") ∧
      (scalar_meta_object custom_key).cart_opt_footer = .bool true ∧
      (∀ o, (scalar_meta_object custom_key).cart_opt_header ≠ .object o) ∧
      ∀ o, (scalar_meta_object custom_key).cart_opt_footer ≠ .object o := by
  have h1 := scalar_meta_decode custom_key
  have e1 : header_of (scalar_meta_container custom_key) =
      (scalar_meta_object custom_key).cart_header := (CartObject_new_ok h1).2.1.symm
  have e2 : footer_of (scalar_meta_container custom_key) =
      (scalar_meta_object custom_key).cart_footer := (CartObject_new_ok h1).2.2.1.symm
  refine ⟨h1, ?_, ?_, rfl, rfl, ?_, ?_⟩
  · rw [e1]
    decide
  · rw [e2]
    decide
  · intro o h
    simp [scalar_meta_object] at h
  · intro o h
    simp [scalar_meta_object] at h

/-- C18 (amended): the constructor makes no check of the kind of the parsed
value. On a normal return a present optional header is the root value that the
JSON parser returns for the decrypted slice, and likewise the optional footer;
and on an input made of the five regions, whatever root values `v1` and `v2`
the parser returns for the two decrypted slices, objects or not, the
constructor returns normally with `cart_opt_header = v1` and
`cart_opt_footer = v2`. -/
theorem C18_metadata_is_the_parsed_root (E : Env) (fuel : Nat) (raw : Bytes) (key : Key)
    (obj : CartObject) (hok : CartObject.new E fuel raw key = .ok obj) :
    (0 < (header_of raw).opt_header_len →
      ∃ txt, fresh_decrypt E key
          (slice raw sizeof_CartHeader (sizeof_CartHeader + (header_of raw).opt_header_len)) =
            .ok txt ∧
        E.parse txt = .ok obj.cart_opt_header) ∧
    (0 < (footer_of raw).opt_footer_len →
      ∃ txt, fresh_decrypt E key
          (slice raw (raw.length - sizeof_CartFooter - (footer_of raw).opt_footer_len)
            (raw.length - sizeof_CartFooter)) = .ok txt ∧
        E.parse txt = .ok obj.cart_opt_footer) ∧
    ∀ (hdr oh pl of ftr D out txt1 txt2 : Bytes) (v1 v2 : JsonValue),
      hdr.length = sizeof_CartHeader → (read_CartHeader hdr).opt_header_len = oh.length →
      ftr.length = sizeof_CartFooter → (read_CartFooter ftr).opt_footer_len = of.length →
      oh ≠ [] → fresh_decrypt E key oh = .ok txt1 → E.parse txt1 = .ok v1 →
      of ≠ [] → fresh_decrypt E key of = .ok txt2 → E.parse txt2 = .ok v2 →
      fresh_decrypt E key pl = .ok D → fresh_inflate E fuel D = .ok out →
      (hdr ++ oh ++ pl ++ of ++ ftr).length < 2 ^ 63 →
      CartObject.new E fuel (hdr ++ oh ++ pl ++ of ++ ftr) key =
        .ok { cart_header := read_CartHeader hdr
              cart_opt_header := v1
              encoded_file := pl
              decoded_file := out
              cart_opt_footer := v2
              cart_footer := read_CartFooter ftr } := by
  obtain ⟨-, hh, hf, h1, h2, -⟩ := CartObject_new_ok hok
  have hn1 : obj.cart_header.opt_header_len < 2 ^ 64 := by rw [hh]; exact opt_header_len_lt _
  have hn2 : obj.cart_footer.opt_footer_len < 2 ^ 64 := by rw [hf]; exact opt_footer_len_lt _
  have hh0 : header_of raw = obj.cart_header := hh.symm
  have hf0 : footer_of raw = obj.cart_footer := hf.symm
  refine ⟨?_, ?_, ?_⟩
  · intro hpos
    rw [hh0] at hpos ⊢
    rcases opt_header_stage_ok hn1 h1 with ⟨hz, -⟩ | ⟨-, -, -, txt, hdec, hparse⟩
    · omega
    · exact ⟨txt, hdec, hparse⟩
  · intro hpos
    rw [hf0] at hpos ⊢
    rcases opt_footer_stage_ok hn2 h2 with ⟨hz, -⟩ | ⟨-, -, -, txt, hdec, hparse⟩
    · omega
    · exact ⟨txt, hdec, hparse⟩
  · intro hdr oh pl of ftr D out txt1 txt2 v1 v2 hhdr hh1 hftr hf1 hne1 hd1 hp1 hne2 hd2 hp2
      hpl hinf hmax
    exact CartObject_new_of_regions E key fuel hhdr hh1 hftr hf1 (Or.inr ⟨hne1, txt1, hd1, hp1⟩)
      (Or.inr ⟨hne2, txt2, hd2, hp2⟩) hpl hinf hmax

/-- C18 (amended) at the container with scalar metadata. -/
theorem C18_metadata_is_the_parsed_root_witness :
    CartObject.new libs 1 (scalar_meta_container custom_key) custom_key =
        .ok (scalar_meta_object custom_key) ∧
    ((0 < (header_of (scalar_meta_container custom_key)).opt_header_len →
      ∃ txt, fresh_decrypt libs custom_key
          (slice (scalar_meta_container custom_key) sizeof_CartHeader (sizeof_CartHeader + (header_of (scalar_meta_container custom_key)).opt_header_len)) =
            .ok txt ∧
        libs.parse txt = .ok (scalar_meta_object custom_key).cart_opt_header) ∧
    (0 < (footer_of (scalar_meta_container custom_key)).opt_footer_len →
      ∃ txt, fresh_decrypt libs custom_key
          (slice (scalar_meta_container custom_key) ((scalar_meta_container custom_key).length - sizeof_CartFooter - (footer_of (scalar_meta_container custom_key)).opt_footer_len)
            ((scalar_meta_container custom_key).length - sizeof_CartFooter)) = .ok txt ∧
        libs.parse txt = .ok (scalar_meta_object custom_key).cart_opt_footer) ∧
    ∀ (hdr oh pl of ftr D out txt1 txt2 : Bytes) (v1 v2 : JsonValue),
      hdr.length = sizeof_CartHeader → (read_CartHeader hdr).opt_header_len = oh.length →
      ftr.length = sizeof_CartFooter → (read_CartFooter ftr).opt_footer_len = of.length →
      oh ≠ [] → fresh_decrypt libs custom_key oh = .ok txt1 → libs.parse txt1 = .ok v1 →
      of ≠ [] → fresh_decrypt libs custom_key of = .ok txt2 → libs.parse txt2 = .ok v2 →
      fresh_decrypt libs custom_key pl = .ok D → fresh_inflate libs 1 D = .ok out →
      (hdr ++ oh ++ pl ++ of ++ ftr).length < 2 ^ 63 →
      CartObject.new libs 1 (hdr ++ oh ++ pl ++ of ++ ftr) custom_key =
        .ok { cart_header := read_CartHeader hdr
              cart_opt_header := v1
              encoded_file := pl
              decoded_file := out
              cart_opt_footer := v2
              cart_footer := read_CartFooter ftr }) :=
  ⟨scalar_meta_decode custom_key,
    C18_metadata_is_the_parsed_root libs 1 (scalar_meta_container custom_key) custom_key
      (scalar_meta_object custom_key) (scalar_meta_decode custom_key)⟩

end Cart
